import Mathlib

/-!
# Znode lifecycle state machine and gossip validation (src/znode.cpp)

A shallow embedding of `CZnode::Check`, `CZnode::IsValidForPayment`,
`CZnodePing::SimpleCheck`, `CZnodePing::CheckAndUpdate` and of `CZnodeBroadcast::Update`,
`SimpleCheck`, `CheckOutpoint`, `CheckSignature` and `Create`, and of
`CBIP47Util::getOpCodeData` (src/bip47/utils.cpp), followed by the properties proved
about them.

Conventions of the embedding.

* C++ `int` and `int64_t` values are `Int`s.  The subtraction of line 238 has two
  `int64_t` operands that come from peer messages; it is the 64-bit subtraction
  `subInt64`, which wraps around on overflow as the compiled code does.  The other
  arithmetic of znode.cpp is on clock readings, chain heights and constants, and is
  exact; the helpers of `znode.h` follow the words of the spec, also with exact
  arithmetic.
* A member function that mutates `*this` or `*pmn` becomes a function that returns the
  new record.  An `int &nDos` out-parameter becomes a component of the result.
* Every global the code reads (clocks, chain state, sync status, network parameters, the
  locally operated znode, the constants of `znode.h`) is a field of `Env`; what only the
  broadcast functions read (address predicates, script library, consensus parameters,
  wallet) is a field of `Ext`.  One `Env` with one `Ext` is one snapshot: a call reads the
  same value each time it reads the same global.
* Every `return` of a function is tagged with an exit label, so that a property can say
  which rule ended the call.  The labels are bookkeeping only; the value a C++ caller
  sees is the record, the boolean and `nDos`.
* Logging is not modelled.  `Relay`, `RelayZNode` and `znodeSync.AddedZnodeList` have
  empty bodies or act outside the record; they are recorded as emitted effects.
-/

namespace Znode

/-! ## Data model -/

/-- Transaction outpoint: transaction id and output index. -/
structure COutPoint where
  hash : Nat
  n : Nat
deriving DecidableEq, Repr

/-- The null outpoint, which is what `COutPoint()` constructs. -/
def COutPoint.null : COutPoint := { hash := 0, n := 4294967295 }

/-- Transaction input: the outpoint it spends, the spend-authorization script, the sequence. -/
structure CTxIn where
  prevout : COutPoint
  scriptSig : List Nat
  nSequence : Nat
deriving DecidableEq, Repr

/-- The input that `CTxIn()` constructs. -/
def CTxIn.empty : CTxIn := { prevout := COutPoint.null, scriptSig := [], nSequence := 4294967295 }

/-- Public key, as its serialized bytes. -/
structure CPubKey where
  vch : List Nat
deriving DecidableEq, Repr

/-- Network service address: address bytes and port. -/
structure CService where
  ip : List Nat
  port : Nat
deriving DecidableEq, Repr

/-- Liveness ping: owning input, anchor block hash, signature time, signature bytes. -/
structure CZnodePing where
  vin : CTxIn
  blockHash : Nat
  sigTime : Int
  vchSig : List Nat
deriving DecidableEq, Repr

/-- Modelled from the spec: the default constructor `CZnodePing()` of `znode.h`, which is
not part of the sources at hand.  It builds the empty ping (`lastPing == null` in the
spec): default input, zero anchor hash, zero signature time, no signature. -/
def CZnodePing.empty : CZnodePing :=
  { vin := CTxIn.empty, blockHash := 0, sigTime := 0, vchSig := [] }

/-- Modelled from the spec: the test `ping == CZnodePing()`; the comparison operator is
declared in `znode.h`, which is not part of the sources at hand.  The spec calls a ping
that passes this test empty. -/
def CZnodePing.IsEmpty (p : CZnodePing) : Bool := decide (p = CZnodePing.empty)

/-- Modelled from the spec: the enumerators of the lifecycle state, declared in `znode.h`
(not part of the sources at hand), numbered in the order in which the spec and
`CZnode::StateToString` list them. -/
def ZNODE_PRE_ENABLED : Int := 0
/-- Modelled from the spec: enumerator of `znode.h`, see `ZNODE_PRE_ENABLED`. -/
def ZNODE_ENABLED : Int := 1
/-- Modelled from the spec: enumerator of `znode.h`, see `ZNODE_PRE_ENABLED`. -/
def ZNODE_EXPIRED : Int := 2
/-- Modelled from the spec: enumerator of `znode.h`, see `ZNODE_PRE_ENABLED`. -/
def ZNODE_OUTPOINT_SPENT : Int := 3
/-- Modelled from the spec: enumerator of `znode.h`, see `ZNODE_PRE_ENABLED`. -/
def ZNODE_UPDATE_REQUIRED : Int := 4
/-- Modelled from the spec: enumerator of `znode.h`, see `ZNODE_PRE_ENABLED`. -/
def ZNODE_WATCHDOG_EXPIRED : Int := 5
/-- Modelled from the spec: enumerator of `znode.h`, see `ZNODE_PRE_ENABLED`. -/
def ZNODE_NEW_START_REQUIRED : Int := 6
/-- Modelled from the spec: enumerator of `znode.h`, see `ZNODE_PRE_ENABLED`. -/
def ZNODE_POSE_BAN : Int := 7

/-- The znode record, with the members the constructors of `CZnode` initialise
(znode.cpp lines 42-124).  `nActiveState` is a plain `int` in the code, so a record can
hold a value that is none of the eight enumerators. -/
structure CZnode where
  vin : CTxIn
  addr : CService
  pubKeyCollateralAddress : CPubKey
  pubKeyZnode : CPubKey
  lastPing : CZnodePing
  vchSig : List Nat
  sigTime : Int
  nLastDsq : Int
  nTimeLastChecked : Int
  nTimeLastPaid : Int
  nTimeLastWatchdogVote : Int
  nActiveState : Int
  nCacheCollateralBlock : Int
  nBlockLastPaid : Int
  nProtocolVersion : Int
  nPoSeBanScore : Int
  nPoSeBanHeight : Int
  fAllowMixingTx : Bool
  fUnitTest : Bool
deriving DecidableEq, Repr

/-- The broadcast: a `CZnode` (its base class) plus the recovery flag. -/
structure CZnodeBroadcast where
  base : CZnode
  fRecovery : Bool
deriving DecidableEq, Repr

/-- An entry of the UTXO view, as far as the code inspects it: the value and
`IsNull()` of `coin.out`, the height `coin.nHeight`, and `coin.IsSpent()`. -/
structure Coin where
  nValue : Int
  outIsNull : Bool
  nHeight : Int
  fSpent : Bool
deriving DecidableEq, Repr

/-- An entry of the block index, as far as the code inspects it. -/
structure CBlockIndex where
  nHeight : Int
  nTime : Int
deriving DecidableEq, Repr

/-- The three values of `Params().NetworkIDString()`. -/
inductive Network where
  | MAIN
  | TESTNET
  | REGTEST
deriving DecidableEq, Repr

/-- Everything a call reads from outside the record it works on. -/
structure Env where
  /-- The value of `ShutdownRequested()`. -/
  fShutdownRequested : Bool
  /-- The value of `GetTime()`. -/
  nTime : Int
  /-- The value of `GetAdjustedTime()`. -/
  nAdjustedTime : Int
  /-- Whether `TRY_LOCK(cs_main, lockMain)` obtains the lock. -/
  lockMain : Bool
  /-- The lookup `pcoinsTip->GetCoin`: `none` when it returns false. -/
  GetCoin : COutPoint → Option Coin
  /-- The value of `chainActive.Height()`. -/
  nChainHeight : Int
  /-- The lookup `mapBlockIndex.find`: `none` when the hash is not in the map,
  `some none` when it is mapped to a null pointer. -/
  mapBlockIndex : Nat → Option (Option CBlockIndex)
  /-- The global `fMasternodeMode`. -/
  fMasternodeMode : Bool
  /-- The member `activeZnode.pubKeyZnode`. -/
  activePubKeyZnode : CPubKey
  /-- The member `activeZnode.vin.prevout`. -/
  activePrevout : COutPoint
  /-- The value of `znodeSync.IsZnodeListSynced()`. -/
  fZnodeListSynced : Bool
  /-- The value of `znodeSync.IsSynced()`. -/
  fSynced : Bool
  /-- The network selected by `Params()`. -/
  network : Network
  /-- The constant `ZNODE_CHECK_SECONDS` of `znode.h`. -/
  ZNODE_CHECK_SECONDS : Int
  /-- The constant `ZNODE_MIN_MNB_SECONDS` of `znode.h`. -/
  ZNODE_MIN_MNB_SECONDS : Int
  /-- The value of `CZnodeTimings::MinMnpSeconds()`. -/
  ZNODE_MIN_MNP_SECONDS : Int
  /-- The constant `ZNODE_EXPIRATION_SECONDS` of `znode.h`. -/
  ZNODE_EXPIRATION_SECONDS : Int
  /-- The constant `ZNODE_WATCHDOG_MAX_SECONDS` of `znode.h`. -/
  ZNODE_WATCHDOG_MAX_SECONDS : Int
  /-- The value of `CZnodeTimings::NewStartRequiredSeconds()`. -/
  ZNODE_NEW_START_REQUIRED_SECONDS : Int
  /-- The constant `ZNODE_POSE_BAN_MAX_SCORE` of `znode.h`. -/
  ZNODE_POSE_BAN_MAX_SCORE : Int

/-! ## State predicates and inline helpers of `znode.h` -/

/-- Modelled from the spec: `IsEnabled` of `znode.h` (not part of the sources at hand),
a pure state predicate derived from the enum value. -/
def CZnode.IsEnabled (r : CZnode) : Bool := decide (r.nActiveState = ZNODE_ENABLED)

/-- Modelled from the spec: `IsPoSeBanned` of `znode.h`, a pure state predicate. -/
def CZnode.IsPoSeBanned (r : CZnode) : Bool := decide (r.nActiveState = ZNODE_POSE_BAN)

/-- Modelled from the spec: `IsExpired` of `znode.h`, a pure state predicate. -/
def CZnode.IsExpired (r : CZnode) : Bool := decide (r.nActiveState = ZNODE_EXPIRED)

/-- Modelled from the spec: `IsOutpointSpent` of `znode.h`, a pure state predicate
(the cached knowledge that the collateral is spent). -/
def CZnode.IsOutpointSpent (r : CZnode) : Bool := decide (r.nActiveState = ZNODE_OUTPOINT_SPENT)

/-- Modelled from the spec: `IsUpdateRequired` of `znode.h`, a pure state predicate. -/
def CZnode.IsUpdateRequired (r : CZnode) : Bool := decide (r.nActiveState = ZNODE_UPDATE_REQUIRED)

/-- Modelled from the spec: `IsWatchdogExpired` of `znode.h`, a pure state predicate. -/
def CZnode.IsWatchdogExpired (r : CZnode) : Bool :=
  decide (r.nActiveState = ZNODE_WATCHDOG_EXPIRED)

/-- Modelled from the spec: `IsNewStartRequired` of `znode.h`, a pure state predicate. -/
def CZnode.IsNewStartRequired (r : CZnode) : Bool :=
  decide (r.nActiveState = ZNODE_NEW_START_REQUIRED)

/-- Modelled from the spec: `IsPingedWithin(nSeconds, nTimeToCheckAt)` of `znode.h`
(not part of the sources at hand).  A ping exists within `nSeconds` of the time
`nTimeToCheckAt` when the record has a prior ping (its `lastPing` is not empty) and that
ping is less than `nSeconds` older than `nTimeToCheckAt`.  A caller that passes no time
means the current adjusted network time. -/
def CZnode.IsPingedWithin (r : CZnode) (nSeconds : Int) (nTimeToCheckAt : Int) : Bool :=
  if r.lastPing.IsEmpty then false
  else decide (nTimeToCheckAt - r.lastPing.sigTime < nSeconds)

/-- Modelled from the spec: `IsBroadcastedWithin(nSeconds)` of `znode.h` (not part of
the sources at hand): the record was broadcast within the interval when its `sigTime`
is less than `nSeconds` older than the current adjusted network time. -/
def CZnode.IsBroadcastedWithin (e : Env) (r : CZnode) (nSeconds : Int) : Bool :=
  decide (e.nAdjustedTime - r.sigTime < nSeconds)

/-- Modelled from the spec: `DecreasePoSeBanScore` of `znode.h` (not part of the sources
at hand).  The spec clamps the score to `[0, MAX_SCORE]` and has the unban step decrement
it, so the score goes down by one unless it is already at the lower bound. -/
def CZnode.DecreasePoSeBanScore (r : CZnode) : CZnode :=
  if 0 < r.nPoSeBanScore then { r with nPoSeBanScore := r.nPoSeBanScore - 1 } else r

/-! ## `CZnode::IsValidForPayment` (znode.cpp lines 261-271) -/

/-- The function `CZnode::IsValidForPayment`. -/
def CZnode.IsValidForPayment (r : CZnode) : Bool :=
  if r.nActiveState = ZNODE_ENABLED then true
  else false

/-! ## `CZnode::Check` (znode.cpp lines 143-250) -/

/-- The `return` statements of `CZnode::Check`, in source order; `enabled` is the
fall-through at the end of the body. -/
inductive CheckExit where
  | shutdown
  | throttled
  | alreadySpent
  | lockBusy
  | outpointSpent
  | stillBanned
  | poseBan
  | waitingForPing
  | newStartRequired
  | watchdogExpired
  | expired
  | preEnabled
  | enabled
deriving DecidableEq, Repr

/-- The test of line 162:
`!pcoinsTip->GetCoin(vin.prevout, coin) || coin.out.IsNull() || coin.IsSpent()`. -/
def coinMissingNullOrSpent (e : Env) (prevout : COutPoint) : Bool :=
  match e.GetCoin prevout with
  | none => true
  | some coin => coin.outIsNull || coin.fSpent

/-- The least value of `int64_t`. -/
def INT64_MIN : Int := -9223372036854775808

/-- The greatest value of `int64_t`. -/
def INT64_MAX : Int := 9223372036854775807

/-- The value of the 64-bit two's-complement word that holds `v` modulo `2 ^ 64`. -/
def wrapInt64 (v : Int) : Int :=
  (v + 9223372036854775808) % 18446744073709551616 - 9223372036854775808

/-- The subtraction `a - b` of two `int64_t` values as the compiled code performs it: the
exact difference when it fits in 64 bits, and the difference wrapped around modulo
`2 ^ 64` when it overflows.  The time fields of the records and pings are `int64_t` and
come from peer messages, so the overflow can be reached.  An argument outside the range
of `int64_t` is not a value of such a field; for it the exact difference is kept. -/
def subInt64 (a b : Int) : Int :=
  if INT64_MIN ≤ a ∧ a ≤ INT64_MAX ∧ INT64_MIN ≤ b ∧ b ≤ INT64_MAX then wrapInt64 (a - b)
  else a - b

/-- Lines 238-250 of `CZnode::Check`: the PRE_ENABLED guard and the final assignment of
ENABLED.  The difference `lastPing.sigTime - sigTime` of line 238 is a subtraction of two
`int64_t` fields. -/
def CheckEnable (e : Env) (r : CZnode) : CheckExit × CZnode :=
  if e.network ≠ Network.REGTEST
      ∧ subInt64 r.lastPing.sigTime r.sigTime < e.ZNODE_MIN_MNP_SECONDS then
    (CheckExit.preEnabled, { r with nActiveState := ZNODE_PRE_ENABLED })
  else
    (CheckExit.enabled, { r with nActiveState := ZNODE_ENABLED })

/-- Lines 207-235 of `CZnode::Check`, the body of the block
`if (!fWaitForPing || fOurZnode)`: the three expiry guards in source order, followed
by the rest of the function when none of them fires. -/
def CheckExpiry (e : Env) (r : CZnode) : CheckExit × CZnode :=
  if !r.IsPingedWithin e.ZNODE_NEW_START_REQUIRED_SECONDS e.nAdjustedTime then
    (CheckExit.newStartRequired, { r with nActiveState := ZNODE_NEW_START_REQUIRED })
  else
    let fWatchdogActive : Bool := e.fSynced
    let fWatchdogExpired : Bool :=
      fWatchdogActive && decide (e.nTime - r.nTimeLastWatchdogVote > e.ZNODE_WATCHDOG_MAX_SECONDS)
    if fWatchdogExpired then
      (CheckExit.watchdogExpired, { r with nActiveState := ZNODE_WATCHDOG_EXPIRED })
    else if !r.IsPingedWithin e.ZNODE_EXPIRATION_SECONDS e.nAdjustedTime then
      (CheckExit.expired, { r with nActiveState := ZNODE_EXPIRED })
    else CheckEnable e r

/-- Lines 185-236 of `CZnode::Check`: the local-node test, the waiting-for-ping hold and
the choice between running the expiry guards and skipping them. -/
def CheckStates (e : Env) (r : CZnode) : CheckExit × CZnode :=
  let fOurZnode : Bool := e.fMasternodeMode && decide (e.activePubKeyZnode = r.pubKeyZnode)
  let fWaitForPing : Bool :=
    !e.fZnodeListSynced && !r.IsPingedWithin e.ZNODE_MIN_MNP_SECONDS e.nAdjustedTime
  if (fWaitForPing && !fOurZnode)
      && (r.IsExpired || r.IsWatchdogExpired || r.IsNewStartRequired) then
    (CheckExit.waitingForPing, r)
  else if !fWaitForPing || fOurZnode then CheckExpiry e r
  else CheckEnable e r

/-- Lines 171-183 of `CZnode::Check`, the two ban guards, followed by the rest of the
body.  `nHeight` is the local variable of that name. -/
def CheckBan (e : Env) (nHeight : Int) (r : CZnode) : CheckExit × CZnode :=
  if r.IsPoSeBanned then
    if nHeight < r.nPoSeBanHeight then (CheckExit.stillBanned, r)
    else CheckStates e r.DecreasePoSeBanScore
  else if r.nPoSeBanScore ≥ e.ZNODE_POSE_BAN_MAX_SCORE then
    (CheckExit.poseBan, { r with nActiveState := ZNODE_POSE_BAN })
  else CheckStates e r

/-- The function `CZnode::Check(bool fForce)` with the exit taken: lines 143-169
(shutdown test, throttle, `nTimeLastChecked`, the cached spent test, and outside
unit-test mode the try-lock, the collateral lookup and the chain height), then the
guards of `CheckBan`. -/
def CZnode.CheckTrace (e : Env) (fForce : Bool) (r : CZnode) : CheckExit × CZnode :=
  if e.fShutdownRequested then (CheckExit.shutdown, r)
  else if !fForce && decide (e.nTime - r.nTimeLastChecked < e.ZNODE_CHECK_SECONDS) then
    (CheckExit.throttled, r)
  else
    let r1 : CZnode := { r with nTimeLastChecked := e.nTime }
    if r1.IsOutpointSpent then (CheckExit.alreadySpent, r1)
    else if !r1.fUnitTest then
      if !e.lockMain then (CheckExit.lockBusy, r1)
      else if coinMissingNullOrSpent e r1.vin.prevout then
        (CheckExit.outpointSpent, { r1 with nActiveState := ZNODE_OUTPOINT_SPENT })
      else CheckBan e e.nChainHeight r1
    else CheckBan e 0 r1

/-- The function `CZnode::Check(bool fForce)`: the record after the call. -/
def CZnode.Check (e : Env) (fForce : Bool) (r : CZnode) : CZnode :=
  (r.CheckTrace e fForce).2

/-! ## The locals of `CZnode::Check`, for stating its properties -/

/-- The value that line 186 of `Check` gives the local `fOurZnode`. -/
def fOurZnode (e : Env) (r : CZnode) : Bool :=
  e.fMasternodeMode && decide (e.activePubKeyZnode = r.pubKeyZnode)

/-- The value that line 194 of `Check` gives the local `fWaitForPing`. -/
def fWaitForPing (e : Env) (r : CZnode) : Bool :=
  !e.fZnodeListSynced && !r.IsPingedWithin e.ZNODE_MIN_MNP_SECONDS e.nAdjustedTime

/-- The value that line 216 of `Check` gives the local `fWatchdogExpired`. -/
def fWatchdogExpired (e : Env) (r : CZnode) : Bool :=
  e.fSynced && decide (e.nTime - r.nTimeLastWatchdogVote > e.ZNODE_WATCHDOG_MAX_SECONDS)

/-! ## `CZnodePing` (znode.cpp lines 664-770) -/

/-- What a call does outside the record: `znodeSync.AddedZnodeList()`,
`CZnodePing::Relay()` and `CZnodeBroadcast::RelayZNode()`. -/
inductive Effect where
  | AddedZnodeList
  | Relay
  | RelayZNode
deriving DecidableEq, Repr

/-- The function `CZnodePing::CheckSignature` (lines 664-670): it sets `nDos = 0` and
returns true without looking at the signature.  The result is the returned boolean and
`nDos`. -/
def CZnodePing.CheckSignature (_p : CZnodePing) (_pubKeyZnode : CPubKey) : Bool × Int :=
  (true, 0)

/-- The function `CZnodePing::SimpleCheck` (lines 672-695).  The result is the returned
boolean and `nDos`. -/
def CZnodePing.SimpleCheck (e : Env) (p : CZnodePing) : Bool × Int :=
  if p.sigTime > e.nAdjustedTime + 60 * 60 then (false, 1)
  else
    match e.mapBlockIndex p.blockHash with
    | none => (false, 0)
    | some _ => (true, 0)

/-- The `return` statements of `CZnodePing::CheckAndUpdate`, in source order. -/
inductive PingExit where
  | simpleCheckFailed
  | noRecord
  | updateRequired
  | newStartRequired
  | blockHashTooOld
  | tooEarly
  | badSignature
  | notEnabled
  | relayed
deriving DecidableEq, Repr

/-- The outcome of `CZnodePing::CheckAndUpdate`: the exit taken, the returned boolean,
`nDos`, the record behind `pmn` after the call (`none` for a null `pmn`) and the effects
emitted. -/
structure PingResult where
  exit : PingExit
  fOk : Bool
  nDos : Int
  pmn : Option CZnode
  effects : List Effect
deriving DecidableEq, Repr

/-- The test of line 725:
`(*mi).second && (*mi).second->nHeight < chainActive.Height() - 24`, where `mi` is the
entry of `mapBlockIndex` for the ping's anchor hash. -/
def blockHashTooOld (e : Env) (p : CZnodePing) : Bool :=
  match e.mapBlockIndex p.blockHash with
  | some (some pindex) => decide (pindex.nHeight < e.nChainHeight - 24)
  | _ => false

/-- The function `CZnodePing::CheckAndUpdate` (lines 697-770). -/
def CZnodePing.CheckAndUpdate (e : Env) (p : CZnodePing) (pmn : Option CZnode)
    (fFromNewBroadcast : Bool) : PingResult :=
  let sc := p.SimpleCheck e
  if !sc.1 then
    { exit := PingExit.simpleCheckFailed, fOk := false, nDos := sc.2, pmn := pmn, effects := [] }
  else
    match pmn with
    | none =>
      { exit := PingExit.noRecord, fOk := false, nDos := sc.2, pmn := none, effects := [] }
    | some r =>
      if !fFromNewBroadcast && r.IsUpdateRequired then
        { exit := PingExit.updateRequired, fOk := false, nDos := sc.2, pmn := some r,
          effects := [] }
      else if !fFromNewBroadcast && r.IsNewStartRequired then
        { exit := PingExit.newStartRequired, fOk := false, nDos := sc.2, pmn := some r,
          effects := [] }
      else if blockHashTooOld e p then
        { exit := PingExit.blockHashTooOld, fOk := false, nDos := sc.2, pmn := some r,
          effects := [] }
      else if r.IsPingedWithin (e.ZNODE_MIN_MNP_SECONDS - 60) p.sigTime then
        { exit := PingExit.tooEarly, fOk := false, nDos := sc.2, pmn := some r, effects := [] }
      else
        let cs := p.CheckSignature r.pubKeyZnode
        if !cs.1 then
          { exit := PingExit.badSignature, fOk := false, nDos := cs.2, pmn := some r,
            effects := [] }
        else
          let bump : List Effect :=
            if !e.fZnodeListSynced
                && !r.IsPingedWithin (Int.tdiv e.ZNODE_EXPIRATION_SECONDS 2) e.nAdjustedTime then
              [Effect.AddedZnodeList]
            else []
          let r1 : CZnode := { r with lastPing := p }
          let r2 : CZnode := r1.Check e true
          if !r2.IsEnabled then
            { exit := PingExit.notEnabled, fOk := false, nDos := cs.2, pmn := some r2,
              effects := bump }
          else
            { exit := PingExit.relayed, fOk := true, nDos := cs.2, pmn := some r2,
              effects := bump ++ [Effect.Relay] }

/-! ## `CZnodeBroadcast::Update` (znode.cpp lines 504-553) -/

/-- The function `CZnode::UpdateFromNewBroadcast` (lines 130-132): it returns true and
leaves the record as it is.  The result is the returned boolean and the record. -/
def CZnode.UpdateFromNewBroadcast (r : CZnode) (_mnb : CZnodeBroadcast) : Bool × CZnode :=
  (true, r)

/-- The function `CZnodeBroadcast::CheckSignature` (lines 627-639): it sets `nDos = 0`
and returns true without looking at the signature.  The result is the returned boolean
and `nDos`. -/
def CZnodeBroadcast.CheckSignature (_mnb : CZnodeBroadcast) : Bool × Int :=
  (true, 0)

/-- The `return` statements of `CZnodeBroadcast::Update`, in source order; the final
`return true` is split by whether the block of lines 542-550 ran. -/
inductive UpdateExit where
  | sameSigTime
  | olderSigTime
  | poseBanned
  | keyMismatch
  | badSignature
  | applied
  | discarded
deriving DecidableEq, Repr

/-- The outcome of `CZnodeBroadcast::Update`: the exit taken, the returned boolean,
`nDos`, the record behind `pmn` after the call and the effects emitted. -/
structure UpdateResult where
  exit : UpdateExit
  fOk : Bool
  nDos : Int
  pmn : CZnode
  effects : List Effect
deriving DecidableEq, Repr

/-- The function `CZnodeBroadcast::Update` (lines 504-553).  Both calls `pmn->Check()`
use the default argument, which is `fForce = false`. -/
def CZnodeBroadcast.Update (e : Env) (mnb : CZnodeBroadcast) (pmn : CZnode) : UpdateResult :=
  if pmn.sigTime = mnb.base.sigTime ∧ mnb.fRecovery = false then
    { exit := UpdateExit.sameSigTime, fOk := false, nDos := 0, pmn := pmn, effects := [] }
  else if pmn.sigTime > mnb.base.sigTime then
    { exit := UpdateExit.olderSigTime, fOk := false, nDos := 0, pmn := pmn, effects := [] }
  else
    let r1 : CZnode := pmn.Check e false
    if r1.IsPoSeBanned then
      { exit := UpdateExit.poseBanned, fOk := false, nDos := 0, pmn := r1, effects := [] }
    else if r1.pubKeyCollateralAddress ≠ mnb.base.pubKeyCollateralAddress then
      { exit := UpdateExit.keyMismatch, fOk := false, nDos := 33, pmn := r1, effects := [] }
    else
      let cs := mnb.CheckSignature
      if !cs.1 then
        { exit := UpdateExit.badSignature, fOk := false, nDos := cs.2, pmn := r1, effects := [] }
      else if !r1.IsBroadcastedWithin e e.ZNODE_MIN_MNB_SECONDS
          || (e.fMasternodeMode && decide (mnb.base.pubKeyZnode = e.activePubKeyZnode)) then
        let u := r1.UpdateFromNewBroadcast mnb
        if u.1 then
          { exit := UpdateExit.applied, fOk := true, nDos := cs.2, pmn := u.2.Check e false,
            effects := [Effect.RelayZNode, Effect.AddedZnodeList] }
        else
          { exit := UpdateExit.applied, fOk := true, nDos := cs.2, pmn := u.2,
            effects := [Effect.AddedZnodeList] }
      else
        { exit := UpdateExit.discarded, fOk := true, nDos := cs.2, pmn := r1, effects := [] }

/-! ## Sequences of operations on one record -/

/-- One of the three operations that work on an existing record, with the environment
it runs in. -/
inductive Op where
  | check (e : Env) (fForce : Bool)
  | ping (e : Env) (p : CZnodePing) (fFromNewBroadcast : Bool)
  | update (e : Env) (mnb : CZnodeBroadcast)

/-- The record after one operation. -/
def Op.run (r : CZnode) : Op → CZnode
  | Op.check e fForce => r.Check e fForce
  | Op.ping e p fFromNewBroadcast => ((p.CheckAndUpdate e (some r) fFromNewBroadcast).pmn).getD r
  | Op.update e mnb => (mnb.Update e r).pmn

/-- The record after a finite sequence of operations, each in its own environment. -/
def runOps (r : CZnode) (ops : List Op) : CZnode := ops.foldl Op.run r

/-- The record after a finite sequence of `CZnodeBroadcast::Update` calls, each in its
own environment. -/
def runUpdates (r : CZnode) (calls : List (Env × CZnodeBroadcast)) : CZnode :=
  calls.foldl (fun acc c => (c.2.Update c.1 acc).pmn) r

/-! ## The collaborators of the broadcast functions -/

/-- Private key, as its bytes. -/
structure CKey where
  vch : List Nat
deriving DecidableEq, Repr

/-- What the functions of `CZnodeBroadcast` read from outside besides `Env`: the
address predicates of the network layer, the script library, the consensus parameters,
the transaction index, the active chain, the wallet and the import flags.  None of them
is defined in `znode.cpp`. -/
structure Ext where
  /-- The value of `addrIn.IsIPv4()`. -/
  IsIPv4 : CService → Bool
  /-- The value of `IsReachable(addrIn)`. -/
  IsReachable : CService → Bool
  /-- The value of `addrIn.IsRoutable()`. -/
  IsRoutable : CService → Bool
  /-- The value of `GetScriptForDestination(pubKey.GetID()).size()`. -/
  scriptSize : CPubKey → Nat
  /-- The value of `Params(CBaseChainParams::MAIN).GetDefaultPort()`. -/
  mainnetDefaultPort : Nat
  /-- The value of `ZNODE_COIN_REQUIRED * COIN`. -/
  nCollateralValue : Int
  /-- The value of `Params().GetConsensus().nZnodeMinimumConfirmations`. -/
  nZnodeMinimumConfirmations : Int
  /-- The block hash that `GetTransaction` stores in `hashBlock` for a transaction id;
  0, the value of `uint256()`, when it finds none. -/
  GetTransactionBlock : Nat → Nat
  /-- The lookup `chainActive[nHeight]`: `none` for the null pointer it returns outside
  the chain. -/
  chainActive : Int → Option CBlockIndex
  /-- The value of `chainActive[nHeight]->GetBlockHash()`. -/
  chainActiveHash : Int → Nat
  /-- Whether `chainActive.Tip()` is not null. -/
  fChainTip : Bool
  /-- The value of `znodeSync.IsBlockchainSynced()`. -/
  fBlockchainSynced : Bool
  /-- The global `fImporting`. -/
  fImporting : Bool
  /-- The global `fReindex`. -/
  fReindex : Bool
  /-- The call `pwalletMain->GetZnodeVinAndKeys` on a transaction hash and an output
  index: `none` when it returns false, else the input, the collateral public key and
  the collateral key it delivers. -/
  GetZnodeVinAndKeys : String → String → Option (CTxIn × CPubKey × CKey)
  /-- The value of `LookupNumeric(strService.c_str())`. -/
  LookupNumeric : String → CService
  /-- The constant `LEGACY_ZNODES_PROTOCOL_VERSION`. -/
  LEGACY_ZNODES_PROTOCOL_VERSION : Int

/-! ## Constructors (znode.cpp lines 42-82 and 644-652) -/

/-- The constructor `CZnode::CZnode()` (lines 42-61); `CService()` and `CPubKey()` build
the empty address and the empty key. -/
def CZnode.new (e : Env) (x : Ext) : CZnode :=
  { vin := CTxIn.empty
    addr := { ip := [], port := 0 }
    pubKeyCollateralAddress := { vch := [] }
    pubKeyZnode := { vch := [] }
    lastPing := CZnodePing.empty
    vchSig := []
    sigTime := e.nAdjustedTime
    nLastDsq := 0
    nTimeLastChecked := 0
    nTimeLastPaid := 0
    nTimeLastWatchdogVote := 0
    nActiveState := ZNODE_ENABLED
    nCacheCollateralBlock := 0
    nBlockLastPaid := 0
    nProtocolVersion := x.LEGACY_ZNODES_PROTOCOL_VERSION
    nPoSeBanScore := 0
    nPoSeBanHeight := 0
    fAllowMixingTx := true
    fUnitTest := false }

/-- The constructor `CZnode::CZnode(addrNew, vinNew, pubKeyCollateralAddressNew,
pubKeyZnodeNew, nProtocolVersionIn)` (lines 63-82). -/
def CZnode.ofService (e : Env) (addrNew : CService) (vinNew : CTxIn)
    (pubKeyCollateralAddressNew pubKeyZnodeNew : CPubKey) (nProtocolVersionIn : Int) : CZnode :=
  { vin := vinNew
    addr := addrNew
    pubKeyCollateralAddress := pubKeyCollateralAddressNew
    pubKeyZnode := pubKeyZnodeNew
    lastPing := CZnodePing.empty
    vchSig := []
    sigTime := e.nAdjustedTime
    nLastDsq := 0
    nTimeLastChecked := 0
    nTimeLastPaid := 0
    nTimeLastWatchdogVote := 0
    nActiveState := ZNODE_ENABLED
    nCacheCollateralBlock := 0
    nBlockLastPaid := 0
    nProtocolVersion := nProtocolVersionIn
    nPoSeBanScore := 0
    nPoSeBanHeight := 0
    fAllowMixingTx := true
    fUnitTest := false }

/-- Modelled from the spec: the constructor `CZnodeBroadcast()` of `znode.h` (not part
of the sources at hand): the default record, not a recovery broadcast. -/
def CZnodeBroadcast.new (e : Env) (x : Ext) : CZnodeBroadcast :=
  { base := CZnode.new e x, fRecovery := false }

/-- Modelled from the spec: the constructor `CZnodeBroadcast(addrNew, vinNew,
pubKeyCollateralAddressNew, pubKeyZnodeNew, nProtocolVersionIn)` of `znode.h` (not part
of the sources at hand): the identity snapshot built by the `CZnode` constructor of the
same arguments, not a recovery broadcast. -/
def CZnodeBroadcast.ofService (e : Env) (addrNew : CService) (vinNew : CTxIn)
    (pubKeyCollateralAddressNew pubKeyZnodeNew : CPubKey) (nProtocolVersionIn : Int) :
    CZnodeBroadcast :=
  { base := CZnode.ofService e addrNew vinNew pubKeyCollateralAddressNew pubKeyZnodeNew
      nProtocolVersionIn
    fRecovery := false }

/-- The constructor `CZnodePing::CZnodePing(CTxIn &vinNew)` (lines 644-652).  On a chain
without a tip or shorter than 12 blocks it returns before any assignment; the members are
then those of the empty ping (the code leaves `sigTime` unset there, and the one caller,
`Create`, sets it through `Sign` right away). -/
def CZnodePing.ofVin (e : Env) (x : Ext) (vinNew : CTxIn) : CZnodePing :=
  if !x.fChainTip || decide (e.nChainHeight < 12) then CZnodePing.empty
  else
    { vin := vinNew
      blockHash := x.chainActiveHash (e.nChainHeight - 12)
      sigTime := e.nAdjustedTime
      vchSig := [] }

/-- The function `CZnodePing::Sign` (lines 654-662): it sets `sigTime`, builds the
message and returns true; no signature is written.  The result is the returned boolean
and the ping. -/
def CZnodePing.Sign (e : Env) (p : CZnodePing) (_keyZnode : CKey) (_pubKeyZnode : CPubKey) :
    Bool × CZnodePing :=
  (true, { p with sigTime := e.nAdjustedTime })

/-- The function `CZnodeBroadcast::Sign` (lines 614-625): it sets `sigTime`, builds the
message and returns true; no signature is written.  The result is the returned boolean
and the broadcast. -/
def CZnodeBroadcast.Sign (e : Env) (mnb : CZnodeBroadcast) (_keyCollateralAddress : CKey) :
    Bool × CZnodeBroadcast :=
  (true, { mnb with base := { mnb.base with sigTime := e.nAdjustedTime } })

/-! ## `CZnode::IsValidNetAddr` (znode.cpp lines 257-259 and 273-278) -/

/-- The function `CZnode::IsValidNetAddr(CService addrIn)`. -/
def IsValidNetAddr (e : Env) (x : Ext) (addrIn : CService) : Bool :=
  decide (e.network = Network.REGTEST)
    || (x.IsIPv4 addrIn && x.IsReachable addrIn && x.IsRoutable addrIn)

/-- The function `CZnode::IsValidNetAddr()`. -/
def CZnode.IsValidNetAddr (e : Env) (x : Ext) (r : CZnode) : Bool :=
  Znode.IsValidNetAddr e x r.addr

/-! ## `CZnodeBroadcast::SimpleCheck` (znode.cpp lines 449-502) -/

/-- The `return` statements of `CZnodeBroadcast::SimpleCheck`, in source order. -/
inductive SimpleCheckExit where
  | invalidAddr
  | futureSigTime
  | collateralKeySize
  | znodeKeySize
  | scriptSigNotEmpty
  | portNotMainnetDefault
  | portMainnetDefault
  | passed
deriving DecidableEq, Repr

/-- The outcome of `CZnodeBroadcast::SimpleCheck`: the exit taken, the returned boolean,
`nDos` and the broadcast after the call (line 469 may write its state). -/
structure SimpleCheckResult where
  exit : SimpleCheckExit
  fOk : Bool
  nDos : Int
  mnb : CZnodeBroadcast
deriving DecidableEq, Repr

/-- The condition of line 467, `lastPing == CZnodePing() || !lastPing.SimpleCheck(nDos)`,
with the value it leaves in `nDos`: the ping's `SimpleCheck` runs, and writes `nDos`,
only when the ping is not empty. -/
def pingEmptyOrBad (e : Env) (nDos : Int) (lastPing : CZnodePing) : Bool × Int :=
  if lastPing.IsEmpty then (true, nDos)
  else
    let sc := lastPing.SimpleCheck e
    (!sc.1, sc.2)

/-- The function `CZnodeBroadcast::SimpleCheck` (lines 449-502). -/
def CZnodeBroadcast.SimpleCheck (e : Env) (x : Ext) (mnb : CZnodeBroadcast) :
    SimpleCheckResult :=
  if !mnb.base.IsValidNetAddr e x then
    { exit := SimpleCheckExit.invalidAddr, fOk := false, nDos := 0, mnb := mnb }
  else if mnb.base.sigTime > e.nAdjustedTime + 60 * 60 then
    { exit := SimpleCheckExit.futureSigTime, fOk := false, nDos := 1, mnb := mnb }
  else
    let pc := pingEmptyOrBad e 0 mnb.base.lastPing
    let mnb1 : CZnodeBroadcast :=
      if pc.1 then { mnb with base := { mnb.base with nActiveState := ZNODE_EXPIRED } }
      else mnb
    if x.scriptSize mnb1.base.pubKeyCollateralAddress ≠ 25 then
      { exit := SimpleCheckExit.collateralKeySize, fOk := false, nDos := 100, mnb := mnb1 }
    else if x.scriptSize mnb1.base.pubKeyZnode ≠ 25 then
      { exit := SimpleCheckExit.znodeKeySize, fOk := false, nDos := 100, mnb := mnb1 }
    else if mnb1.base.vin.scriptSig ≠ [] then
      { exit := SimpleCheckExit.scriptSigNotEmpty, fOk := false, nDos := 100, mnb := mnb1 }
    else if e.network = Network.MAIN then
      if mnb1.base.addr.port ≠ x.mainnetDefaultPort then
        { exit := SimpleCheckExit.portNotMainnetDefault, fOk := false, nDos := pc.2, mnb := mnb1 }
      else
        { exit := SimpleCheckExit.passed, fOk := true, nDos := pc.2, mnb := mnb1 }
    else if mnb1.base.addr.port = x.mainnetDefaultPort then
      { exit := SimpleCheckExit.portMainnetDefault, fOk := false, nDos := pc.2, mnb := mnb1 }
    else
      { exit := SimpleCheckExit.passed, fOk := true, nDos := pc.2, mnb := mnb1 }

/-! ## `CZnodeBroadcast::CheckOutpoint` (znode.cpp lines 555-612) -/

/-- The `return` statements of `CZnodeBroadcast::CheckOutpoint`, in source order. -/
inductive OutpointExit where
  | ownZnode
  | badSignature
  | lockBusy
  | noUtxo
  | wrongValue
  | tooFewConfirmations
  | sigTimeBeforeConfirmation
  | verified
deriving DecidableEq, Repr

/-- The outcome of `CZnodeBroadcast::CheckOutpoint`: the exit taken, the returned boolean
and `nDos`. -/
structure OutpointResult where
  exit : OutpointExit
  fOk : Bool
  nDos : Int
deriving DecidableEq, Repr

/-- Lines 592-611 of `CZnodeBroadcast::CheckOutpoint`: the block of the collateral
transaction, the block in which it got `nZnodeMinimumConfirmations` confirmations and the
comparison of that block's time with `sigTime`.  The result is `none` when
`chainActive[...]` is null at line 602, which the code dereferences unchecked. -/
def CheckConfirmationTime (e : Env) (x : Ext) (mnb : CZnodeBroadcast) (nDos : Int) :
    Option OutpointResult :=
  let hashBlock := x.GetTransactionBlock mnb.base.vin.prevout.hash
  match e.mapBlockIndex hashBlock with
  | some (some pMNIndex) =>
    match x.chainActive (pMNIndex.nHeight + x.nZnodeMinimumConfirmations - 1) with
    | none => none
    | some pConfIndex =>
      if pConfIndex.nTime > mnb.base.sigTime then
        some { exit := OutpointExit.sigTimeBeforeConfirmation, fOk := false, nDos := nDos }
      else some { exit := OutpointExit.verified, fOk := true, nDos := nDos }
  | _ => some { exit := OutpointExit.verified, fOk := true, nDos := nDos }

/-- The function `CZnodeBroadcast::CheckOutpoint` (lines 555-612).  `nDosIn` is the value
the caller's variable holds on entry: the first `return` comes before any write to it. -/
def CZnodeBroadcast.CheckOutpoint (e : Env) (x : Ext) (mnb : CZnodeBroadcast) (nDosIn : Int) :
    Option OutpointResult :=
  if e.fMasternodeMode && decide (mnb.base.vin.prevout = e.activePrevout)
      && decide (mnb.base.pubKeyZnode = e.activePubKeyZnode) then
    some { exit := OutpointExit.ownZnode, fOk := false, nDos := nDosIn }
  else
    let cs := mnb.CheckSignature
    if !cs.1 then some { exit := OutpointExit.badSignature, fOk := false, nDos := cs.2 }
    else if !e.lockMain then
      some { exit := OutpointExit.lockBusy, fOk := false, nDos := cs.2 }
    else
      match e.GetCoin mnb.base.vin.prevout with
      | none => some { exit := OutpointExit.noUtxo, fOk := false, nDos := cs.2 }
      | some coin =>
        if coin.outIsNull || coin.fSpent then
          some { exit := OutpointExit.noUtxo, fOk := false, nDos := cs.2 }
        else if coin.nValue ≠ x.nCollateralValue then
          some { exit := OutpointExit.wrongValue, fOk := false, nDos := cs.2 }
        else if e.nChainHeight - coin.nHeight + 1 < x.nZnodeMinimumConfirmations then
          some { exit := OutpointExit.tooFewConfirmations, fOk := false, nDos := cs.2 }
        else CheckConfirmationTime e x mnb cs.2

/-! ## `CZnodeBroadcast::Create` (znode.cpp lines 373-447) -/

/-- The `return` statements of the two overloads of `CZnodeBroadcast::Create`, in source
order.  Each of the failures that sets `strErrorRet` has its own label, so the message is
not modelled apart. -/
inductive CreateExit where
  | syncInProgress
  | noTxin
  | portNotMainnetDefault
  | portMainnetDefault
  | importing
  | pingSignFailed
  | invalidAddr
  | signFailed
  | created
deriving DecidableEq, Repr

/-- The outcome of `CZnodeBroadcast::Create`: the exit taken, the returned boolean and
the value of the out-parameter `mnbRet` after the call. -/
structure CreateResult where
  exit : CreateExit
  fOk : Bool
  mnbRet : CZnodeBroadcast
deriving DecidableEq, Repr

/-- The overload `CZnodeBroadcast::Create(CTxIn txin, CService service, ...)` (lines
412-447).  `mnbRetIn` is the value the caller's variable holds on entry. -/
def CZnodeBroadcast.CreateFromKeys (e : Env) (x : Ext) (txin : CTxIn) (service : CService)
    (keyCollateralAddressNew : CKey) (pubKeyCollateralAddressNew : CPubKey)
    (keyZnodeNew : CKey) (pubKeyZnodeNew : CPubKey) (mnbRetIn : CZnodeBroadcast) :
    CreateResult :=
  if x.fImporting || x.fReindex then
    { exit := CreateExit.importing, fOk := false, mnbRet := mnbRetIn }
  else
    let signed := (CZnodePing.ofVin e x txin).Sign e keyZnodeNew pubKeyZnodeNew
    if !signed.1 then
      { exit := CreateExit.pingSignFailed, fOk := false, mnbRet := CZnodeBroadcast.new e x }
    else
      let mnp := signed.2
      let mnb0 := CZnodeBroadcast.ofService e service txin pubKeyCollateralAddressNew
        pubKeyZnodeNew x.LEGACY_ZNODES_PROTOCOL_VERSION
      if !mnb0.base.IsValidNetAddr e x then
        { exit := CreateExit.invalidAddr, fOk := false, mnbRet := CZnodeBroadcast.new e x }
      else
        let mnb1 : CZnodeBroadcast := { mnb0 with base := { mnb0.base with lastPing := mnp } }
        let sg := mnb1.Sign e keyCollateralAddressNew
        if !sg.1 then
          { exit := CreateExit.signFailed, fOk := false, mnbRet := CZnodeBroadcast.new e x }
        else
          { exit := CreateExit.created, fOk := true, mnbRet := sg.2 }

/-- The overload `CZnodeBroadcast::Create(std::string strService, ...)` (lines 373-410).
The locals `keyZnodeNew` and `pubKeyZnodeNew` are default-constructed and never assigned
before line 409 passes them on; `strKeyZnode` is not read. -/
def CZnodeBroadcast.Create (e : Env) (x : Ext) (strService _strKeyZnode strTxHash
    strOutputIndex : String) (mnbRetIn : CZnodeBroadcast) (fOffline : Bool) : CreateResult :=
  if !fOffline && !x.fBlockchainSynced then
    { exit := CreateExit.syncInProgress, fOk := false, mnbRet := mnbRetIn }
  else
    match x.GetZnodeVinAndKeys strTxHash strOutputIndex with
    | none => { exit := CreateExit.noTxin, fOk := false, mnbRet := mnbRetIn }
    | some (txin, pubKeyCollateralAddressNew, keyCollateralAddressNew) =>
      let service := x.LookupNumeric strService
      if e.network = Network.MAIN then
        if service.port ≠ x.mainnetDefaultPort then
          { exit := CreateExit.portNotMainnetDefault, fOk := false, mnbRet := mnbRetIn }
        else
          CZnodeBroadcast.CreateFromKeys e x txin (x.LookupNumeric strService)
            keyCollateralAddressNew pubKeyCollateralAddressNew { vch := [] } { vch := [] }
            mnbRetIn
      else if service.port = x.mainnetDefaultPort then
        { exit := CreateExit.portMainnetDefault, fOk := false, mnbRet := mnbRetIn }
      else
        CZnodeBroadcast.CreateFromKeys e x txin (x.LookupNumeric strService)
          keyCollateralAddressNew pubKeyCollateralAddressNew { vch := [] } { vch := [] }
          mnbRetIn

/-! ## `CBIP47Util::getOpCodeData` (bip47/utils.cpp lines 23-48) -/

/-- Transaction output: the value and the output script, as its bytes. -/
structure CTxOut where
  nValue : Int
  scriptPubKey : List Nat
deriving DecidableEq, Repr

/-- What `getOpCodeData` takes from the script library, which is not defined in
`bip47/utils.cpp`. -/
structure ScriptLib where
  /-- The call `scriptPubKey.GetOp(pc, opcode, data)` on the bytes from `pc` to the end of
  the script, of which there is at least one: `none` when it returns false, else the
  opcode, the data and the number of bytes over which it moves `pc` beyond the opcode
  byte itself. -/
  GetOp : List Nat → Option (Nat × List Nat × Nat)
  /-- The opcode `OP_PUSHDATA4`. -/
  OP_PUSHDATA4 : Nat

/-- How a call of `getOpCodeData` ends: at a `return` statement, with the returned
boolean and the value of `op_data`, or at the closing brace of the body, which no
`return` statement precedes (lines 47-48), so that the call returns no defined value. -/
inductive OpCodeDataResult where
  | returned (fRet : Bool) (op_data : List Nat)
  | noReturn (op_data : List Nat)
deriving DecidableEq, Repr

/-- The loop of `getOpCodeData` (lines 32-47), on the bytes from `pc` to the end of the
script.  `op_data` is the caller's vector. -/
def getOpCodeDataLoop (lib : ScriptLib) (op_data : List Nat) : List Nat → OpCodeDataResult
  | [] => OpCodeDataResult.noReturn op_data
  | b :: rest =>
    match lib.GetOp (b :: rest) with
    | none => OpCodeDataResult.returned false op_data
    | some (opcode, data, nMoved) =>
      if data.length > 0 ∧ opcode < lib.OP_PUSHDATA4 then OpCodeDataResult.returned true data
      else getOpCodeDataLoop lib op_data (rest.drop nMoved)
termination_by pc => pc.length
decreasing_by
  simp only [List.length_drop, List.length_cons]
  omega

/-- The function `CBIP47Util::getOpCodeData(CTxOut txout, vector<unsigned char>& op_data)`
(lines 28-48). -/
def getOpCodeData (lib : ScriptLib) (txout : CTxOut) (op_data : List Nat) : OpCodeDataResult :=
  getOpCodeDataLoop lib op_data txout.scriptPubKey

/-- The function `CBIP47Util::isValidNotificationTransactionOpReturn` (lines 23-26): the
value that `getOpCodeData` returns for a fresh vector, `none` when that call returns no
defined value. -/
def isValidNotificationTransactionOpReturn (lib : ScriptLib) (txout : CTxOut) : Option Bool :=
  match getOpCodeData lib txout [] with
  | OpCodeDataResult.returned fRet _ => some fRet
  | OpCodeDataResult.noReturn _ => none

/-! ## Concrete inputs -/

/-- An unspent coin of the collateral value, created at height 10. -/
def coinOk : Coin := { nValue := 100000000000, outIsNull := false, nHeight := 10, fSpent := false }

/-- A main-network environment: time 10000 on both clocks, chain height 100, every
outpoint unspent, one known block (hash 77, height 88), node list and everything else
synced, no local znode, and the timing constants 5 s (recheck), 300 s (broadcast),
600 s (ping), 3900 s (expiration), 7200 s (watchdog), 10800 s (new start), ban score 5. -/
def envMain : Env :=
  { fShutdownRequested := false
    nTime := 10000
    nAdjustedTime := 10000
    lockMain := true
    GetCoin := fun _ => some coinOk
    nChainHeight := 100
    mapBlockIndex := fun h => if h = 77 then some (some { nHeight := 88, nTime := 9000 }) else none
    fMasternodeMode := false
    activePubKeyZnode := { vch := [] }
    activePrevout := COutPoint.null
    fZnodeListSynced := true
    fSynced := true
    network := Network.MAIN
    ZNODE_CHECK_SECONDS := 5
    ZNODE_MIN_MNB_SECONDS := 300
    ZNODE_MIN_MNP_SECONDS := 600
    ZNODE_EXPIRATION_SECONDS := 3900
    ZNODE_WATCHDOG_MAX_SECONDS := 7200
    ZNODE_NEW_START_REQUIRED_SECONDS := 10800
    ZNODE_POSE_BAN_MAX_SCORE := 5 }

/-- The input of the collateral outpoint (hash 1, index 0). -/
def vinA : CTxIn := { prevout := { hash := 1, n := 0 }, scriptSig := [], nSequence := 4294967295 }

/-- A ping of `vinA` anchored at block 77 and signed at time 9990. -/
def pingA : CZnodePing := { vin := vinA, blockHash := 77, sigTime := 9990, vchSig := [1] }

/-- An ENABLED record announced at time 1000, last pinged by `pingA`, last checked at
time 0, watchdog vote at time 9000, ban score 0, ban height 0. -/
def znodeA : CZnode :=
  { vin := vinA
    addr := { ip := [10, 0, 0, 1], port := 8168 }
    pubKeyCollateralAddress := { vch := [2, 1] }
    pubKeyZnode := { vch := [2, 2] }
    lastPing := pingA
    vchSig := [3]
    sigTime := 1000
    nLastDsq := 0
    nTimeLastChecked := 0
    nTimeLastPaid := 0
    nTimeLastWatchdogVote := 9000
    nActiveState := ZNODE_ENABLED
    nCacheCollateralBlock := 0
    nBlockLastPaid := 0
    nProtocolVersion := 90026
    nPoSeBanScore := 0
    nPoSeBanHeight := 0
    fAllowMixingTx := true
    fUnitTest := false }

/-- The record `znodeA` with the ban score at the maximum of `envMain`. -/
def znodeMaxScore : CZnode := { znodeA with nPoSeBanScore := 5 }

/-- The record `znodeA` banned until height 150, with ban score 5. -/
def znodeBanned150 : CZnode :=
  { znodeA with nActiveState := ZNODE_POSE_BAN, nPoSeBanScore := 5, nPoSeBanHeight := 150 }

/-- The record `znodeA` in state OUTPOINT_SPENT. -/
def znodeSpent : CZnode := { znodeA with nActiveState := ZNODE_OUTPOINT_SPENT }

/-- The record `znodeA` in unit-test mode. -/
def znodeUnitTest : CZnode := { znodeA with fUnitTest := true }

/-- The environment `envMain` with an oracle that has no coin at all. -/
def envNoCoin : Env := { envMain with GetCoin := fun _ => none }

/-- A ping of `vinA` anchored at block 77 and signed at time 10000. -/
def pingB : CZnodePing := { vin := vinA, blockHash := 77, sigTime := 10000, vchSig := [4] }

/-- A broadcast for the record `znodeA`, signed at time 2000, not a recovery one. -/
def mnbNewer : CZnodeBroadcast :=
  { base := { znodeA with sigTime := 2000, lastPing := pingB }, fRecovery := false }

/-- A ping of `vinA` signed at time 15000, more than an hour ahead of `envMain`. -/
def pingFuture : CZnodePing := { vin := vinA, blockHash := 77, sigTime := 15000, vchSig := [5] }

/-- A ping of `vinA` signed at time 13600, exactly an hour ahead of `envMain`. -/
def pingEdge : CZnodePing := { vin := vinA, blockHash := 77, sigTime := 13600, vchSig := [6] }

/-- The environment `envMain` with three known blocks: hash 70 at height 70, hash 76 at
height 76 and hash 77 at height 88. -/
def envBlocks : Env :=
  { envMain with
    mapBlockIndex := fun h =>
      if h = 70 then some (some { nHeight := 70, nTime := 8000 })
      else if h = 76 then some (some { nHeight := 76, nTime := 8500 })
      else if h = 77 then some (some { nHeight := 88, nTime := 9000 })
      else none }

/-- A ping of `vinA` anchored at block 70 and signed at time 10000. -/
def pingOld : CZnodePing := { vin := vinA, blockHash := 70, sigTime := 10000, vchSig := [7] }

/-- A ping of `vinA` anchored at block 76 and signed at time 10000. -/
def pingAt76 : CZnodePing := { vin := vinA, blockHash := 76, sigTime := 10000, vchSig := [8] }

/-- A ping of `vinA` anchored at block 77 and signed at time 9000. -/
def pingEarlier : CZnodePing := { vin := vinA, blockHash := 77, sigTime := 9000, vchSig := [9] }

/-- The record `znodeA` last pinged by `pingEarlier`, a thousand seconds ago. -/
def znodeIdle : CZnode := { znodeA with lastPing := pingEarlier }

/-- The record `znodeA` whose stored ping is signed at time 13500, less than an hour
ahead of `envMain`. -/
def znodeAheadPing : CZnode := { znodeA with lastPing := { pingA with sigTime := 13500 } }

/-- A ping of `vinA` signed at time 13700, more than an hour ahead of `envMain`. -/
def pingAhead : CZnodePing := { vin := vinA, blockHash := 77, sigTime := 13700, vchSig := [10] }

/-- A broadcast for the record `znodeA`, signed at time 500, before the record's own
announcement. -/
def mnbOlder : CZnodeBroadcast :=
  { base := { znodeA with sigTime := 500 }, fRecovery := true }

/-- A broadcast for the record `znodeA` with the record's own `sigTime`, not a recovery
one. -/
def mnbSame : CZnodeBroadcast := { base := znodeA, fRecovery := false }

/-- The record `znodeA` with no ping stored. -/
def znodeNoPing : CZnode := { znodeA with lastPing := CZnodePing.empty }

/-- Collaborators that accept every address and every key: 25-byte key scripts, mainnet
default port 8168, collateral of 1000 coins, 6 confirmations required, a chain whose block
at height `h` (0 to 100) has time `10 * h` and hash `h`, every transaction in the block
of hash 77, a synced wallet that delivers `vinA` with the key `[2, 1]`, and every service
string resolving to 10.0.0.1:8168. -/
def extMain : Ext :=
  { IsIPv4 := fun _ => true
    IsReachable := fun _ => true
    IsRoutable := fun _ => true
    scriptSize := fun _ => 25
    mainnetDefaultPort := 8168
    nCollateralValue := 100000000000
    nZnodeMinimumConfirmations := 6
    GetTransactionBlock := fun _ => 77
    chainActive := fun h => if 0 ≤ h ∧ h ≤ 100 then some { nHeight := h, nTime := 10 * h } else none
    chainActiveHash := fun h => h.toNat
    fChainTip := true
    fBlockchainSynced := true
    fImporting := false
    fReindex := false
    GetZnodeVinAndKeys := fun _ _ => some (vinA, { vch := [2, 1] }, { vch := [9, 9] })
    LookupNumeric := fun _ => { ip := [10, 0, 0, 1], port := 8168 }
    LEGACY_ZNODES_PROTOCOL_VERSION := 90026 }

/-- The collaborators `extMain` with 100 confirmations required. -/
def ext100 : Ext := { extMain with nZnodeMinimumConfirmations := 100 }

/-- The environment `envMain` (chain height 100) in which every coin was created at
height 51, so that it has 50 confirmations. -/
def envCoin51 : Env := { envMain with GetCoin := fun _ => some { coinOk with nHeight := 51 } }

/-- The environment `envMain` on a node that runs in znode mode and operates the znode
of `znodeA`: same collateral outpoint, same operating key. -/
def envOwn : Env :=
  { envMain with fMasternodeMode := true, activePubKeyZnode := { vch := [2, 2] },
                 activePrevout := { hash := 1, n := 0 } }

/-- A broadcast for the outpoint of `znodeA` by another collateral key, signed at 2000. -/
def mnbOtherKey : CZnodeBroadcast :=
  { base := { znodeA with sigTime := 2000, pubKeyCollateralAddress := { vch := [2, 7] } },
    fRecovery := false }

/-- A record announced at time 10000 with no ping stored: `znodeA` right after its
creation at the time of `envMain`. -/
def znodeFresh : CZnode := { znodeA with lastPing := CZnodePing.empty, sigTime := 10000 }

/-- The environment `envMain` while the node list is still syncing. -/
def envSyncing : Env := { envMain with fZnodeListSynced := false, fSynced := false }

/-- The environment `envSyncing` on the regression-test network. -/
def envRegtest : Env := { envSyncing with network := Network.REGTEST }

/-- A service address on port 1234, which is not the mainnet default port of `extMain`. -/
def serviceOddPort : CService := { ip := [10, 0, 0, 1], port := 1234 }

/-- A broadcast for the record `znodeA` that changes the address, the operating key, the
protocol version, the signature, the signature time and the ping. -/
def mnbMoved : CZnodeBroadcast :=
  { base := { znodeA with addr := { ip := [10, 0, 0, 2], port := 8168 },
                          pubKeyZnode := { vch := [2, 3] }, nProtocolVersion := 90027,
                          vchSig := [11], sigTime := 2000, lastPing := pingB },
    fRecovery := false }

/-- The broadcast `mnbNewer` with no signature bytes at all. -/
def mnbUnsigned : CZnodeBroadcast := { base := { mnbNewer.base with vchSig := [] }, fRecovery := false }

/-- The environment `envMain` while another thread holds `cs_main`. -/
def envLockBusy : Env := { envMain with lockMain := false }

/-- The environment `envMain` three seconds later. -/
def envLater : Env := { envMain with nTime := 10003, nAdjustedTime := 10003 }

/-- The broadcast `mnbNewer` signed at time 15000, more than an hour ahead of `envMain`. -/
def mnbFuture : CZnodeBroadcast :=
  { base := { mnbNewer.base with sigTime := 15000 }, fRecovery := false }

/-- The broadcast `mnbNewer` with a spend-authorization script in its input. -/
def mnbScriptSig : CZnodeBroadcast :=
  { base := { mnbNewer.base with vin := { vinA with scriptSig := [81] } }, fRecovery := false }

/-- The broadcast `mnbNewer` with the service address `serviceOddPort`. -/
def mnbOddPort : CZnodeBroadcast :=
  { base := { mnbNewer.base with addr := serviceOddPort }, fRecovery := false }

/-- A service string for `Create`. -/
def strService1 : String := "10.0.0.1:8168"

/-- An operating-key string for `Create`. -/
def strKeyZnode1 : String := "key"

/-- A collateral transaction hash string for `Create`. -/
def strTxHash1 : String := "01"

/-- A collateral output index string for `Create`. -/
def strOutputIndex1 : String := "0"

/-- The record `znodeA` marked EXPIRED and last checked at time 10000. -/
def znodeChecked : CZnode :=
  { znodeA with nActiveState := ZNODE_EXPIRED, nTimeLastChecked := 10000 }

/-- The record `znodeIdle` (last ping a thousand seconds ago) in state EXPIRED. -/
def znodeIdleExpired : CZnode := { znodeIdle with nActiveState := ZNODE_EXPIRED }

/-- The record `znodeA` announced at time 9800, 190 seconds before its stored ping. -/
def znodeYoung : CZnode := { znodeA with sigTime := 9800 }

/-- The record `znodeIdle` announced at time 9800. -/
def znodeIdleYoung : CZnode := { znodeIdle with sigTime := 9800 }

/-- The broadcast `mnbNewer` carrying the ping `pingFuture`, signed more than an hour
ahead of `envMain`. -/
def mnbPingAhead : CZnodeBroadcast :=
  { base := { mnbNewer.base with lastPing := pingFuture }, fRecovery := false }

/-- The broadcast `mnbNewer` carrying no ping. -/
def mnbNoPing : CZnodeBroadcast :=
  { base := { mnbNewer.base with lastPing := CZnodePing.empty }, fRecovery := false }

/-- A script library that reads direct pushes only: an opcode below 76 is followed by
that many bytes of data, which `GetOp` fails to read when the script is too short, and
every other opcode carries no data; `OP_PUSHDATA4` is 78. -/
def libDirect : ScriptLib :=
  { GetOp := fun pc =>
      match pc with
      | [] => none
      | opcode :: rest =>
        if opcode < 76 then
          if rest.length < opcode then none else some (opcode, rest.take opcode, opcode)
        else some (opcode, [], 0)
    OP_PUSHDATA4 := 78 }

/-- An output with the empty script. -/
def txoutEmpty : CTxOut := { nValue := 0, scriptPubKey := [] }

/-- An output whose script is the single opcode 106 (`OP_RETURN`). -/
def txoutReturnOnly : CTxOut := { nValue := 0, scriptPubKey := [106] }

/-- An output whose script is opcode 106 followed by a push of the three bytes 7, 8, 9. -/
def txoutReturnData : CTxOut := { nValue := 0, scriptPubKey := [106, 3, 7, 8, 9] }

/-- An output whose script announces a push of five bytes and holds two. -/
def txoutTruncated : CTxOut := { nValue := 0, scriptPubKey := [106, 5, 7, 8] }

/-- The environment `envMain` with the block of hash 77 at height 10, where `coinOk` was
created. -/
def envCoinBlock : Env :=
  { envMain with
    mapBlockIndex := fun h => if h = 77 then some (some { nHeight := 10, nTime := 100 }) else none }

/-- A broadcast for the outpoint of `znodeA` signed at time 100. -/
def mnbEarly : CZnodeBroadcast := { base := { znodeA with sigTime := 100 }, fRecovery := false }

/-- A ping of `vinA` anchored at block 77 whose `sigTime` is `INT64_MIN`, the least value
the field can take in a peer message. -/
def pingMin : CZnodePing :=
  { vin := vinA, blockHash := 77, sigTime := -9223372036854775808, vchSig := [12] }

/-- The record `znodeFresh` (announced at time 10000, no ping stored) in state
PRE_ENABLED. -/
def znodeFreshPre : CZnode := { znodeFresh with nActiveState := ZNODE_PRE_ENABLED }

/-- The record `znodeFreshPre` with the ping `pingMin` stored. -/
def znodeFreshPinged : CZnode := { znodeFreshPre with lastPing := pingMin }

/-! # Properties -/

/-! ## The 64-bit subtraction of line 238 -/

/-- A difference that fits in 64 bits is computed exactly. -/
theorem subInt64_exact (a b : Int) (hLo : INT64_MIN ≤ a - b) (hHi : a - b ≤ INT64_MAX) :
    subInt64 a b = a - b := by
  unfold subInt64 wrapInt64
  unfold INT64_MIN at hLo
  unfold INT64_MAX at hHi
  split <;> omega

/-- Subtraction from 0, the `sigTime` of the empty ping: an upper bound of the exact
difference is an upper bound of the computed one. -/
theorem subInt64_zero_lt (b m : Int) (h : 0 - b < m) : subInt64 0 b < m := by
  unfold subInt64 wrapInt64 INT64_MIN INT64_MAX
  split <;> omega

/-- The computed difference is a value of `int64_t` when the operands are. -/
theorem subInt64_range (a b : Int) (ha : INT64_MIN ≤ a ∧ a ≤ INT64_MAX)
    (hb : INT64_MIN ≤ b ∧ b ≤ INT64_MAX) :
    INT64_MIN ≤ subInt64 a b ∧ subInt64 a b ≤ INT64_MAX
    ∧ (subInt64 a b - (a - b)) % 18446744073709551616 = 0 := by
  unfold subInt64 wrapInt64
  rw [if_pos ⟨ha.1, ha.2, hb.1, hb.2⟩]
  unfold INT64_MIN INT64_MAX at *
  omega

/-! ## Frame lemmas for `CZnode::Check` -/

/-- The last guards of `Check` write nothing but the state. -/
theorem CheckEnable_writes (e : Env) (r : CZnode) :
    ∃ s, (CheckEnable e r).2 = { r with nActiveState := s } := by
  unfold CheckEnable
  split
  · exact ⟨_, rfl⟩
  · exact ⟨_, rfl⟩

/-- The expiry guards of `Check` write nothing but the state. -/
theorem CheckExpiry_writes (e : Env) (r : CZnode) :
    ∃ s, (CheckExpiry e r).2 = { r with nActiveState := s } := by
  unfold CheckExpiry
  split
  · exact ⟨_, rfl⟩
  · simp only []
    split
    · exact ⟨_, rfl⟩
    · split
      · exact ⟨_, rfl⟩
      · exact CheckEnable_writes e r

/-- Lines 185-250 of `Check` write nothing but the state. -/
theorem CheckStates_writes (e : Env) (r : CZnode) :
    ∃ s, (CheckStates e r).2 = { r with nActiveState := s } := by
  unfold CheckStates
  simp only []
  split
  · exact ⟨r.nActiveState, rfl⟩
  · split
    · exact CheckExpiry_writes e r
    · exact CheckEnable_writes e r

/-- The ban guards and what follows them write nothing but the state and the ban score. -/
theorem CheckBan_writes (e : Env) (nHeight : Int) (r : CZnode) :
    ∃ s sc, (CheckBan e nHeight r).2 = { r with nActiveState := s, nPoSeBanScore := sc } := by
  unfold CheckBan
  split
  · split
    · exact ⟨r.nActiveState, r.nPoSeBanScore, rfl⟩
    · obtain ⟨s, hs⟩ := CheckStates_writes e r.DecreasePoSeBanScore
      rw [hs]
      unfold CZnode.DecreasePoSeBanScore
      split
      · exact ⟨_, _, rfl⟩
      · exact ⟨_, r.nPoSeBanScore, rfl⟩
  · split
    · exact ⟨_, r.nPoSeBanScore, rfl⟩
    · obtain ⟨s, hs⟩ := CheckStates_writes e r
      rw [hs]
      exact ⟨_, r.nPoSeBanScore, rfl⟩

/-- A call of `Check` writes nothing but the time of the last check, the state and the
ban score. -/
theorem Check_writes (e : Env) (fForce : Bool) (r : CZnode) :
    ∃ t s sc, r.Check e fForce
      = { r with nTimeLastChecked := t, nActiveState := s, nPoSeBanScore := sc } := by
  unfold CZnode.Check CZnode.CheckTrace
  split
  · exact ⟨r.nTimeLastChecked, r.nActiveState, r.nPoSeBanScore, rfl⟩
  · split
    · exact ⟨r.nTimeLastChecked, r.nActiveState, r.nPoSeBanScore, rfl⟩
    · simp only []
      split
      · exact ⟨e.nTime, r.nActiveState, r.nPoSeBanScore, rfl⟩
      · split
        · split
          · exact ⟨e.nTime, r.nActiveState, r.nPoSeBanScore, rfl⟩
          · split
            · exact ⟨e.nTime, _, r.nPoSeBanScore, rfl⟩
            · obtain ⟨s, sc, h⟩ := CheckBan_writes e e.nChainHeight
                { r with nTimeLastChecked := e.nTime }
              rw [h]
              exact ⟨e.nTime, s, sc, rfl⟩
        · obtain ⟨s, sc, h⟩ := CheckBan_writes e 0 { r with nTimeLastChecked := e.nTime }
          rw [h]
          exact ⟨e.nTime, s, sc, rfl⟩

/-- A call of `Check` never writes the ban-until-height. -/
theorem Check_nPoSeBanHeight (e : Env) (fForce : Bool) (r : CZnode) :
    (r.Check e fForce).nPoSeBanHeight = r.nPoSeBanHeight := by
  obtain ⟨t, s, sc, h⟩ := Check_writes e fForce r
  rw [h]

/-- A call of `Check` never writes the announcement time. -/
theorem Check_sigTime (e : Env) (fForce : Bool) (r : CZnode) :
    (r.Check e fForce).sigTime = r.sigTime := by
  obtain ⟨t, s, sc, h⟩ := Check_writes e fForce r
  rw [h]

/-- A call of `Check` on a record whose collateral is known to be spent leaves the
state as it is. -/
theorem Check_spent (e : Env) (fForce : Bool) (r : CZnode)
    (h : r.nActiveState = ZNODE_OUTPOINT_SPENT) :
    (r.Check e fForce).nActiveState = ZNODE_OUTPOINT_SPENT := by
  unfold CZnode.Check CZnode.CheckTrace
  split
  · exact h
  · split
    · exact h
    · simp [CZnode.IsOutpointSpent, h]

/-! ## Payment eligibility -/

/-- C1: `CZnode::IsValidForPayment` returns true exactly when the record's state is
ENABLED; it returns false in each of the seven other states and for every state value
outside the range of the enumerators. -/
theorem IsValidForPayment_iff_enabled (r : CZnode) :
    (r.IsValidForPayment = true ↔ r.nActiveState = ZNODE_ENABLED)
    ∧ (r.nActiveState ∈ [ZNODE_PRE_ENABLED, ZNODE_EXPIRED, ZNODE_OUTPOINT_SPENT,
          ZNODE_UPDATE_REQUIRED, ZNODE_WATCHDOG_EXPIRED, ZNODE_NEW_START_REQUIRED,
          ZNODE_POSE_BAN] → r.IsValidForPayment = false)
    ∧ (r.nActiveState < 0 ∨ 7 < r.nActiveState → r.IsValidForPayment = false) := by
  refine ⟨?_, ?_, ?_⟩
  · unfold CZnode.IsValidForPayment
    split <;> simp_all
  · intro h
    unfold CZnode.IsValidForPayment
    simp only [ZNODE_PRE_ENABLED, ZNODE_EXPIRED, ZNODE_OUTPOINT_SPENT, ZNODE_UPDATE_REQUIRED,
      ZNODE_WATCHDOG_EXPIRED, ZNODE_NEW_START_REQUIRED, ZNODE_POSE_BAN, List.mem_cons,
      List.mem_singleton, List.mem_nil_iff, or_false] at h
    simp only [ZNODE_ENABLED]
    split
    · omega
    · rfl
  · intro h
    unfold CZnode.IsValidForPayment
    simp only [ZNODE_ENABLED]
    split
    · omega
    · rfl

/-! ## The ban guards of `Check` -/

/-- C2: at the record `znodeMaxScore` (ENABLED, collateral unspent, ban score 5 = the
maximum, ban-until-height 0) an unthrottled `Check` that obtains the lock at chain
height 100 takes the ban exit and sets the state to POSE_BAN, but the ban-until-height
is still 0 afterwards: it is not 100 plus a payment-cycle length, whatever that length. -/
theorem Check_poseBan_keeps_ban_height :
    znodeMaxScore.nActiveState = ZNODE_ENABLED
    ∧ coinMissingNullOrSpent envMain znodeMaxScore.vin.prevout = false
    ∧ znodeMaxScore.nPoSeBanScore ≥ envMain.ZNODE_POSE_BAN_MAX_SCORE
    ∧ envMain.nChainHeight = 100
    ∧ (znodeMaxScore.CheckTrace envMain false).1 = CheckExit.poseBan
    ∧ (znodeMaxScore.Check envMain false).nActiveState = ZNODE_POSE_BAN
    ∧ (znodeMaxScore.Check envMain false).nPoSeBanHeight = 0
    ∧ ∀ nCycle : Nat, (znodeMaxScore.Check envMain false).nPoSeBanHeight
        ≠ envMain.nChainHeight + (nCycle : Int) := by
  refine ⟨by decide, by decide, by decide, by decide, by decide, by decide, by decide, ?_⟩
  intro nCycle
  have h : (znodeMaxScore.Check envMain false).nPoSeBanHeight = 0 := by decide
  have h2 : envMain.nChainHeight = 100 := by decide
  rw [h, h2]
  omega

/-- C3: for a record in state POSE_BAN whose collateral the chain-state oracle reports
unspent, a `Check`, forced or not, made while the chain height is below the record's
ban-until-height leaves the state POSE_BAN and leaves the ban score and the
ban-until-height as they were.  (In unit-test mode `Check` compares 0 instead of the
chain height, which is covered as long as the chain height is not negative.) -/
theorem Check_poseBan_before_ban_height (e : Env) (fForce : Bool) (r : CZnode)
    (hState : r.nActiveState = ZNODE_POSE_BAN)
    (hCoin : coinMissingNullOrSpent e r.vin.prevout = false)
    (hHeight : e.nChainHeight < r.nPoSeBanHeight)
    (hMode : r.fUnitTest = false ∨ 0 ≤ e.nChainHeight) :
    (r.Check e fForce).nActiveState = ZNODE_POSE_BAN
    ∧ (r.Check e fForce).nPoSeBanScore = r.nPoSeBanScore
    ∧ (r.Check e fForce).nPoSeBanHeight = r.nPoSeBanHeight := by
  have h0 : (0 : Int) < r.nPoSeBanHeight ∨ r.fUnitTest = false := by
    rcases hMode with h | h
    · exact Or.inr h
    · exact Or.inl (by omega)
  unfold CZnode.Check CZnode.CheckTrace
  split
  · exact ⟨hState, rfl, rfl⟩
  · split
    · exact ⟨hState, rfl, rfl⟩
    · simp only []
      split
      · exact ⟨hState, rfl, rfl⟩
      · split
        · split
          · exact ⟨hState, rfl, rfl⟩
          · simp only [hCoin, Bool.false_eq_true, if_false]
            simp [CheckBan, CZnode.IsPoSeBanned, hState, hHeight]
        · rename_i hU
          have hU2 : r.fUnitTest = true := by simpa using hU
          have hpos : (0 : Int) < r.nPoSeBanHeight := by
            rcases h0 with h | h
            · exact h
            · rw [h] at hU2; exact absurd hU2 (by decide)
          simp [CheckBan, CZnode.IsPoSeBanned, hState, hpos]

/-- Witness of C3: `znodeBanned150` in `envMain` (chain height 100, banned until 150). -/
theorem Check_poseBan_before_ban_height_witness :
    (znodeBanned150.Check envMain true).nActiveState = ZNODE_POSE_BAN
    ∧ (znodeBanned150.Check envMain true).nPoSeBanScore = 5
    ∧ (znodeBanned150.Check envMain true).nPoSeBanHeight = 150 :=
  Check_poseBan_before_ban_height envMain true znodeBanned150 (by decide) (by decide)
    (by decide) (Or.inl (by decide))

/-- The record that `CheckAndUpdate` leaves behind is the record it was given or the
forced `Check` of that record with the ping stored. -/
theorem CheckAndUpdate_pmn_cases (e : Env) (p : CZnodePing) (r : CZnode)
    (fFromNewBroadcast : Bool) :
    (p.CheckAndUpdate e (some r) fFromNewBroadcast).pmn = some r
    ∨ (p.CheckAndUpdate e (some r) fFromNewBroadcast).pmn
        = some (({ r with lastPing := p } : CZnode).Check e true) := by
  unfold CZnodePing.CheckAndUpdate
  simp only []
  split
  · exact Or.inl rfl
  · split
    · exact Or.inl rfl
    · split
      · exact Or.inl rfl
      · split
        · exact Or.inl rfl
        · split
          · exact Or.inl rfl
          · split
            · exact Or.inl rfl
            · split
              · exact Or.inr rfl
              · exact Or.inr rfl

/-- The record that `Update` leaves behind is the record it was given, its unforced
`Check`, or the unforced `Check` of that. -/
theorem Update_pmn_cases (e : Env) (mnb : CZnodeBroadcast) (r : CZnode) :
    (mnb.Update e r).pmn = r
    ∨ (mnb.Update e r).pmn = r.Check e false
    ∨ (mnb.Update e r).pmn = (r.Check e false).Check e false := by
  unfold CZnodeBroadcast.Update
  split
  · exact Or.inl rfl
  · split
    · exact Or.inl rfl
    · simp only []
      split
      · exact Or.inr (Or.inl rfl)
      · split
        · exact Or.inr (Or.inl rfl)
        · split
          · exact Or.inr (Or.inl rfl)
          · split
            · split
              · exact Or.inr (Or.inr rfl)
              · exact Or.inr (Or.inl rfl)
            · exact Or.inr (Or.inl rfl)

/-- One operation leaves a record with spent collateral in state OUTPOINT_SPENT. -/
theorem Op_run_spent (r : CZnode) (op : Op) (h : r.nActiveState = ZNODE_OUTPOINT_SPENT) :
    (op.run r).nActiveState = ZNODE_OUTPOINT_SPENT := by
  cases op with
  | check e fForce => exact Check_spent e fForce r h
  | ping e p fFromNewBroadcast =>
    show (((p.CheckAndUpdate e (some r) fFromNewBroadcast).pmn).getD r).nActiveState
      = ZNODE_OUTPOINT_SPENT
    rcases CheckAndUpdate_pmn_cases e p r fFromNewBroadcast with hc | hc
    · rw [hc]; exact h
    · rw [hc]; exact Check_spent e true _ h
  | update e mnb =>
    show (mnb.Update e r).pmn.nActiveState = ZNODE_OUTPOINT_SPENT
    rcases Update_pmn_cases e mnb r with hc | hc | hc
    · rw [hc]; exact h
    · rw [hc]; exact Check_spent e false r h
    · rw [hc]; exact Check_spent e false _ (Check_spent e false r h)

/-- C5: OUTPOINT_SPENT is terminal.  A record in state OUTPOINT_SPENT is still in that
state after any finite sequence of `CZnode::Check` (any force flag),
`CZnodePing::CheckAndUpdate` and `CZnodeBroadcast::Update` calls, whatever the
environment (chain state, clocks, sync status) of each call. -/
theorem outpoint_spent_terminal (r : CZnode) (ops : List Op)
    (h : r.nActiveState = ZNODE_OUTPOINT_SPENT) :
    (runOps r ops).nActiveState = ZNODE_OUTPOINT_SPENT := by
  induction ops generalizing r with
  | nil => exact h
  | cons op rest ih =>
    unfold runOps
    rw [List.foldl_cons]
    exact ih (op.run r) (Op_run_spent r op h)

/-- Witness of C5: the record `znodeSpent` under a forced check, a ping from a new
broadcast, an update by a newer broadcast and an unforced check. -/
theorem outpoint_spent_terminal_witness :
    (runOps znodeSpent [Op.check envMain true, Op.ping envMain pingB true,
        Op.update envMain mnbNewer, Op.check envMain false]).nActiveState
      = ZNODE_OUTPOINT_SPENT :=
  outpoint_spent_terminal znodeSpent _ (by decide)

/-- C6: outside unit-test mode, for a record not yet OUTPOINT_SPENT, a `Check` that is
not stopped by a pending shutdown, is not throttled and obtains the chain-state lock
sets the state to OUTPOINT_SPENT when the oracle has no coin for the collateral outpoint
or reports its output null or spent, whatever the state was before, and leaves the ban
score as it was.  In unit-test mode the result of `Check` is the same for every oracle,
every outcome of the try-lock and every chain height. -/
theorem Check_collateral_lookup :
    (∀ (e : Env) (fForce : Bool) (r : CZnode),
        e.fShutdownRequested = false →
        r.fUnitTest = false →
        r.nActiveState ≠ ZNODE_OUTPOINT_SPENT →
        (fForce = true ∨ ¬ (e.nTime - r.nTimeLastChecked < e.ZNODE_CHECK_SECONDS)) →
        e.lockMain = true →
        (e.GetCoin r.vin.prevout = none
          ∨ ∃ coin, e.GetCoin r.vin.prevout = some coin
              ∧ (coin.outIsNull = true ∨ coin.fSpent = true)) →
        (r.CheckTrace e fForce).1 = CheckExit.outpointSpent
        ∧ (r.Check e fForce).nActiveState = ZNODE_OUTPOINT_SPENT
        ∧ (r.Check e fForce).nPoSeBanScore = r.nPoSeBanScore)
    ∧ (∀ (e : Env) (fForce : Bool) (r : CZnode) (GetCoin2 : COutPoint → Option Coin)
        (lockMain2 : Bool) (nChainHeight2 : Int),
        r.fUnitTest = true →
        r.CheckTrace { e with GetCoin := GetCoin2, lockMain := lockMain2,
                              nChainHeight := nChainHeight2 } fForce
          = r.CheckTrace e fForce) := by
  constructor
  · intro e fForce r hShutdown hUnit hState hThrottle hLock hCoin
    have hBad : coinMissingNullOrSpent e r.vin.prevout = true := by
      unfold coinMissingNullOrSpent
      rcases hCoin with hc | ⟨coin, hc, hf⟩
      · rw [hc]
      · rw [hc]
        rcases hf with hf | hf <;> simp [hf]
    have hThr : (!fForce && decide (e.nTime - r.nTimeLastChecked < e.ZNODE_CHECK_SECONDS))
        = false := by
      rcases hThrottle with hf | hf
      · simp [hf]
      · simp [hf]
    have hT : r.CheckTrace e fForce
        = (CheckExit.outpointSpent,
            { r with nTimeLastChecked := e.nTime, nActiveState := ZNODE_OUTPOINT_SPENT }) := by
      unfold CZnode.CheckTrace
      rw [hShutdown, hThr]
      simp [CZnode.IsOutpointSpent, hState, hUnit, hLock, hBad]
    refine ⟨?_, ?_, ?_⟩
    · rw [hT]
    · unfold CZnode.Check; rw [hT]
    · unfold CZnode.Check; rw [hT]
  · intro e fForce r GetCoin2 lockMain2 nChainHeight2 hUnit
    unfold CZnode.CheckTrace
    simp only [hUnit]
    rfl

/-- Witness of C6: the banned record `znodeBanned150` (ban not yet over) when the
oracle has no coin, and the unit-test copy of `znodeA` under two different oracles. -/
theorem Check_collateral_lookup_witness :
    (znodeBanned150.Check envNoCoin false).nActiveState = ZNODE_OUTPOINT_SPENT
    ∧ (znodeBanned150.Check envNoCoin false).nPoSeBanScore = 5
    ∧ znodeUnitTest.CheckTrace envNoCoin false = znodeUnitTest.CheckTrace envMain false :=
  ⟨(Check_collateral_lookup.1 envNoCoin false znodeBanned150 (by decide) (by decide)
      (by decide) (Or.inr (by decide)) (by decide) (Or.inl (by decide))).2.1,
   (Check_collateral_lookup.1 envNoCoin false znodeBanned150 (by decide) (by decide)
      (by decide) (Or.inr (by decide)) (by decide) (Or.inl (by decide))).2.2,
   Check_collateral_lookup.2 envMain false znodeUnitTest (fun _ => none) true 100 (by decide)⟩

/-! ## Ping validation -/

/-- The two rules of `SimpleCheck`, with the time bound written out. -/
theorem SimpleCheck_eq (e : Env) (p : CZnodePing) :
    p.SimpleCheck e
      = if e.nAdjustedTime + 3600 < p.sigTime then (false, 1)
        else ((e.mapBlockIndex p.blockHash).isSome, 0) := by
  unfold CZnodePing.SimpleCheck
  by_cases h : e.nAdjustedTime + 3600 < p.sigTime
  · have h2 : p.sigTime > e.nAdjustedTime + 60 * 60 := by omega
    rw [if_pos h2, if_pos h]
  · have h2 : ¬ (p.sigTime > e.nAdjustedTime + 60 * 60) := by omega
    rw [if_neg h2, if_neg h]
    cases e.mapBlockIndex p.blockHash <;> rfl

/-- A ping that passes `SimpleCheck` leaves `nDos` at 0 and is not ahead of the clock
by more than an hour. -/
theorem SimpleCheck_ok (e : Env) (p : CZnodePing) (h : (p.SimpleCheck e).1 = true) :
    p.SimpleCheck e = (true, 0) ∧ p.sigTime ≤ e.nAdjustedTime + 3600 := by
  rw [SimpleCheck_eq] at h ⊢
  by_cases hf : e.nAdjustedTime + 3600 < p.sigTime
  · rw [if_pos hf] at h
    exact absurd h (by decide)
  · rw [if_neg hf] at h ⊢
    refine ⟨?_, by omega⟩
    have h1 : (e.mapBlockIndex p.blockHash).isSome = true := h
    rw [h1]

/-- C7: a ping whose `sigTime` is more than 3600 seconds ahead of the adjusted network
time fails `CZnodePing::SimpleCheck` with DoS weight 1, whatever its outpoint, anchor
hash and signature and whatever the block index holds; `CZnodePing::CheckAndUpdate` then
fails with that weight for every record (or none) and either flag, and leaves the record
as it was.  A ping at most 3600 seconds ahead, so also one exactly 3600 seconds ahead,
is not rejected by this rule: `SimpleCheck` then reports weight 0 and succeeds exactly
when the anchor hash is in the block index. -/
theorem ping_future_sigTime (e : Env) (p : CZnodePing) :
    (p.sigTime > e.nAdjustedTime + 3600 →
        p.SimpleCheck e = (false, 1)
        ∧ ∀ (pmn : Option CZnode) (fFromNewBroadcast : Bool),
            p.CheckAndUpdate e pmn fFromNewBroadcast
              = { exit := PingExit.simpleCheckFailed, fOk := false, nDos := 1, pmn := pmn,
                  effects := [] })
    ∧ (p.sigTime ≤ e.nAdjustedTime + 3600 →
        p.SimpleCheck e = ((e.mapBlockIndex p.blockHash).isSome, 0)) := by
  constructor
  · intro h
    have hs : p.SimpleCheck e = (false, 1) := by
      rw [SimpleCheck_eq, if_pos (by omega)]
    refine ⟨hs, ?_⟩
    intro pmn fFromNewBroadcast
    unfold CZnodePing.CheckAndUpdate
    simp [hs]
  · intro h
    rw [SimpleCheck_eq, if_neg (by omega)]

/-- Witness of C7: in `envMain` (adjusted time 10000) the ping `pingFuture`, signed at
15000, is rejected with weight 1 and the record `znodeA` is untouched, while the ping
`pingEdge`, signed at 13600, passes `SimpleCheck`. -/
theorem ping_future_sigTime_witness :
    pingFuture.SimpleCheck envMain = (false, 1)
    ∧ pingFuture.CheckAndUpdate envMain (some znodeA) true
        = { exit := PingExit.simpleCheckFailed, fOk := false, nDos := 1, pmn := some znodeA,
            effects := [] }
    ∧ pingEdge.SimpleCheck envMain = (true, 0) :=
  ⟨((ping_future_sigTime envMain pingFuture).1 (by decide)).1,
   ((ping_future_sigTime envMain pingFuture).1 (by decide)).2 (some znodeA) true,
   (ping_future_sigTime envMain pingEdge).2 (by decide)⟩

/-- C8: for a ping that passes `SimpleCheck` and the record-state checks (the call is
for a new broadcast, or the record is neither UPDATE_REQUIRED nor NEW_START_REQUIRED)
and whose anchor block is in the index: if the anchor's height is below the tip height
minus 24, `CheckAndUpdate` fails with DoS weight 0 and leaves every field of the record
as it was; if the anchor is 24 blocks behind the tip or closer, the call does not end at
this rule. -/
theorem ping_anchor_too_old (e : Env) (p : CZnodePing) (r : CZnode) (fFromNewBroadcast : Bool)
    (pindex : CBlockIndex)
    (hSimple : (p.SimpleCheck e).1 = true)
    (hState : fFromNewBroadcast = true
      ∨ (r.IsUpdateRequired = false ∧ r.IsNewStartRequired = false))
    (hIndex : e.mapBlockIndex p.blockHash = some (some pindex)) :
    (pindex.nHeight < e.nChainHeight - 24 →
        p.CheckAndUpdate e (some r) fFromNewBroadcast
          = { exit := PingExit.blockHashTooOld, fOk := false, nDos := 0, pmn := some r,
              effects := [] })
    ∧ (e.nChainHeight - 24 ≤ pindex.nHeight →
        (p.CheckAndUpdate e (some r) fFromNewBroadcast).exit ≠ PingExit.blockHashTooOld) := by
  have hs := (SimpleCheck_ok e p hSimple).1
  have hg1 : (!fFromNewBroadcast && r.IsUpdateRequired) = false := by
    rcases hState with h | h
    · simp [h]
    · simp [h.1]
  have hg2 : (!fFromNewBroadcast && r.IsNewStartRequired) = false := by
    rcases hState with h | h
    · simp [h]
    · simp [h.2]
  constructor
  · intro hOld
    have ho : blockHashTooOld e p = true := by
      unfold blockHashTooOld
      rw [hIndex]
      simp [hOld]
    unfold CZnodePing.CheckAndUpdate
    simp [hs, hg1, hg2, ho]
  · intro hNew
    have ho : blockHashTooOld e p = false := by
      unfold blockHashTooOld
      rw [hIndex]
      simp
      omega
    unfold CZnodePing.CheckAndUpdate
    simp only [hs, hg1, hg2, ho]
    simp only [Bool.not_true, Bool.false_eq_true, if_false]
    split
    · simp
    · split
      · simp
      · split <;> simp

/-- Witness of C8: at tip height 100 the ping `pingOld`, anchored at height 70, is
rejected and `znodeIdle` is untouched, while the ping `pingAt76`, anchored at height
76 = 100 - 24, is accepted and relayed. -/
theorem ping_anchor_too_old_witness :
    pingOld.CheckAndUpdate envBlocks (some znodeIdle) false
        = { exit := PingExit.blockHashTooOld, fOk := false, nDos := 0, pmn := some znodeIdle,
            effects := [] }
    ∧ (pingAt76.CheckAndUpdate envBlocks (some znodeIdle) false).exit ≠ PingExit.blockHashTooOld
    ∧ (pingAt76.CheckAndUpdate envBlocks (some znodeIdle) false).exit = PingExit.relayed :=
  ⟨(ping_anchor_too_old envBlocks pingOld znodeIdle false { nHeight := 70, nTime := 8000 }
      (by decide) (Or.inr (by decide)) (by decide)).1 (by decide),
   (ping_anchor_too_old envBlocks pingAt76 znodeIdle false { nHeight := 76, nTime := 8500 }
      (by decide) (Or.inr (by decide)) (by decide)).2 (by decide),
   by decide⟩

/-- When the record's stored ping is less than `ZNODE_MIN_MNP_SECONDS - 60` older than
the ping at hand, `CheckAndUpdate` ends at one of its first five rejections: it fails,
leaves the record as it was and reports the weight that `SimpleCheck` set. -/
theorem CheckAndUpdate_too_early (e : Env) (p : CZnodePing) (r : CZnode)
    (fFromNewBroadcast : Bool)
    (hPing : r.lastPing.IsEmpty = false)
    (hDiff : p.sigTime - r.lastPing.sigTime < e.ZNODE_MIN_MNP_SECONDS - 60) :
    (p.CheckAndUpdate e (some r) fFromNewBroadcast).exit ≠ PingExit.notEnabled
    ∧ (p.CheckAndUpdate e (some r) fFromNewBroadcast).exit ≠ PingExit.relayed
    ∧ (p.CheckAndUpdate e (some r) fFromNewBroadcast).fOk = false
    ∧ (p.CheckAndUpdate e (some r) fFromNewBroadcast).pmn = some r
    ∧ (p.CheckAndUpdate e (some r) fFromNewBroadcast).nDos = (p.SimpleCheck e).2 := by
  have hw : r.IsPingedWithin (e.ZNODE_MIN_MNP_SECONDS - 60) p.sigTime = true := by
    unfold CZnode.IsPingedWithin
    simp [hPing, hDiff]
  unfold CZnodePing.CheckAndUpdate
  simp only [hw]
  split
  · simp
  · split
    · simp
    · split
      · simp
      · split
        · simp
        · simp

/-- Where `CheckAndUpdate` ends tells how the spacing test went: the exit of the spacing
rule is taken only when the test holds, and the two exits behind the assignment of
`lastPing` only when it fails, the record then being the forced `Check` of the record
with the ping stored. -/
theorem CheckAndUpdate_exit_spacing (e : Env) (p : CZnodePing) (r : CZnode)
    (fFromNewBroadcast : Bool) :
    ((p.CheckAndUpdate e (some r) fFromNewBroadcast).exit = PingExit.tooEarly →
        r.IsPingedWithin (e.ZNODE_MIN_MNP_SECONDS - 60) p.sigTime = true)
    ∧ (((p.CheckAndUpdate e (some r) fFromNewBroadcast).exit = PingExit.notEnabled
          ∨ (p.CheckAndUpdate e (some r) fFromNewBroadcast).exit = PingExit.relayed) →
        r.IsPingedWithin (e.ZNODE_MIN_MNP_SECONDS - 60) p.sigTime = false
        ∧ (p.CheckAndUpdate e (some r) fFromNewBroadcast).pmn
            = some (({ r with lastPing := p } : CZnode).Check e true)) := by
  unfold CZnodePing.CheckAndUpdate
  simp only []
  split
  · simp
  · split
    · simp
    · split
      · simp
      · split
        · simp
        · split
          · rename_i h
            simp [h]
          · rename_i h
            split
            · simp
            · split
              · simpa using h
              · simpa using h

/-- A call of `Check` never writes the stored ping. -/
theorem Check_lastPing (e : Env) (fForce : Bool) (r : CZnode) :
    (r.Check e fForce).lastPing = r.lastPing := by
  obtain ⟨t, s, sc, h⟩ := Check_writes e fForce r
  rw [h]

/-- C9, as the code has it: for a record with a stored ping and any ping `p`, if
`CheckAndUpdate` stores `p` as the record's `lastPing` (it ends at one of the two exits
behind the assignment) then `p.sigTime` minus the stored ping's `sigTime` is at least
`ZNODE_MIN_MNP_SECONDS - 60`; if that difference is smaller, the call fails and leaves
the record as it was, with DoS weight 0 unless `p.sigTime` is more than 3600 seconds
ahead of the adjusted time, in which case `SimpleCheck` has set the weight to 1.  For a
record with no stored ping the call never ends at the spacing rule. -/
theorem ping_spacing (e : Env) (p : CZnodePing) (r : CZnode) (fFromNewBroadcast : Bool) :
    (r.lastPing.IsEmpty = false →
        (((p.CheckAndUpdate e (some r) fFromNewBroadcast).exit = PingExit.notEnabled
            ∨ (p.CheckAndUpdate e (some r) fFromNewBroadcast).exit = PingExit.relayed) →
          (p.CheckAndUpdate e (some r) fFromNewBroadcast).pmn.map (fun x => x.lastPing) = some p
          ∧ e.ZNODE_MIN_MNP_SECONDS - 60 ≤ p.sigTime - r.lastPing.sigTime)
        ∧ (p.sigTime - r.lastPing.sigTime < e.ZNODE_MIN_MNP_SECONDS - 60 →
            (p.CheckAndUpdate e (some r) fFromNewBroadcast).fOk = false
            ∧ (p.CheckAndUpdate e (some r) fFromNewBroadcast).pmn = some r
            ∧ (p.CheckAndUpdate e (some r) fFromNewBroadcast).nDos
                = if e.nAdjustedTime + 3600 < p.sigTime then 1 else 0))
    ∧ (r.lastPing.IsEmpty = true →
        (p.CheckAndUpdate e (some r) fFromNewBroadcast).exit ≠ PingExit.tooEarly) := by
  refine ⟨fun hPing => ⟨?_, ?_⟩, ?_⟩
  · intro hStored
    constructor
    · rw [((CheckAndUpdate_exit_spacing e p r fFromNewBroadcast).2 hStored).2]
      simp [Check_lastPing]
    · by_contra hlt
      have hDiff : p.sigTime - r.lastPing.sigTime < e.ZNODE_MIN_MNP_SECONDS - 60 := by omega
      have h := CheckAndUpdate_too_early e p r fFromNewBroadcast hPing hDiff
      rcases hStored with hs | hs
      · exact h.1 hs
      · exact h.2.1 hs
  · intro hDiff
    have h := CheckAndUpdate_too_early e p r fFromNewBroadcast hPing hDiff
    refine ⟨h.2.2.1, h.2.2.2.1, ?_⟩
    rw [h.2.2.2.2, SimpleCheck_eq]
    split <;> rfl
  · intro hEmpty
    have hw : ∀ n t, r.IsPingedWithin n t = false := by
      intro n t
      unfold CZnode.IsPingedWithin
      simp [hEmpty]
    intro hExit
    have h := (CheckAndUpdate_exit_spacing e p r fFromNewBroadcast).1 hExit
    rw [hw] at h
    exact absurd h (by decide)

/-- Witness of C9 as the code has it, in `envMain`: the ping `pingB` (signed at 10000) is
stored on `znodeIdle` (stored ping signed at 9000), 1000 seconds being at least 540;
on `znodeA` (stored ping signed at 9990) it fails with weight 0 and changes nothing; on
`znodeNoPing` it does not end at the spacing rule. -/
theorem ping_spacing_witness :
    ((pingB.CheckAndUpdate envMain (some znodeIdle) false).pmn.map (fun x => x.lastPing)
        = some pingB
      ∧ envMain.ZNODE_MIN_MNP_SECONDS - 60 ≤ pingB.sigTime - znodeIdle.lastPing.sigTime)
    ∧ ((pingB.CheckAndUpdate envMain (some znodeA) false).fOk = false
      ∧ (pingB.CheckAndUpdate envMain (some znodeA) false).pmn = some znodeA
      ∧ (pingB.CheckAndUpdate envMain (some znodeA) false).nDos = 0)
    ∧ (pingB.CheckAndUpdate envMain (some znodeNoPing) false).exit ≠ PingExit.tooEarly :=
  ⟨((ping_spacing envMain pingB znodeIdle false).1 (by decide)).1 (Or.inr (by decide)),
   ((ping_spacing envMain pingB znodeA false).1 (by decide)).2 (by decide),
   (ping_spacing envMain pingB znodeNoPing false).2 (by decide)⟩

/-- Counterexample to C9 as stated: in `envMain` (adjusted time 10000) the record
`znodeAheadPing` has a stored ping signed at 13500 and the ping `pingAhead` is signed at
13700, so the difference, 200, is below 600 - 60; the call fails and leaves the record
as it was, but with DoS weight 1, not 0, because `SimpleCheck` rejects the ping first. -/
theorem ping_spacing_counterexample :
    znodeAheadPing.lastPing.IsEmpty = false
    ∧ pingAhead.sigTime - znodeAheadPing.lastPing.sigTime
        < envMain.ZNODE_MIN_MNP_SECONDS - 60
    ∧ (pingAhead.CheckAndUpdate envMain (some znodeAheadPing) false).exit
        = PingExit.simpleCheckFailed
    ∧ (pingAhead.CheckAndUpdate envMain (some znodeAheadPing) false).nDos = 1
    ∧ ¬ ((pingAhead.CheckAndUpdate envMain (some znodeAheadPing) false).fOk = false
          ∧ (pingAhead.CheckAndUpdate envMain (some znodeAheadPing) false).nDos = 0
          ∧ (pingAhead.CheckAndUpdate envMain (some znodeAheadPing) false).pmn
              = some znodeAheadPing) := by
  decide

/-! ## Broadcast updates -/

/-- A call of `Update` never writes the record's announcement time. -/
theorem Update_sigTime (e : Env) (mnb : CZnodeBroadcast) (r : CZnode) :
    (mnb.Update e r).pmn.sigTime = r.sigTime := by
  rcases Update_pmn_cases e mnb r with h | h | h
  · rw [h]
  · rw [h, Check_sigTime]
  · rw [h, Check_sigTime, Check_sigTime]

/-- A sequence of `Update` calls never writes the record's announcement time. -/
theorem runUpdates_sigTime (r : CZnode) (calls : List (Env × CZnodeBroadcast)) :
    (runUpdates r calls).sigTime = r.sigTime := by
  induction calls generalizing r with
  | nil => rfl
  | cons c rest ih =>
    unfold runUpdates
    rw [List.foldl_cons]
    exact (ih _).trans (Update_sigTime c.1 c.2 r)

/-- C10: for an existing record `r` and a broadcast `mnb`, if `mnb.sigTime < r.sigTime`,
or the two are equal and `mnb` is not a recovery broadcast, `CZnodeBroadcast::Update`
fails with DoS weight 0 and leaves `r` exactly as it was (`Check` has not run on it);
hence over any sequence of `Update` calls on one record the record's `sigTime` never
decreases from one point of the sequence to a later one, and every successful `Update`
carried a `sigTime` at least the record's `sigTime` at the time of the call. -/
theorem Update_sigTime_order :
    (∀ (e : Env) (mnb : CZnodeBroadcast) (r : CZnode),
        (mnb.base.sigTime < r.sigTime
          ∨ (mnb.base.sigTime = r.sigTime ∧ mnb.fRecovery = false)) →
        (mnb.Update e r).fOk = false
        ∧ (mnb.Update e r).nDos = 0
        ∧ (mnb.Update e r).pmn = r
        ∧ (mnb.Update e r).effects = [])
    ∧ (∀ (r : CZnode) (before after : List (Env × CZnodeBroadcast)),
        (runUpdates r before).sigTime ≤ (runUpdates r (before ++ after)).sigTime)
    ∧ (∀ (e : Env) (mnb : CZnodeBroadcast) (r : CZnode),
        (mnb.Update e r).fOk = true → r.sigTime ≤ mnb.base.sigTime) := by
  refine ⟨?_, ?_, ?_⟩
  · intro e mnb r h
    unfold CZnodeBroadcast.Update
    rcases h with h | ⟨h1, h2⟩
    · by_cases hd : r.sigTime = mnb.base.sigTime ∧ mnb.fRecovery = false
      · rw [if_pos hd]
        exact ⟨rfl, rfl, rfl, rfl⟩
      · rw [if_neg hd, if_pos (by omega)]
        exact ⟨rfl, rfl, rfl, rfl⟩
    · rw [if_pos ⟨h1.symm, h2⟩]
      exact ⟨rfl, rfl, rfl, rfl⟩
  · intro r before after
    rw [runUpdates_sigTime, runUpdates_sigTime]
  · intro e mnb r hOk
    by_contra hlt
    have hgt : r.sigTime > mnb.base.sigTime := by omega
    unfold CZnodeBroadcast.Update at hOk
    by_cases hd : r.sigTime = mnb.base.sigTime ∧ mnb.fRecovery = false
    · rw [if_pos hd] at hOk
      exact Bool.false_ne_true hOk
    · rw [if_neg hd, if_pos hgt] at hOk
      exact Bool.false_ne_true hOk

/-- Witness of C10 in `envMain`: the broadcasts `mnbOlder` (signed at 500) and `mnbSame`
(signed at 1000, no recovery) are rejected by `znodeA` (signed at 1000) with weight 0 and
no change; after those two and the accepted `mnbNewer` the record's `sigTime` is not below
what it was after the first; and the accepted `mnbNewer` is signed at 2000, not before
1000. -/
theorem Update_sigTime_order_witness :
    ((mnbOlder.Update envMain znodeA).fOk = false
      ∧ (mnbOlder.Update envMain znodeA).nDos = 0
      ∧ (mnbOlder.Update envMain znodeA).pmn = znodeA
      ∧ (mnbOlder.Update envMain znodeA).effects = [])
    ∧ ((mnbSame.Update envMain znodeA).fOk = false
      ∧ (mnbSame.Update envMain znodeA).nDos = 0
      ∧ (mnbSame.Update envMain znodeA).pmn = znodeA
      ∧ (mnbSame.Update envMain znodeA).effects = [])
    ∧ (runUpdates znodeA [(envMain, mnbOlder)]).sigTime
        ≤ (runUpdates znodeA ([(envMain, mnbOlder)]
            ++ [(envMain, mnbSame), (envMain, mnbNewer)])).sigTime
    ∧ ((mnbNewer.Update envMain znodeA).fOk = true ∧ znodeA.sigTime ≤ mnbNewer.base.sigTime) :=
  ⟨Update_sigTime_order.1 envMain mnbOlder znodeA (Or.inl (by decide)),
   Update_sigTime_order.1 envMain mnbSame znodeA (Or.inr ⟨by decide, by decide⟩),
   Update_sigTime_order.2.1 znodeA [(envMain, mnbOlder)]
     [(envMain, mnbSame), (envMain, mnbNewer)],
   by decide, Update_sigTime_order.2.2 envMain mnbNewer znodeA (by decide)⟩

/-! ## Identity mismatch in `Update` -/

/-- A call of `Check` never writes the collateral public key. -/
theorem Check_pubKeyCollateralAddress (e : Env) (fForce : Bool) (r : CZnode) :
    (r.Check e fForce).pubKeyCollateralAddress = r.pubKeyCollateralAddress := by
  obtain ⟨t, s, sc, h⟩ := Check_writes e fForce r
  rw [h]

/-- C11: for an existing record `r` and a broadcast `mnb` with a newer `sigTime`, when
`r` is not POSE_BAN after the re-evaluation by `Check` and the collateral public key of
`mnb` differs from that of `r`, `CZnodeBroadcast::Update` fails with DoS weight exactly
33 and does not apply the broadcast: the record it leaves is the re-evaluated `r`, with
every identity field of `r`, and nothing is relayed. -/
theorem Update_key_mismatch (e : Env) (mnb : CZnodeBroadcast) (r : CZnode)
    (hNewer : r.sigTime < mnb.base.sigTime)
    (hBan : (r.Check e false).IsPoSeBanned = false)
    (hKey : mnb.base.pubKeyCollateralAddress ≠ r.pubKeyCollateralAddress) :
    mnb.Update e r
        = { exit := UpdateExit.keyMismatch, fOk := false, nDos := 33, pmn := r.Check e false,
            effects := [] }
    ∧ (mnb.Update e r).pmn.pubKeyCollateralAddress = r.pubKeyCollateralAddress
    ∧ (mnb.Update e r).pmn.sigTime = r.sigTime
    ∧ (mnb.Update e r).pmn.lastPing = r.lastPing := by
  have hEq : mnb.Update e r
      = { exit := UpdateExit.keyMismatch, fOk := false, nDos := 33, pmn := r.Check e false,
          effects := [] } := by
    have h1 : ¬ (r.sigTime = mnb.base.sigTime ∧ mnb.fRecovery = false) := by
      intro h
      omega
    have h2 : ¬ (r.sigTime > mnb.base.sigTime) := by omega
    have h3 : (r.Check e false).pubKeyCollateralAddress ≠ mnb.base.pubKeyCollateralAddress := by
      rw [Check_pubKeyCollateralAddress]
      exact fun h => hKey h.symm
    unfold CZnodeBroadcast.Update
    rw [if_neg h1, if_neg h2]
    simp only [hBan, Bool.false_eq_true, if_false]
    rw [if_pos h3]
  refine ⟨hEq, ?_, ?_, ?_⟩
  · rw [hEq]; exact Check_pubKeyCollateralAddress e false r
  · rw [hEq]; exact Check_sigTime e false r
  · rw [hEq]; exact Check_lastPing e false r

/-- Witness of C11: the record `znodeA` and the broadcast `mnbOtherKey` in `envMain`. -/
theorem Update_key_mismatch_witness :
    (mnbOtherKey.Update envMain znodeA).fOk = false
    ∧ (mnbOtherKey.Update envMain znodeA).nDos = 33
    ∧ (mnbOtherKey.Update envMain znodeA).pmn.pubKeyCollateralAddress
        = znodeA.pubKeyCollateralAddress :=
  have h := Update_key_mismatch envMain mnbOtherKey znodeA (by decide) (by decide) (by decide)
  ⟨by rw [h.1], by rw [h.1], h.2.1⟩

/-! ## `CheckOutpoint` -/

/-- C12: for a broadcast that is not the local node's own and whose collateral outpoint
is unspent with exactly the required value, if the confirmation depth, tip height minus
coin height plus one, is below the required number of confirmations then
`CZnodeBroadcast::CheckOutpoint` returns failure with DoS weight 0, whatever the caller's
`nDos` was; when `cs_main` is obtained the call ends at the confirmation rule. -/
theorem CheckOutpoint_too_few_confirmations (e : Env) (x : Ext) (mnb : CZnodeBroadcast)
    (nDosIn : Int) (coin : Coin)
    (hOwn : ¬ (e.fMasternodeMode = true ∧ mnb.base.vin.prevout = e.activePrevout
        ∧ mnb.base.pubKeyZnode = e.activePubKeyZnode))
    (hCoin : e.GetCoin mnb.base.vin.prevout = some coin)
    (hNull : coin.outIsNull = false)
    (hSpent : coin.fSpent = false)
    (hValue : coin.nValue = x.nCollateralValue)
    (hDepth : e.nChainHeight - coin.nHeight + 1 < x.nZnodeMinimumConfirmations) :
    ∃ res, mnb.CheckOutpoint e x nDosIn = some res ∧ res.fOk = false ∧ res.nDos = 0
      ∧ (e.lockMain = true → res.exit = OutpointExit.tooFewConfirmations) := by
  have hOwn2 : (e.fMasternodeMode && decide (mnb.base.vin.prevout = e.activePrevout)
      && decide (mnb.base.pubKeyZnode = e.activePubKeyZnode)) = false := by
    by_contra h
    simp at h
    exact hOwn ⟨h.1, h.2.1, h.2.2⟩
  unfold CZnodeBroadcast.CheckOutpoint
  rw [hOwn2]
  simp only [CZnodeBroadcast.CheckSignature, hCoin, hNull, hSpent, hValue, hDepth]
  cases hl : e.lockMain <;> simp

/-- Witness of C12: 100 confirmations required (`ext100`), 50 present (`envCoin51`). -/
theorem CheckOutpoint_too_few_confirmations_witness :
    ∃ res, mnbNewer.CheckOutpoint envCoin51 ext100 7 = some res ∧ res.fOk = false
      ∧ res.nDos = 0 ∧ (envCoin51.lockMain = true → res.exit = OutpointExit.tooFewConfirmations) :=
  CheckOutpoint_too_few_confirmations envCoin51 ext100 mnbNewer 7 { coinOk with nHeight := 51 }
    (by decide) (by decide) (by decide) (by decide) (by decide) (by decide)

/-- C13, as the code has it: when the process runs in znode mode and the broadcast's
collateral outpoint and operating key are those of the locally operated znode,
`CZnodeBroadcast::CheckOutpoint` returns at once, with the result false and the caller's
`nDos` untouched; the signature, the try-lock, the coin lookup and the block index play
no part, the result being the same whatever they are. -/
theorem CheckOutpoint_own_znode (e : Env) (x : Ext) (mnb : CZnodeBroadcast) (nDosIn : Int)
    (hMode : e.fMasternodeMode = true)
    (hVin : mnb.base.vin.prevout = e.activePrevout)
    (hKey : mnb.base.pubKeyZnode = e.activePubKeyZnode) :
    mnb.CheckOutpoint e x nDosIn
      = some { exit := OutpointExit.ownZnode, fOk := false, nDos := nDosIn } := by
  unfold CZnodeBroadcast.CheckOutpoint
  simp [hMode, hVin, hKey]

/-- Witness of C13 as the code has it: the broadcast `mnbNewer` on the node of `envOwn`. -/
theorem CheckOutpoint_own_znode_witness :
    mnbNewer.CheckOutpoint envOwn extMain 7
      = some { exit := OutpointExit.ownZnode, fOk := false, nDos := 7 } :=
  CheckOutpoint_own_znode envOwn extMain mnbNewer 7 (by decide) (by decide) (by decide)

/-- Counterexample to C13 as stated: on the node of `envOwn`, which runs in znode mode
and operates the znode of the broadcast `mnbNewer`, `CheckOutpoint` returns false, not
success. -/
theorem CheckOutpoint_own_znode_counterexample :
    envOwn.fMasternodeMode = true
    ∧ mnbNewer.base.vin.prevout = envOwn.activePrevout
    ∧ mnbNewer.base.pubKeyZnode = envOwn.activePubKeyZnode
    ∧ (mnbNewer.CheckOutpoint envOwn extMain 0).map (fun res => res.fOk) = some false
    ∧ ¬ ((mnbNewer.CheckOutpoint envOwn extMain 0).map (fun res => res.fOk) = some true) := by
  decide

/-! ## `Check` on a record without a ping -/

/-- A record with an empty `lastPing` is pinged within no window. -/
theorem IsPingedWithin_empty (r : CZnode) (h : r.lastPing.IsEmpty = true) (nSeconds t : Int) :
    r.IsPingedWithin nSeconds t = false := by
  unfold CZnode.IsPingedWithin
  simp [h]

/-- When no shutdown is pending, the call is not throttled, the collateral is neither
known to be spent nor reported so by the oracle (or the record is in unit-test mode), and
neither ban guard applies, `Check` is the chain of lines 185-250 on the record with the
time of the check written. -/
theorem CheckTrace_reaches_states (e : Env) (fForce : Bool) (r : CZnode)
    (hShutdown : e.fShutdownRequested = false)
    (hThrottle : fForce = true ∨ ¬ (e.nTime - r.nTimeLastChecked < e.ZNODE_CHECK_SECONDS))
    (hChain : r.fUnitTest = true
      ∨ (e.lockMain = true ∧ coinMissingNullOrSpent e r.vin.prevout = false))
    (hSpent : r.nActiveState ≠ ZNODE_OUTPOINT_SPENT)
    (hBanned : r.nActiveState ≠ ZNODE_POSE_BAN)
    (hScore : r.nPoSeBanScore < e.ZNODE_POSE_BAN_MAX_SCORE) :
    r.CheckTrace e fForce = CheckStates e { r with nTimeLastChecked := e.nTime } := by
  have hThr : (!fForce && decide (e.nTime - r.nTimeLastChecked < e.ZNODE_CHECK_SECONDS))
      = false := by
    rcases hThrottle with hf | hf
    · simp [hf]
    · simp [hf]
  have hNoBan : ¬ (r.nPoSeBanScore ≥ e.ZNODE_POSE_BAN_MAX_SCORE) := by omega
  have hBan : ∀ nHeight, CheckBan e nHeight { r with nTimeLastChecked := e.nTime }
      = CheckStates e { r with nTimeLastChecked := e.nTime } := by
    intro nHeight
    unfold CheckBan
    simp [CZnode.IsPoSeBanned, hBanned, hNoBan]
  have hSp : ({ r with nTimeLastChecked := e.nTime } : CZnode).IsOutpointSpent = false := by
    simp [CZnode.IsOutpointSpent, hSpent]
  unfold CZnode.CheckTrace
  rw [hShutdown, hThr]
  simp only [Bool.false_eq_true, if_false, hSp]
  split
  · rename_i hU
    rcases hChain with h | ⟨hL, hC⟩
    · rw [h] at hU
      exact absurd hU (by decide)
    · have hC2 : coinMissingNullOrSpent e
          ({ r with nTimeLastChecked := e.nTime } : CZnode).vin.prevout = false := hC
      rw [hL, hC2]
      simp only [Bool.not_true, Bool.false_eq_true, if_false]
      exact hBan e.nChainHeight
  · exact hBan 0

/-- C14, as the code has it: take a record with an empty `lastPing`, a ban score below
the maximum and a state other than OUTPOINT_SPENT and POSE_BAN, and a `Check` that runs
(no shutdown pending, not throttled, collateral reported unspent under the lock or
unit-test mode), at whatever network time, so also at the record's own `sigTime`.  If the
node list is synced or the record is the local node's, the state becomes
NEW_START_REQUIRED.  If the node list is still syncing, the record is not the local
node's and its state is none of EXPIRED, WATCHDOG_EXPIRED and NEW_START_REQUIRED, the
state becomes PRE_ENABLED on a network other than regtest (as long as
`0 - sigTime < ZNODE_MIN_MNP_SECONDS`, the stored ping time of an empty ping being 0) and
ENABLED on regtest; and there is such a record and environment on regtest. -/
theorem Check_without_ping (e : Env) (fForce : Bool) (r : CZnode)
    (hShutdown : e.fShutdownRequested = false)
    (hThrottle : fForce = true ∨ ¬ (e.nTime - r.nTimeLastChecked < e.ZNODE_CHECK_SECONDS))
    (hChain : r.fUnitTest = true
      ∨ (e.lockMain = true ∧ coinMissingNullOrSpent e r.vin.prevout = false))
    (hSpent : r.nActiveState ≠ ZNODE_OUTPOINT_SPENT)
    (hBanned : r.nActiveState ≠ ZNODE_POSE_BAN)
    (hScore : r.nPoSeBanScore < e.ZNODE_POSE_BAN_MAX_SCORE)
    (hPing : r.lastPing.IsEmpty = true) :
    ((e.fZnodeListSynced = true
        ∨ (e.fMasternodeMode = true ∧ e.activePubKeyZnode = r.pubKeyZnode)) →
      (r.Check e fForce).nActiveState = ZNODE_NEW_START_REQUIRED)
    ∧ (e.fZnodeListSynced = false →
        ¬ (e.fMasternodeMode = true ∧ e.activePubKeyZnode = r.pubKeyZnode) →
        r.nActiveState ≠ ZNODE_EXPIRED → r.nActiveState ≠ ZNODE_WATCHDOG_EXPIRED →
        r.nActiveState ≠ ZNODE_NEW_START_REQUIRED →
        (e.network ≠ Network.REGTEST → 0 - r.sigTime < e.ZNODE_MIN_MNP_SECONDS →
          (r.Check e fForce).nActiveState = ZNODE_PRE_ENABLED)
        ∧ (e.network = Network.REGTEST → (r.Check e fForce).nActiveState = ZNODE_ENABLED))
    ∧ (∃ (e2 : Env) (r2 : CZnode), e2.network = Network.REGTEST
        ∧ r2.lastPing.IsEmpty = true ∧ r2.sigTime = e2.nAdjustedTime
        ∧ coinMissingNullOrSpent e2 r2.vin.prevout = false
        ∧ r2.nPoSeBanScore < e2.ZNODE_POSE_BAN_MAX_SCORE
        ∧ (r2.Check e2 false).nActiveState = ZNODE_ENABLED) := by
  have hT := CheckTrace_reaches_states e fForce r hShutdown hThrottle hChain hSpent hBanned hScore
  have hP : ∀ n t, ({ r with nTimeLastChecked := e.nTime } : CZnode).IsPingedWithin n t
      = false := fun n t => IsPingedWithin_empty _ hPing n t
  have hSig : r.lastPing.sigTime = 0 := by
    have h : r.lastPing = CZnodePing.empty := by
      simpa [CZnodePing.IsEmpty] using hPing
    rw [h]
    rfl
  refine ⟨?_, ?_, ⟨envRegtest, znodeFresh, by decide, by decide, by decide, by decide,
    by decide, by decide⟩⟩
  · intro hOr
    unfold CZnode.Check
    rw [hT]
    unfold CheckStates
    simp only [hP]
    rcases hOr with hs | ⟨hm, hk⟩
    · simp [hs, CheckExpiry, hP]
    · simp [hm, hk, CheckExpiry, hP]
  · intro hSync hOwn hE hW hN
    have hOwn2 : (e.fMasternodeMode && decide (e.activePubKeyZnode = r.pubKeyZnode)) = false := by
      by_contra h
      simp at h
      exact hOwn h
    have hS : (CheckStates e { r with nTimeLastChecked := e.nTime })
        = CheckEnable e { r with nTimeLastChecked := e.nTime } := by
      unfold CheckStates
      simp only [hP, hSync, hOwn2]
      simp [CZnode.IsExpired, CZnode.IsWatchdogExpired, CZnode.IsNewStartRequired, hE, hW, hN]
    unfold CZnode.Check
    rw [hT, hS]
    unfold CheckEnable
    constructor
    · intro hNet hMin
      have hc : e.network ≠ Network.REGTEST
          ∧ subInt64 ({ r with nTimeLastChecked := e.nTime } : CZnode).lastPing.sigTime
              ({ r with nTimeLastChecked := e.nTime } : CZnode).sigTime
            < e.ZNODE_MIN_MNP_SECONDS := by
        refine ⟨hNet, ?_⟩
        show subInt64 r.lastPing.sigTime r.sigTime < e.ZNODE_MIN_MNP_SECONDS
        rw [hSig]
        exact subInt64_zero_lt r.sigTime e.ZNODE_MIN_MNP_SECONDS hMin
      rw [if_pos hc]
    · intro hNet
      have hc : ¬ (e.network ≠ Network.REGTEST
          ∧ subInt64 ({ r with nTimeLastChecked := e.nTime } : CZnode).lastPing.sigTime
              ({ r with nTimeLastChecked := e.nTime } : CZnode).sigTime
            < e.ZNODE_MIN_MNP_SECONDS) := fun h => h.1 hNet
      rw [if_neg hc]

/-- Witness of C14 as the code has it: the record `znodeFresh` (no ping, announced at
10000) checked at time 10000 becomes NEW_START_REQUIRED in `envMain`, PRE_ENABLED in
`envSyncing` and ENABLED in `envRegtest`. -/
theorem Check_without_ping_witness :
    (znodeFresh.Check envMain false).nActiveState = ZNODE_NEW_START_REQUIRED
    ∧ (znodeFresh.Check envSyncing false).nActiveState = ZNODE_PRE_ENABLED
    ∧ (znodeFresh.Check envRegtest false).nActiveState = ZNODE_ENABLED :=
  ⟨(Check_without_ping envMain false znodeFresh (by decide) (Or.inr (by decide))
      (Or.inr ⟨by decide, by decide⟩) (by decide) (by decide) (by decide) (by decide)).1
      (Or.inl (by decide)),
   ((Check_without_ping envSyncing false znodeFresh (by decide) (Or.inr (by decide))
      (Or.inr ⟨by decide, by decide⟩) (by decide) (by decide) (by decide) (by decide)).2.1
      (by decide) (by decide) (by decide) (by decide) (by decide)).1 (by decide) (by decide),
   ((Check_without_ping envRegtest false znodeFresh (by decide) (Or.inr (by decide))
      (Or.inr ⟨by decide, by decide⟩) (by decide) (by decide) (by decide) (by decide)).2.1
      (by decide) (by decide) (by decide) (by decide) (by decide)).2 (by decide)⟩

/-- Counterexample to C14 as stated: the record `znodeFresh` has an empty `lastPing`,
`sigTime` 10000, unspent collateral and ban score 0; checked at network time 10000 on
the main network with the node list synced (`envMain`) it becomes NEW_START_REQUIRED,
not PRE_ENABLED. -/
theorem Check_without_ping_counterexample :
    znodeFresh.lastPing.IsEmpty = true
    ∧ znodeFresh.sigTime = envMain.nAdjustedTime
    ∧ coinMissingNullOrSpent envMain znodeFresh.vin.prevout = false
    ∧ znodeFresh.nPoSeBanScore < envMain.ZNODE_POSE_BAN_MAX_SCORE
    ∧ envMain.network = Network.MAIN
    ∧ (znodeFresh.CheckTrace envMain false).1 = CheckExit.newStartRequired
    ∧ (znodeFresh.Check envMain false).nActiveState = ZNODE_NEW_START_REQUIRED
    ∧ (znodeFresh.Check envMain false).nActiveState ≠ ZNODE_PRE_ENABLED := by
  decide

/-! ## `CZnodeBroadcast::SimpleCheck` -/

/-- The rules of `CZnodeBroadcast::SimpleCheck` read the broadcast's address, keys and
input, none of which line 469 writes; for a broadcast that satisfies all of them the call
ends at the final `return true`. -/
theorem SimpleCheck_passed (e : Env) (x : Ext) (mnb : CZnodeBroadcast)
    (hAddr : mnb.base.IsValidNetAddr e x = true)
    (hTime : mnb.base.sigTime ≤ e.nAdjustedTime + 3600)
    (hKeyC : x.scriptSize mnb.base.pubKeyCollateralAddress = 25)
    (hKeyZ : x.scriptSize mnb.base.pubKeyZnode = 25)
    (hSig : mnb.base.vin.scriptSig = [])
    (hPort : (e.network = Network.MAIN ∧ mnb.base.addr.port = x.mainnetDefaultPort)
      ∨ (e.network ≠ Network.MAIN ∧ mnb.base.addr.port ≠ x.mainnetDefaultPort)) :
    (mnb.SimpleCheck e x).exit = SimpleCheckExit.passed
    ∧ (mnb.SimpleCheck e x).fOk = true := by
  have hT : ¬ (mnb.base.sigTime > e.nAdjustedTime + 60 * 60) := by omega
  unfold CZnodeBroadcast.SimpleCheck
  rw [hAddr]
  simp only [Bool.not_true, Bool.false_eq_true, if_false, hT]
  cases (pingEmptyOrBad e 0 mnb.base.lastPing).1
  · simp only [Bool.false_eq_true, if_false, hKeyC, hKeyZ, hSig, ne_eq, not_true_eq_false]
    rcases hPort with ⟨h1, h2⟩ | ⟨h1, h2⟩
    · simp [h1, h2]
    · simp [h1, h2]
  · simp only [if_true, hKeyC, hKeyZ, hSig, ne_eq, not_true_eq_false, if_false]
    rcases hPort with ⟨h1, h2⟩ | ⟨h1, h2⟩
    · simp [h1, h2]
    · simp [h1, h2]

/-- C16: `CZnodeBroadcast::SimpleCheck` is a first-match chain with fixed DoS weights.
An address that fails validation gives failure with weight 0; otherwise a `sigTime` more
than 3600 seconds ahead of the adjusted time gives failure with weight 1; otherwise a
collateral-key or operating-key script whose size is not 25 gives failure with weight
100; otherwise a non-empty `vin.scriptSig` gives failure with weight 100; otherwise a
port that breaks the network rule (the main network requires the mainnet default port,
every other network forbids it) gives failure; otherwise the call succeeds. -/
theorem SimpleCheck_first_match (e : Env) (x : Ext) (mnb : CZnodeBroadcast) :
    (mnb.base.IsValidNetAddr e x = false →
        (mnb.SimpleCheck e x).fOk = false ∧ (mnb.SimpleCheck e x).nDos = 0)
    ∧ (mnb.base.IsValidNetAddr e x = true →
        (mnb.base.sigTime > e.nAdjustedTime + 3600 →
          (mnb.SimpleCheck e x).fOk = false ∧ (mnb.SimpleCheck e x).nDos = 1)
        ∧ (mnb.base.sigTime ≤ e.nAdjustedTime + 3600 →
          ((x.scriptSize mnb.base.pubKeyCollateralAddress ≠ 25
              ∨ x.scriptSize mnb.base.pubKeyZnode ≠ 25) →
            (mnb.SimpleCheck e x).fOk = false ∧ (mnb.SimpleCheck e x).nDos = 100)
          ∧ (x.scriptSize mnb.base.pubKeyCollateralAddress = 25 →
              x.scriptSize mnb.base.pubKeyZnode = 25 →
            (mnb.base.vin.scriptSig ≠ [] →
              (mnb.SimpleCheck e x).fOk = false ∧ (mnb.SimpleCheck e x).nDos = 100)
            ∧ (mnb.base.vin.scriptSig = [] →
              (¬ ((e.network = Network.MAIN ∧ mnb.base.addr.port = x.mainnetDefaultPort)
                  ∨ (e.network ≠ Network.MAIN ∧ mnb.base.addr.port ≠ x.mainnetDefaultPort)) →
                (mnb.SimpleCheck e x).fOk = false)
              ∧ (((e.network = Network.MAIN ∧ mnb.base.addr.port = x.mainnetDefaultPort)
                  ∨ (e.network ≠ Network.MAIN ∧ mnb.base.addr.port ≠ x.mainnetDefaultPort)) →
                (mnb.SimpleCheck e x).fOk = true))))) := by
  constructor
  · intro hAddr
    unfold CZnodeBroadcast.SimpleCheck
    simp [hAddr]
  · intro hAddr
    constructor
    · intro hT
      have hT2 : mnb.base.sigTime > e.nAdjustedTime + 60 * 60 := by omega
      unfold CZnodeBroadcast.SimpleCheck
      rw [hAddr]
      simp only [Bool.not_true, Bool.false_eq_true, if_false]
      rw [if_pos hT2]
      exact ⟨rfl, rfl⟩
    · intro hT
      have hT2 : ¬ (mnb.base.sigTime > e.nAdjustedTime + 60 * 60) := by omega
      constructor
      · intro hKeys
        unfold CZnodeBroadcast.SimpleCheck
        rw [hAddr]
        simp only [Bool.not_true, Bool.false_eq_true, if_false, hT2]
        by_cases hC : x.scriptSize mnb.base.pubKeyCollateralAddress = 25
        · have hZ : x.scriptSize mnb.base.pubKeyZnode ≠ 25 := by
            rcases hKeys with h | h
            · exact absurd hC h
            · exact h
          cases (pingEmptyOrBad e 0 mnb.base.lastPing).1 <;> simp [hC, hZ]
        · cases (pingEmptyOrBad e 0 mnb.base.lastPing).1 <;> simp [hC]
      · intro hC hZ
        constructor
        · intro hSig
          unfold CZnodeBroadcast.SimpleCheck
          rw [hAddr]
          simp only [Bool.not_true, Bool.false_eq_true, if_false, hT2]
          cases (pingEmptyOrBad e 0 mnb.base.lastPing).1 <;> simp [hC, hZ, hSig]
        · intro hSig
          constructor
          · intro hPort
            unfold CZnodeBroadcast.SimpleCheck
            rw [hAddr]
            simp only [Bool.not_true, Bool.false_eq_true, if_false, hT2]
            by_cases hN : e.network = Network.MAIN
            · have hP : mnb.base.addr.port ≠ x.mainnetDefaultPort :=
                fun h => hPort (Or.inl ⟨hN, h⟩)
              cases (pingEmptyOrBad e 0 mnb.base.lastPing).1 <;> simp [hC, hZ, hSig, hN, hP]
            · have hP : mnb.base.addr.port = x.mainnetDefaultPort := by
                by_contra h
                exact hPort (Or.inr ⟨hN, h⟩)
              cases (pingEmptyOrBad e 0 mnb.base.lastPing).1 <;> simp [hC, hZ, hSig, hN, hP]
          · intro hPort
            exact (SimpleCheck_passed e x mnb hAddr hT hC hZ hSig hPort).2

/-- Witness of C16, with the collaborators `extMain` (every address valid, every key
script of 25 bytes, mainnet port 8168): on the main network at time 10000 the broadcast
`mnbNewer` passes, `mnbFuture` (signed at 15000) fails with weight 1, `mnbScriptSig`
(non-empty `scriptSig`) fails with weight 100 and `mnbOddPort` (port 1234) fails. -/
theorem SimpleCheck_first_match_witness :
    (mnbNewer.SimpleCheck envMain extMain).fOk = true
    ∧ ((mnbFuture.SimpleCheck envMain extMain).fOk = false
      ∧ (mnbFuture.SimpleCheck envMain extMain).nDos = 1)
    ∧ ((mnbScriptSig.SimpleCheck envMain extMain).fOk = false
      ∧ (mnbScriptSig.SimpleCheck envMain extMain).nDos = 100)
    ∧ (mnbOddPort.SimpleCheck envMain extMain).fOk = false :=
  ⟨((((SimpleCheck_first_match envMain extMain mnbNewer).2 (by decide)).2 (by decide)).2
      (by decide) (by decide)).2 (by decide) |>.2 (by decide),
   ((SimpleCheck_first_match envMain extMain mnbFuture).2 (by decide)).1 (by decide),
   ((((SimpleCheck_first_match envMain extMain mnbScriptSig).2 (by decide)).2 (by decide)).2
      (by decide) (by decide)).1 (by decide),
   ((((SimpleCheck_first_match envMain extMain mnbOddPort).2 (by decide)).2 (by decide)).2
      (by decide) (by decide)).2 (by decide) |>.1 (by decide)⟩

/-! ## `CZnodeBroadcast::Create` -/

/-- The function `CZnodeBroadcast::CheckSignature` returns true with DoS weight 0
whatever the broadcast is. -/
theorem CheckSignature_always (mnb : CZnodeBroadcast) : mnb.CheckSignature = (true, 0) := rfl

/-- A successful `Create` from keys has validated the address and returns a broadcast
with the given address, input and keys, signed at the current adjusted time. -/
theorem CreateFromKeys_created (e : Env) (x : Ext) (txin : CTxIn) (service : CService)
    (keyCollateralAddressNew : CKey) (pubKeyCollateralAddressNew : CPubKey)
    (keyZnodeNew : CKey) (pubKeyZnodeNew : CPubKey) (mnbRetIn : CZnodeBroadcast)
    (h : (CZnodeBroadcast.CreateFromKeys e x txin service keyCollateralAddressNew
      pubKeyCollateralAddressNew keyZnodeNew pubKeyZnodeNew mnbRetIn).fOk = true) :
    Znode.IsValidNetAddr e x service = true
    ∧ (CZnodeBroadcast.CreateFromKeys e x txin service keyCollateralAddressNew
        pubKeyCollateralAddressNew keyZnodeNew pubKeyZnodeNew mnbRetIn).mnbRet.base.addr
        = service
    ∧ (CZnodeBroadcast.CreateFromKeys e x txin service keyCollateralAddressNew
        pubKeyCollateralAddressNew keyZnodeNew pubKeyZnodeNew mnbRetIn).mnbRet.base.vin
        = txin
    ∧ (CZnodeBroadcast.CreateFromKeys e x txin service keyCollateralAddressNew
        pubKeyCollateralAddressNew keyZnodeNew pubKeyZnodeNew
        mnbRetIn).mnbRet.base.pubKeyCollateralAddress = pubKeyCollateralAddressNew
    ∧ (CZnodeBroadcast.CreateFromKeys e x txin service keyCollateralAddressNew
        pubKeyCollateralAddressNew keyZnodeNew pubKeyZnodeNew mnbRetIn).mnbRet.base.pubKeyZnode
        = pubKeyZnodeNew
    ∧ (CZnodeBroadcast.CreateFromKeys e x txin service keyCollateralAddressNew
        pubKeyCollateralAddressNew keyZnodeNew pubKeyZnodeNew mnbRetIn).mnbRet.base.sigTime
        = e.nAdjustedTime := by
  have hImp : (x.fImporting || x.fReindex) = false := by
    cases hc : (x.fImporting || x.fReindex)
    · rfl
    · unfold CZnodeBroadcast.CreateFromKeys at h
      rw [if_pos hc] at h
      exact absurd h Bool.false_ne_true
  have hAddr : Znode.IsValidNetAddr e x service = true := by
    by_contra hc
    have hc2 : Znode.IsValidNetAddr e x service = false := by simpa using hc
    unfold CZnodeBroadcast.CreateFromKeys at h
    simp [hImp, CZnodePing.Sign, CZnode.IsValidNetAddr, CZnodeBroadcast.ofService,
      CZnode.ofService, hc2] at h
  have hEq : CZnodeBroadcast.CreateFromKeys e x txin service keyCollateralAddressNew
      pubKeyCollateralAddressNew keyZnodeNew pubKeyZnodeNew mnbRetIn
      = { exit := CreateExit.created, fOk := true,
          mnbRet := ((({ (CZnodeBroadcast.ofService e service txin pubKeyCollateralAddressNew
              pubKeyZnodeNew x.LEGACY_ZNODES_PROTOCOL_VERSION) with
            base := { (CZnodeBroadcast.ofService e service txin pubKeyCollateralAddressNew
                pubKeyZnodeNew x.LEGACY_ZNODES_PROTOCOL_VERSION).base with
              lastPing := ((CZnodePing.ofVin e x txin).Sign e keyZnodeNew
                pubKeyZnodeNew).2 } } : CZnodeBroadcast).Sign e
                  keyCollateralAddressNew).2) } := by
    unfold CZnodeBroadcast.CreateFromKeys
    simp [hImp, CZnodePing.Sign, CZnodeBroadcast.Sign, CZnode.IsValidNetAddr,
      CZnodeBroadcast.ofService, CZnode.ofService, hAddr]
  rw [hEq]
  exact ⟨hAddr, rfl, rfl, rfl, rfl, rfl⟩

/-- C15, as the code has it: a broadcast that `CZnodeBroadcast::Create` has produced
(either overload returning success) passes its own `CheckSignature`, and passes its own
`SimpleCheck` under the same parameters and clock when the collateral input carries an
empty `scriptSig` and both keys resolve to 25-byte scripts and, for the overload that
takes the input and the service address directly, the port satisfies the network rule,
which only the overload taking strings checks itself. -/
theorem Create_round_trip (e : Env) (x : Ext) :
    (∀ (txin : CTxIn) (service : CService) (keyCollateralAddressNew : CKey)
        (pubKeyCollateralAddressNew : CPubKey) (keyZnodeNew : CKey) (pubKeyZnodeNew : CPubKey)
        (mnbRetIn : CZnodeBroadcast),
        (CZnodeBroadcast.CreateFromKeys e x txin service keyCollateralAddressNew
          pubKeyCollateralAddressNew keyZnodeNew pubKeyZnodeNew mnbRetIn).fOk = true →
        txin.scriptSig = [] →
        x.scriptSize pubKeyCollateralAddressNew = 25 →
        x.scriptSize pubKeyZnodeNew = 25 →
        ((e.network = Network.MAIN ∧ service.port = x.mainnetDefaultPort)
          ∨ (e.network ≠ Network.MAIN ∧ service.port ≠ x.mainnetDefaultPort)) →
        (((CZnodeBroadcast.CreateFromKeys e x txin service keyCollateralAddressNew
            pubKeyCollateralAddressNew keyZnodeNew pubKeyZnodeNew mnbRetIn).mnbRet.SimpleCheck
            e x).fOk = true
          ∧ ((CZnodeBroadcast.CreateFromKeys e x txin service keyCollateralAddressNew
            pubKeyCollateralAddressNew keyZnodeNew pubKeyZnodeNew
            mnbRetIn).mnbRet.CheckSignature).1 = true))
    ∧ (∀ (strService strKeyZnode strTxHash strOutputIndex : String)
        (mnbRetIn : CZnodeBroadcast) (fOffline : Bool) (txin : CTxIn)
        (pubKeyCollateralAddressNew : CPubKey) (keyCollateralAddressNew : CKey),
        (CZnodeBroadcast.Create e x strService strKeyZnode strTxHash strOutputIndex mnbRetIn
          fOffline).fOk = true →
        x.GetZnodeVinAndKeys strTxHash strOutputIndex
          = some (txin, pubKeyCollateralAddressNew, keyCollateralAddressNew) →
        txin.scriptSig = [] →
        x.scriptSize pubKeyCollateralAddressNew = 25 →
        x.scriptSize { vch := [] } = 25 →
        (((CZnodeBroadcast.Create e x strService strKeyZnode strTxHash strOutputIndex mnbRetIn
            fOffline).mnbRet.SimpleCheck e x).fOk = true
          ∧ ((CZnodeBroadcast.Create e x strService strKeyZnode strTxHash strOutputIndex
            mnbRetIn fOffline).mnbRet.CheckSignature).1 = true)) := by
  have hKeys : ∀ (txin : CTxIn) (service : CService) (keyCollateralAddressNew : CKey)
      (pubKeyCollateralAddressNew : CPubKey) (keyZnodeNew : CKey) (pubKeyZnodeNew : CPubKey)
      (mnbRetIn : CZnodeBroadcast),
      (CZnodeBroadcast.CreateFromKeys e x txin service keyCollateralAddressNew
        pubKeyCollateralAddressNew keyZnodeNew pubKeyZnodeNew mnbRetIn).fOk = true →
      txin.scriptSig = [] →
      x.scriptSize pubKeyCollateralAddressNew = 25 →
      x.scriptSize pubKeyZnodeNew = 25 →
      ((e.network = Network.MAIN ∧ service.port = x.mainnetDefaultPort)
        ∨ (e.network ≠ Network.MAIN ∧ service.port ≠ x.mainnetDefaultPort)) →
      (((CZnodeBroadcast.CreateFromKeys e x txin service keyCollateralAddressNew
          pubKeyCollateralAddressNew keyZnodeNew pubKeyZnodeNew mnbRetIn).mnbRet.SimpleCheck
          e x).fOk = true
        ∧ ((CZnodeBroadcast.CreateFromKeys e x txin service keyCollateralAddressNew
          pubKeyCollateralAddressNew keyZnodeNew pubKeyZnodeNew
          mnbRetIn).mnbRet.CheckSignature).1 = true) := by
    intro txin service kc pkc kz pkz mnbRetIn hOk hSig hC hZ hPort
    obtain ⟨hAddr, h1, h2, h3, h4, h5⟩ :=
      CreateFromKeys_created e x txin service kc pkc kz pkz mnbRetIn hOk
    refine ⟨(SimpleCheck_passed e x _ ?_ ?_ ?_ ?_ ?_ ?_).2, rfl⟩
    · unfold CZnode.IsValidNetAddr
      rw [h1]
      exact hAddr
    · rw [h5]
      omega
    · rw [h3]
      exact hC
    · rw [h4]
      exact hZ
    · rw [h2]
      exact hSig
    · rw [h1]
      exact hPort
  refine ⟨hKeys, ?_⟩
  intro strService strKeyZnode strTxHash strOutputIndex mnbRetIn fOffline txin pkc kc hOk
    hWallet hSig hC hZ
  unfold CZnodeBroadcast.Create at hOk ⊢
  split at hOk
  · exact absurd hOk (by simp)
  · rename_i hSync
    simp only [hSync, if_false, hWallet] at hOk ⊢
    by_cases hN : e.network = Network.MAIN
    · simp only [hN, if_true] at hOk ⊢
      by_cases hP : (x.LookupNumeric strService).port = x.mainnetDefaultPort
      · simp only [hP, ne_eq, not_true_eq_false, if_false] at hOk ⊢
        exact hKeys txin _ kc pkc _ _ mnbRetIn hOk hSig hC hZ (Or.inl ⟨hN, hP⟩)
      · simp only [ne_eq, hP, not_false_eq_true, if_true] at hOk
        exact absurd hOk (by simp)
    · simp only [hN, if_false] at hOk ⊢
      by_cases hP : (x.LookupNumeric strService).port = x.mainnetDefaultPort
      · simp only [hP, if_true] at hOk
        exact absurd hOk (by simp)
      · simp only [hP, if_false] at hOk ⊢
        exact hKeys txin _ kc pkc _ _ mnbRetIn hOk hSig hC hZ (Or.inr ⟨hN, hP⟩)

/-- Witness of C15 as the code has it: in `envMain` with `extMain` the overload taking
strings succeeds on the wallet's input `vinA`, and the broadcast it returns passes
`SimpleCheck` and `CheckSignature`. -/
theorem Create_round_trip_witness :
    (CZnodeBroadcast.Create envMain extMain strService1 strKeyZnode1 strTxHash1
        strOutputIndex1 mnbSame false).fOk = true
    ∧ ((CZnodeBroadcast.Create envMain extMain strService1 strKeyZnode1 strTxHash1
        strOutputIndex1 mnbSame false).mnbRet.SimpleCheck envMain extMain).fOk = true
    ∧ ((CZnodeBroadcast.Create envMain extMain strService1 strKeyZnode1 strTxHash1
        strOutputIndex1 mnbSame false).mnbRet.CheckSignature).1 = true :=
  have h := (Create_round_trip envMain extMain).2 strService1 strKeyZnode1 strTxHash1
    strOutputIndex1 mnbSame false vinA { vch := [2, 1] } { vch := [9, 9] } (by decide) (by decide)
    (by decide) (by decide) (by decide)
  ⟨by decide, h.1, h.2⟩

/-- Counterexample to C15 as stated: on the main network of `envMain` the overload of
`Create` that takes the input and the service address succeeds for the address
`serviceOddPort`, whose port 1234 is not the mainnet default 8168, and the broadcast it
returns fails its own `SimpleCheck` at the port rule. -/
theorem Create_round_trip_counterexample :
    (CZnodeBroadcast.CreateFromKeys envMain extMain vinA serviceOddPort { vch := [9, 9] }
        { vch := [2, 1] } { vch := [9, 8] } { vch := [2, 2] } mnbSame).fOk = true
    ∧ ((CZnodeBroadcast.CreateFromKeys envMain extMain vinA serviceOddPort { vch := [9, 9] }
        { vch := [2, 1] } { vch := [9, 8] } { vch := [2, 2] } mnbSame).mnbRet.SimpleCheck
        envMain extMain).exit = SimpleCheckExit.portNotMainnetDefault
    ∧ ((CZnodeBroadcast.CreateFromKeys envMain extMain vinA serviceOddPort { vch := [9, 9] }
        { vch := [2, 1] } { vch := [9, 8] } { vch := [2, 2] } mnbSame).mnbRet.SimpleCheck
        envMain extMain).fOk = false := by
  decide

/-! ## What `Update` writes and what `CheckSignature` checks -/

/-- C17: at the record `znodeA` and the broadcast `mnbMoved` in `envMain` every
validation of `CZnodeBroadcast::Update` passes (newer `sigTime`, not POSE_BAN, same
collateral key, `CheckSignature` true) and the record was not broadcast within
`ZNODE_MIN_MNB_SECONDS`, so the call takes the updating branch and returns true; yet the
record afterwards still has its own service address, operating key, protocol version,
signature, `sigTime` and last ping, none of which equals the broadcast's. -/
theorem Update_does_not_replace_fields :
    znodeA.sigTime < mnbMoved.base.sigTime
    ∧ (znodeA.Check envMain false).IsPoSeBanned = false
    ∧ mnbMoved.base.pubKeyCollateralAddress = znodeA.pubKeyCollateralAddress
    ∧ mnbMoved.CheckSignature.1 = true
    ∧ (znodeA.Check envMain false).IsBroadcastedWithin envMain envMain.ZNODE_MIN_MNB_SECONDS
        = false
    ∧ (mnbMoved.Update envMain znodeA).exit = UpdateExit.applied
    ∧ (mnbMoved.Update envMain znodeA).fOk = true
    ∧ ((mnbMoved.Update envMain znodeA).pmn.addr = znodeA.addr
      ∧ (mnbMoved.Update envMain znodeA).pmn.addr ≠ mnbMoved.base.addr)
    ∧ ((mnbMoved.Update envMain znodeA).pmn.pubKeyZnode = znodeA.pubKeyZnode
      ∧ (mnbMoved.Update envMain znodeA).pmn.pubKeyZnode ≠ mnbMoved.base.pubKeyZnode)
    ∧ ((mnbMoved.Update envMain znodeA).pmn.nProtocolVersion = znodeA.nProtocolVersion
      ∧ (mnbMoved.Update envMain znodeA).pmn.nProtocolVersion ≠ mnbMoved.base.nProtocolVersion)
    ∧ ((mnbMoved.Update envMain znodeA).pmn.vchSig = znodeA.vchSig
      ∧ (mnbMoved.Update envMain znodeA).pmn.vchSig ≠ mnbMoved.base.vchSig)
    ∧ ((mnbMoved.Update envMain znodeA).pmn.sigTime = znodeA.sigTime
      ∧ (mnbMoved.Update envMain znodeA).pmn.sigTime ≠ mnbMoved.base.sigTime)
    ∧ ((mnbMoved.Update envMain znodeA).pmn.lastPing = znodeA.lastPing
      ∧ (mnbMoved.Update envMain znodeA).pmn.lastPing ≠ mnbMoved.base.lastPing) := by
  decide

/-- A call of `Update` writes nothing but what `Check` writes: the time of the last
check, the state and the ban score. -/
theorem Update_writes (e : Env) (mnb : CZnodeBroadcast) (r : CZnode) :
    ∃ t s sc, (mnb.Update e r).pmn
      = { r with nTimeLastChecked := t, nActiveState := s, nPoSeBanScore := sc } := by
  rcases Update_pmn_cases e mnb r with h | h | h
  · rw [h]
    exact ⟨r.nTimeLastChecked, r.nActiveState, r.nPoSeBanScore, rfl⟩
  · rw [h]
    exact Check_writes e false r
  · rw [h]
    obtain ⟨t, s, sc, h1⟩ := Check_writes e false r
    obtain ⟨t2, s2, sc2, h2⟩ := Check_writes e false (r.Check e false)
    rw [h2, h1]
    exact ⟨t2, s2, sc2, rfl⟩

/-- C18: the broadcast `mnbUnsigned` carries no signature bytes and differs from
`mnbNewer` in nothing else; `CZnodeBroadcast::CheckSignature` returns true for it, as for
`mnbNewer`, and so `Update` on `znodeA` and `CheckOutpoint` accept it in `envMain`. -/
theorem CheckSignature_accepts_empty_signature :
    mnbUnsigned.base.vchSig = []
    ∧ mnbNewer.base.vchSig ≠ []
    ∧ mnbUnsigned.base = { mnbNewer.base with vchSig := [] }
    ∧ mnbUnsigned.CheckSignature = (true, 0)
    ∧ mnbUnsigned.CheckSignature = mnbNewer.CheckSignature
    ∧ (mnbUnsigned.Update envMain znodeA).fOk = true
    ∧ mnbUnsigned.CheckOutpoint envMain extMain 0
        = some { exit := OutpointExit.verified, fOk := true, nDos := 0 } := by
  decide

/-! ## Throttle and try-lock of `Check` -/

/-- A forced `Check` that runs does not read the time of the last check. -/
theorem CheckTrace_forced_nTimeLastChecked (e : Env) (r : CZnode) (t : Int)
    (hShutdown : e.fShutdownRequested = false) :
    ({ r with nTimeLastChecked := t } : CZnode).CheckTrace e true = r.CheckTrace e true := by
  unfold CZnode.CheckTrace
  simp only [hShutdown]
  rfl

/-- An unforced `Check` made when the recheck interval has passed is the forced one. -/
theorem CheckTrace_unforced_eq_forced (e : Env) (r : CZnode)
    (h : ¬ (e.nTime - r.nTimeLastChecked < e.ZNODE_CHECK_SECONDS)) :
    r.CheckTrace e false = r.CheckTrace e true := by
  unfold CZnode.CheckTrace
  simp [h]

/-- The guards of lines 185-250 end at none of the exits that precede them. -/
theorem CheckStates_exit (e : Env) (r : CZnode) :
    (CheckStates e r).1 ≠ CheckExit.lockBusy ∧ (CheckStates e r).1 ≠ CheckExit.throttled := by
  unfold CheckStates CheckExpiry CheckEnable
  simp only []
  split
  · exact ⟨by simp, by simp⟩
  · split
    · split
      · exact ⟨by simp, by simp⟩
      · split
        · exact ⟨by simp, by simp⟩
        · split
          · exact ⟨by simp, by simp⟩
          · split <;> exact ⟨by simp, by simp⟩
    · split <;> exact ⟨by simp, by simp⟩

/-- The ban guards and what follows them end at none of the exits that precede them. -/
theorem CheckBan_exit (e : Env) (nHeight : Int) (r : CZnode) :
    (CheckBan e nHeight r).1 ≠ CheckExit.lockBusy
    ∧ (CheckBan e nHeight r).1 ≠ CheckExit.throttled := by
  unfold CheckBan
  split
  · split
    · exact ⟨by simp, by simp⟩
    · exact CheckStates_exit e _
  · split
    · exact ⟨by simp, by simp⟩
    · exact CheckStates_exit e _

/-- C19: if `Check` is called with `fForce = false` and the time since
`nTimeLastChecked` is less than `ZNODE_CHECK_SECONDS`, the call changes no field of the
record; with `fForce = true` the call never ends at the throttle, and when it runs (no
shutdown pending) its outcome is the same whatever `nTimeLastChecked` is. -/
theorem Check_throttle (e : Env) (r : CZnode) :
    (e.nTime - r.nTimeLastChecked < e.ZNODE_CHECK_SECONDS → r.Check e false = r)
    ∧ (r.CheckTrace e true).1 ≠ CheckExit.throttled
    ∧ (e.fShutdownRequested = false → ∀ t : Int,
        ({ r with nTimeLastChecked := t } : CZnode).CheckTrace e true = r.CheckTrace e true) := by
  refine ⟨?_, ?_, ?_⟩
  · intro h
    unfold CZnode.Check CZnode.CheckTrace
    split
    · rfl
    · simp [h]
  · unfold CZnode.CheckTrace
    split
    · simp
    · simp only [Bool.not_true, Bool.false_and, Bool.false_eq_true, if_false]
      split
      · simp
      · split
        · split
          · simp
          · split
            · simp
            · exact (CheckBan_exit e _ _).2
        · exact (CheckBan_exit e _ _).2
  · intro hShutdown t
    exact CheckTrace_forced_nTimeLastChecked e r t hShutdown

/-- Witness of C19 in `envLater` (time 10003, recheck interval 5): the record
`znodeChecked`, last checked at 10000 while its state says EXPIRED, is left as it is by
an unforced `Check` and becomes ENABLED by a forced one, as does its copy last checked at
time 0. -/
theorem Check_throttle_witness :
    znodeChecked.Check envLater false = znodeChecked
    ∧ (znodeChecked.CheckTrace envLater true).1 ≠ CheckExit.throttled
    ∧ ({ znodeChecked with nTimeLastChecked := 0 } : CZnode).CheckTrace envLater true
        = znodeChecked.CheckTrace envLater true
    ∧ (znodeChecked.Check envLater true).nActiveState = ZNODE_ENABLED :=
  ⟨(Check_throttle envLater znodeChecked).1 (by decide),
   (Check_throttle envLater znodeChecked).2.1,
   (Check_throttle envLater znodeChecked).2.2 (by decide) 0,
   by decide⟩

/-- C20, as the code has it: when `Check` ends because it cannot obtain the chain-state
lock, it has already written the time of the check: the record is the old one with
`nTimeLastChecked` set to the current time and every other field unchanged.  A forced
`Check` that runs afterwards performs the evaluation it would have performed on the old
record; an unforced one does so only when at least `ZNODE_CHECK_SECONDS` have passed
since the failed attempt, and is throttled, leaving the record alone, before that. -/
theorem Check_lock_busy (e : Env) (fForce : Bool) (r : CZnode)
    (hBusy : (r.CheckTrace e fForce).1 = CheckExit.lockBusy) :
    r.Check e fForce = { r with nTimeLastChecked := e.nTime }
    ∧ (∀ e2 : Env, e2.fShutdownRequested = false →
        (r.Check e fForce).CheckTrace e2 true = r.CheckTrace e2 true
        ∧ (¬ (e2.nTime - e.nTime < e2.ZNODE_CHECK_SECONDS) →
            (r.Check e fForce).CheckTrace e2 false = r.CheckTrace e2 true)
        ∧ (e2.nTime - e.nTime < e2.ZNODE_CHECK_SECONDS →
            (r.Check e fForce).CheckTrace e2 false
              = (CheckExit.throttled, r.Check e fForce))) := by
  have hEq : r.Check e fForce = { r with nTimeLastChecked := e.nTime } := by
    unfold CZnode.Check
    unfold CZnode.CheckTrace at hBusy ⊢
    split
    · rename_i h
      rw [if_pos h] at hBusy
      exact absurd hBusy (by simp)
    · rename_i h
      rw [if_neg h] at hBusy
      split
      · rename_i h2
        rw [if_pos h2] at hBusy
        exact absurd hBusy (by simp)
      · rename_i h2
        rw [if_neg h2] at hBusy
        simp only [] at hBusy ⊢
        split
        · rfl
        · rename_i h3
          rw [if_neg h3] at hBusy
          split
          · rename_i h4
            rw [if_pos h4] at hBusy
            split
            · rfl
            · rename_i h5
              rw [if_neg h5] at hBusy
              split
              · rename_i h6
                rw [if_pos h6] at hBusy
                exact absurd hBusy (by simp)
              · rename_i h6
                rw [if_neg h6] at hBusy
                exact absurd hBusy (CheckBan_exit e _ _).1
          · rename_i h4
            rw [if_neg h4] at hBusy
            exact absurd hBusy (CheckBan_exit e _ _).1
  refine ⟨hEq, ?_⟩
  intro e2 hShutdown
  rw [hEq]
  refine ⟨CheckTrace_forced_nTimeLastChecked e2 r e.nTime hShutdown, ?_, ?_⟩
  · intro hPassed
    rw [CheckTrace_unforced_eq_forced e2 _ hPassed]
    exact CheckTrace_forced_nTimeLastChecked e2 r e.nTime hShutdown
  · intro hSoon
    unfold CZnode.CheckTrace
    simp [hShutdown, hSoon]

/-- Witness of C20 as the code has it: the record `znodeA`, last checked at time 0, is
checked at time 10000 in `envLockBusy`; only `nTimeLastChecked` changes, and in
`envLater`, three seconds later with the lock free, an unforced `Check` is throttled. -/
theorem Check_lock_busy_witness :
    znodeA.Check envLockBusy false = { znodeA with nTimeLastChecked := 10000 }
    ∧ (znodeA.Check envLockBusy false).CheckTrace envLater false
        = (CheckExit.throttled, znodeA.Check envLockBusy false) :=
  have h := Check_lock_busy envLockBusy false znodeA (by decide)
  ⟨h.1, (h.2 envLater (by decide)).2.2 (by decide)⟩

/-- Counterexample to C20 as stated: the record `znodeA` is not in unit-test mode and
was last checked at time 0; an unforced `Check` at time 10000 that cannot obtain the lock
(`envLockBusy`) changes `nTimeLastChecked` to 10000, and the very next unforced `Check`,
made three seconds later with the lock available (`envLater`), is throttled and performs
no evaluation. -/
theorem Check_lock_busy_counterexample :
    znodeA.fUnitTest = false
    ∧ envLockBusy.lockMain = false
    ∧ (znodeA.CheckTrace envLockBusy false).1 = CheckExit.lockBusy
    ∧ znodeA.Check envLockBusy false ≠ znodeA
    ∧ (znodeA.Check envLockBusy false).nTimeLastChecked = 10000
    ∧ znodeA.nTimeLastChecked = 0
    ∧ envLater.lockMain = true
    ∧ ((znodeA.Check envLockBusy false).CheckTrace envLater false).1 = CheckExit.throttled
    ∧ (znodeA.CheckTrace envLater false).1 = CheckExit.enabled := by
  decide

/-! ## The guard chain of `Check`, case by case -/

/-- The two outcomes of lines 238-250, each with the condition under which it is taken. -/
theorem CheckEnable_cases (e : Env) (r : CZnode) :
    (CheckEnable e r = (CheckExit.preEnabled, { r with nActiveState := ZNODE_PRE_ENABLED })
      ∧ e.network ≠ Network.REGTEST
      ∧ subInt64 r.lastPing.sigTime r.sigTime < e.ZNODE_MIN_MNP_SECONDS)
    ∨ (CheckEnable e r = (CheckExit.enabled, { r with nActiveState := ZNODE_ENABLED })
      ∧ (e.network = Network.REGTEST
        ∨ e.ZNODE_MIN_MNP_SECONDS ≤ subInt64 r.lastPing.sigTime r.sigTime)) := by
  unfold CheckEnable
  by_cases h : e.network ≠ Network.REGTEST
      ∧ subInt64 r.lastPing.sigTime r.sigTime < e.ZNODE_MIN_MNP_SECONDS
  · rw [if_pos h]
    exact Or.inl ⟨rfl, h.1, h.2⟩
  · rw [if_neg h]
    refine Or.inr ⟨rfl, ?_⟩
    by_cases hn : e.network = Network.REGTEST
    · exact Or.inl hn
    · refine Or.inr ?_
      by_contra hlt
      exact h ⟨hn, by omega⟩

/-- The outcomes of the expiry block, lines 207-235, each with the condition under which
it is taken: the three expiry guards in their order, else the rest of the function. -/
theorem CheckExpiry_cases (e : Env) (r : CZnode) :
    (CheckExpiry e r
        = (CheckExit.newStartRequired, { r with nActiveState := ZNODE_NEW_START_REQUIRED })
      ∧ r.IsPingedWithin e.ZNODE_NEW_START_REQUIRED_SECONDS e.nAdjustedTime = false)
    ∨ (CheckExpiry e r
        = (CheckExit.watchdogExpired, { r with nActiveState := ZNODE_WATCHDOG_EXPIRED })
      ∧ r.IsPingedWithin e.ZNODE_NEW_START_REQUIRED_SECONDS e.nAdjustedTime = true
      ∧ fWatchdogExpired e r = true)
    ∨ (CheckExpiry e r = (CheckExit.expired, { r with nActiveState := ZNODE_EXPIRED })
      ∧ r.IsPingedWithin e.ZNODE_NEW_START_REQUIRED_SECONDS e.nAdjustedTime = true
      ∧ fWatchdogExpired e r = false
      ∧ r.IsPingedWithin e.ZNODE_EXPIRATION_SECONDS e.nAdjustedTime = false)
    ∨ (CheckExpiry e r = CheckEnable e r
      ∧ r.IsPingedWithin e.ZNODE_NEW_START_REQUIRED_SECONDS e.nAdjustedTime = true
      ∧ fWatchdogExpired e r = false
      ∧ r.IsPingedWithin e.ZNODE_EXPIRATION_SECONDS e.nAdjustedTime = true) := by
  unfold CheckExpiry fWatchdogExpired
  cases hN : r.IsPingedWithin e.ZNODE_NEW_START_REQUIRED_SECONDS e.nAdjustedTime
  · simp
  · cases hW : (e.fSynced
        && decide (e.nTime - r.nTimeLastWatchdogVote > e.ZNODE_WATCHDOG_MAX_SECONDS))
    · cases hE : r.IsPingedWithin e.ZNODE_EXPIRATION_SECONDS e.nAdjustedTime
      · simp [hW]
      · simp [hW]
    · simp [hW]

/-- The outcomes of lines 185-236, each with the condition under which it is taken: the
hold, the expiry block, or the rest of the function with the expiry block skipped. -/
theorem CheckStates_cases (e : Env) (r : CZnode) :
    (CheckStates e r = (CheckExit.waitingForPing, r)
      ∧ fWaitForPing e r = true ∧ fOurZnode e r = false
      ∧ (r.IsExpired || r.IsWatchdogExpired || r.IsNewStartRequired) = true)
    ∨ (CheckStates e r = CheckExpiry e r
      ∧ (fWaitForPing e r = false ∨ fOurZnode e r = true))
    ∨ (CheckStates e r = CheckEnable e r
      ∧ fWaitForPing e r = true ∧ fOurZnode e r = false
      ∧ (r.IsExpired || r.IsWatchdogExpired || r.IsNewStartRequired) = false) := by
  unfold CheckStates fWaitForPing fOurZnode
  cases hW : (!e.fZnodeListSynced
      && !r.IsPingedWithin e.ZNODE_MIN_MNP_SECONDS e.nAdjustedTime)
  · simp
  · cases hO : (e.fMasternodeMode && decide (e.activePubKeyZnode = r.pubKeyZnode))
    · cases hS : (r.IsExpired || r.IsWatchdogExpired || r.IsNewStartRequired)
      · simp [hS]
      · simp [hS]
    · simp

/-- The guards of `Check` read the operating key, the stored ping, the announcement
time, the time of the last watchdog vote and the state: two records that agree on these
give every guard the same value. -/
theorem guards_congr (e : Env) (r r2 : CZnode)
    (hKey : r2.pubKeyZnode = r.pubKeyZnode) (hPing : r2.lastPing = r.lastPing)
    (hVote : r2.nTimeLastWatchdogVote = r.nTimeLastWatchdogVote)
    (hState : r2.nActiveState = r.nActiveState) :
    fOurZnode e r2 = fOurZnode e r
    ∧ fWaitForPing e r2 = fWaitForPing e r
    ∧ fWatchdogExpired e r2 = fWatchdogExpired e r
    ∧ (∀ n t, r2.IsPingedWithin n t = r.IsPingedWithin n t)
    ∧ (r2.IsExpired || r2.IsWatchdogExpired || r2.IsNewStartRequired)
        = (r.IsExpired || r.IsWatchdogExpired || r.IsNewStartRequired) := by
  unfold fOurZnode fWaitForPing fWatchdogExpired CZnode.IsPingedWithin CZnode.IsExpired
    CZnode.IsWatchdogExpired CZnode.IsNewStartRequired
  rw [hKey, hPing, hVote, hState]
  exact ⟨rfl, rfl, rfl, fun _ _ => rfl, rfl⟩

/-- Every run of lines 185-250 of `Check`: the exit taken, the state it leaves and the
values of the guards that lead there. -/
theorem CheckStates_full_cases (e : Env) (r : CZnode) :
    ((CheckStates e r).1 = CheckExit.waitingForPing
      ∧ (CheckStates e r).2.nActiveState = r.nActiveState
      ∧ fWaitForPing e r = true ∧ fOurZnode e r = false
      ∧ (r.IsExpired || r.IsWatchdogExpired || r.IsNewStartRequired) = true)
    ∨ ((CheckStates e r).1 = CheckExit.newStartRequired
      ∧ (CheckStates e r).2.nActiveState = ZNODE_NEW_START_REQUIRED
      ∧ (fWaitForPing e r = false ∨ fOurZnode e r = true)
      ∧ r.IsPingedWithin e.ZNODE_NEW_START_REQUIRED_SECONDS e.nAdjustedTime = false)
    ∨ ((CheckStates e r).1 = CheckExit.watchdogExpired
      ∧ (CheckStates e r).2.nActiveState = ZNODE_WATCHDOG_EXPIRED
      ∧ (fWaitForPing e r = false ∨ fOurZnode e r = true)
      ∧ r.IsPingedWithin e.ZNODE_NEW_START_REQUIRED_SECONDS e.nAdjustedTime = true
      ∧ fWatchdogExpired e r = true)
    ∨ ((CheckStates e r).1 = CheckExit.expired
      ∧ (CheckStates e r).2.nActiveState = ZNODE_EXPIRED
      ∧ (fWaitForPing e r = false ∨ fOurZnode e r = true)
      ∧ r.IsPingedWithin e.ZNODE_NEW_START_REQUIRED_SECONDS e.nAdjustedTime = true
      ∧ fWatchdogExpired e r = false
      ∧ r.IsPingedWithin e.ZNODE_EXPIRATION_SECONDS e.nAdjustedTime = false)
    ∨ ((CheckStates e r).1 = CheckExit.preEnabled
      ∧ (CheckStates e r).2.nActiveState = ZNODE_PRE_ENABLED
      ∧ e.network ≠ Network.REGTEST
      ∧ subInt64 r.lastPing.sigTime r.sigTime < e.ZNODE_MIN_MNP_SECONDS
      ∧ ((fWaitForPing e r = true ∧ fOurZnode e r = false
          ∧ (r.IsExpired || r.IsWatchdogExpired || r.IsNewStartRequired) = false)
        ∨ ((fWaitForPing e r = false ∨ fOurZnode e r = true)
          ∧ r.IsPingedWithin e.ZNODE_NEW_START_REQUIRED_SECONDS e.nAdjustedTime = true
          ∧ fWatchdogExpired e r = false
          ∧ r.IsPingedWithin e.ZNODE_EXPIRATION_SECONDS e.nAdjustedTime = true)))
    ∨ ((CheckStates e r).1 = CheckExit.enabled
      ∧ (CheckStates e r).2.nActiveState = ZNODE_ENABLED
      ∧ (e.network = Network.REGTEST
        ∨ e.ZNODE_MIN_MNP_SECONDS ≤ subInt64 r.lastPing.sigTime r.sigTime)
      ∧ ((fWaitForPing e r = true ∧ fOurZnode e r = false
          ∧ (r.IsExpired || r.IsWatchdogExpired || r.IsNewStartRequired) = false)
        ∨ ((fWaitForPing e r = false ∨ fOurZnode e r = true)
          ∧ r.IsPingedWithin e.ZNODE_NEW_START_REQUIRED_SECONDS e.nAdjustedTime = true
          ∧ fWatchdogExpired e r = false
          ∧ r.IsPingedWithin e.ZNODE_EXPIRATION_SECONDS e.nAdjustedTime = true))) := by
  have hEn : ∀ (_hc : ((fWaitForPing e r = true ∧ fOurZnode e r = false
        ∧ (r.IsExpired || r.IsWatchdogExpired || r.IsNewStartRequired) = false)
      ∨ ((fWaitForPing e r = false ∨ fOurZnode e r = true)
        ∧ r.IsPingedWithin e.ZNODE_NEW_START_REQUIRED_SECONDS e.nAdjustedTime = true
        ∧ fWatchdogExpired e r = false
        ∧ r.IsPingedWithin e.ZNODE_EXPIRATION_SECONDS e.nAdjustedTime = true))),
      ((CheckEnable e r).1 = CheckExit.preEnabled
        ∧ (CheckEnable e r).2.nActiveState = ZNODE_PRE_ENABLED
        ∧ e.network ≠ Network.REGTEST
        ∧ subInt64 r.lastPing.sigTime r.sigTime < e.ZNODE_MIN_MNP_SECONDS
        ∧ ((fWaitForPing e r = true ∧ fOurZnode e r = false
            ∧ (r.IsExpired || r.IsWatchdogExpired || r.IsNewStartRequired) = false)
          ∨ ((fWaitForPing e r = false ∨ fOurZnode e r = true)
            ∧ r.IsPingedWithin e.ZNODE_NEW_START_REQUIRED_SECONDS e.nAdjustedTime = true
            ∧ fWatchdogExpired e r = false
            ∧ r.IsPingedWithin e.ZNODE_EXPIRATION_SECONDS e.nAdjustedTime = true)))
      ∨ ((CheckEnable e r).1 = CheckExit.enabled
        ∧ (CheckEnable e r).2.nActiveState = ZNODE_ENABLED
        ∧ (e.network = Network.REGTEST
          ∨ e.ZNODE_MIN_MNP_SECONDS ≤ subInt64 r.lastPing.sigTime r.sigTime)
        ∧ ((fWaitForPing e r = true ∧ fOurZnode e r = false
            ∧ (r.IsExpired || r.IsWatchdogExpired || r.IsNewStartRequired) = false)
          ∨ ((fWaitForPing e r = false ∨ fOurZnode e r = true)
            ∧ r.IsPingedWithin e.ZNODE_NEW_START_REQUIRED_SECONDS e.nAdjustedTime = true
            ∧ fWatchdogExpired e r = false
            ∧ r.IsPingedWithin e.ZNODE_EXPIRATION_SECONDS e.nAdjustedTime = true))) := by
    intro hc
    rcases CheckEnable_cases e r with ⟨h, h1, h2⟩ | ⟨h, h1⟩
    · rw [h]
      exact Or.inl ⟨rfl, rfl, h1, h2, hc⟩
    · rw [h]
      exact Or.inr ⟨rfl, rfl, h1, hc⟩
  rcases CheckStates_cases e r with ⟨h, hw, ho, hs⟩ | ⟨h, hwo⟩ | ⟨h, hw, ho, hs⟩
  · rw [h]
    exact Or.inl ⟨rfl, rfl, hw, ho, hs⟩
  · rw [h]
    rcases CheckExpiry_cases e r with ⟨h2, hn⟩ | ⟨h2, hn, hwd⟩ | ⟨h2, hn, hwd, hx⟩
        | ⟨h2, hn, hwd, hx⟩
    · rw [h2]
      exact Or.inr (Or.inl ⟨rfl, rfl, hwo, hn⟩)
    · rw [h2]
      exact Or.inr (Or.inr (Or.inl ⟨rfl, rfl, hwo, hn, hwd⟩))
    · rw [h2]
      exact Or.inr (Or.inr (Or.inr (Or.inl ⟨rfl, rfl, hwo, hn, hwd, hx⟩)))
    · rw [h2]
      exact Or.inr (Or.inr (Or.inr (Or.inr (hEn (Or.inr ⟨hwo, hn, hwd, hx⟩)))))
  · rw [h]
    exact Or.inr (Or.inr (Or.inr (Or.inr (hEn (Or.inl ⟨hw, ho, hs⟩)))))

/-- Every run of `Check` ends before line 185 at an exit that leaves the state alone,
ends at the assignment of OUTPOINT_SPENT or of POSE_BAN, or is a run of lines 185-250 on
a record that differs from the given one only in the time of the last check and the ban
score. -/
theorem CheckTrace_cases (e : Env) (fForce : Bool) (r : CZnode) :
    (((r.CheckTrace e fForce).1 = CheckExit.shutdown
        ∨ (r.CheckTrace e fForce).1 = CheckExit.throttled
        ∨ (r.CheckTrace e fForce).1 = CheckExit.alreadySpent
        ∨ (r.CheckTrace e fForce).1 = CheckExit.lockBusy
        ∨ (r.CheckTrace e fForce).1 = CheckExit.stillBanned)
      ∧ (r.CheckTrace e fForce).2.nActiveState = r.nActiveState)
    ∨ ((r.CheckTrace e fForce).1 = CheckExit.outpointSpent
      ∧ (r.CheckTrace e fForce).2.nActiveState = ZNODE_OUTPOINT_SPENT)
    ∨ ((r.CheckTrace e fForce).1 = CheckExit.poseBan
      ∧ (r.CheckTrace e fForce).2.nActiveState = ZNODE_POSE_BAN)
    ∨ (∃ r2 : CZnode, r.CheckTrace e fForce = CheckStates e r2
      ∧ r2.pubKeyZnode = r.pubKeyZnode ∧ r2.lastPing = r.lastPing ∧ r2.sigTime = r.sigTime
      ∧ r2.nTimeLastWatchdogVote = r.nTimeLastWatchdogVote
      ∧ r2.nActiveState = r.nActiveState) := by
  have hBan : ∀ (nHeight : Int) (r1 : CZnode),
      (((CheckBan e nHeight r1).1 = CheckExit.stillBanned
          ∧ (CheckBan e nHeight r1).2.nActiveState = r1.nActiveState)
        ∨ ((CheckBan e nHeight r1).1 = CheckExit.poseBan
          ∧ (CheckBan e nHeight r1).2.nActiveState = ZNODE_POSE_BAN)
        ∨ (∃ r2 : CZnode, CheckBan e nHeight r1 = CheckStates e r2
          ∧ r2.pubKeyZnode = r1.pubKeyZnode ∧ r2.lastPing = r1.lastPing
          ∧ r2.sigTime = r1.sigTime
          ∧ r2.nTimeLastWatchdogVote = r1.nTimeLastWatchdogVote
          ∧ r2.nActiveState = r1.nActiveState)) := by
    intro nHeight r1
    unfold CheckBan
    split
    · split
      · exact Or.inl ⟨rfl, rfl⟩
      · refine Or.inr (Or.inr ⟨r1.DecreasePoSeBanScore, rfl, ?_⟩)
        unfold CZnode.DecreasePoSeBanScore
        split <;> exact ⟨rfl, rfl, rfl, rfl, rfl⟩
    · split
      · exact Or.inr (Or.inl ⟨rfl, rfl⟩)
      · exact Or.inr (Or.inr ⟨r1, rfl, rfl, rfl, rfl, rfl, rfl⟩)
  have hLift : ∀ (nHeight : Int),
      (((CheckBan e nHeight { r with nTimeLastChecked := e.nTime }).1 = CheckExit.shutdown
          ∨ (CheckBan e nHeight { r with nTimeLastChecked := e.nTime }).1
              = CheckExit.throttled
          ∨ (CheckBan e nHeight { r with nTimeLastChecked := e.nTime }).1
              = CheckExit.alreadySpent
          ∨ (CheckBan e nHeight { r with nTimeLastChecked := e.nTime }).1
              = CheckExit.lockBusy
          ∨ (CheckBan e nHeight { r with nTimeLastChecked := e.nTime }).1
              = CheckExit.stillBanned)
        ∧ (CheckBan e nHeight { r with nTimeLastChecked := e.nTime }).2.nActiveState
            = r.nActiveState)
      ∨ ((CheckBan e nHeight { r with nTimeLastChecked := e.nTime }).1
            = CheckExit.outpointSpent
        ∧ (CheckBan e nHeight { r with nTimeLastChecked := e.nTime }).2.nActiveState
            = ZNODE_OUTPOINT_SPENT)
      ∨ ((CheckBan e nHeight { r with nTimeLastChecked := e.nTime }).1 = CheckExit.poseBan
        ∧ (CheckBan e nHeight { r with nTimeLastChecked := e.nTime }).2.nActiveState
            = ZNODE_POSE_BAN)
      ∨ (∃ r2 : CZnode,
          CheckBan e nHeight { r with nTimeLastChecked := e.nTime } = CheckStates e r2
        ∧ r2.pubKeyZnode = r.pubKeyZnode ∧ r2.lastPing = r.lastPing
        ∧ r2.sigTime = r.sigTime
        ∧ r2.nTimeLastWatchdogVote = r.nTimeLastWatchdogVote
        ∧ r2.nActiveState = r.nActiveState) := by
    intro nHeight
    rcases hBan nHeight { r with nTimeLastChecked := e.nTime } with ⟨h1, h2⟩ | ⟨h1, h2⟩
        | ⟨r2, h, h3⟩
    · exact Or.inl ⟨Or.inr (Or.inr (Or.inr (Or.inr h1))), h2⟩
    · exact Or.inr (Or.inr (Or.inl ⟨h1, h2⟩))
    · exact Or.inr (Or.inr (Or.inr ⟨r2, h, h3⟩))
  unfold CZnode.CheckTrace
  split
  · exact Or.inl ⟨Or.inl rfl, rfl⟩
  · split
    · exact Or.inl ⟨Or.inr (Or.inl rfl), rfl⟩
    · simp only []
      split
      · exact Or.inl ⟨Or.inr (Or.inr (Or.inl rfl)), rfl⟩
      · split
        · split
          · exact Or.inl ⟨Or.inr (Or.inr (Or.inr (Or.inl rfl))), rfl⟩
          · split
            · exact Or.inr (Or.inl ⟨rfl, rfl⟩)
            · exact hLift e.nChainHeight
        · exact hLift 0

/-- Every run of `Check`, told by the exit it takes: the state it leaves and the values
that the guards have on the record the call was given.  The first five exits leave the
state alone; each of the others assigns the one state named with it, except the hold,
which assigns none. -/
theorem CheckTrace_full_cases (e : Env) (fForce : Bool) (r : CZnode) :
    (((r.CheckTrace e fForce).1 = CheckExit.shutdown
        ∨ (r.CheckTrace e fForce).1 = CheckExit.throttled
        ∨ (r.CheckTrace e fForce).1 = CheckExit.alreadySpent
        ∨ (r.CheckTrace e fForce).1 = CheckExit.lockBusy
        ∨ (r.CheckTrace e fForce).1 = CheckExit.stillBanned)
      ∧ (r.Check e fForce).nActiveState = r.nActiveState)
    ∨ ((r.CheckTrace e fForce).1 = CheckExit.outpointSpent
      ∧ (r.Check e fForce).nActiveState = ZNODE_OUTPOINT_SPENT)
    ∨ ((r.CheckTrace e fForce).1 = CheckExit.poseBan
      ∧ (r.Check e fForce).nActiveState = ZNODE_POSE_BAN)
    ∨ ((r.CheckTrace e fForce).1 = CheckExit.waitingForPing
      ∧ (r.Check e fForce).nActiveState = r.nActiveState
      ∧ fWaitForPing e r = true ∧ fOurZnode e r = false
      ∧ (r.IsExpired || r.IsWatchdogExpired || r.IsNewStartRequired) = true)
    ∨ ((r.CheckTrace e fForce).1 = CheckExit.newStartRequired
      ∧ (r.Check e fForce).nActiveState = ZNODE_NEW_START_REQUIRED
      ∧ (fWaitForPing e r = false ∨ fOurZnode e r = true)
      ∧ r.IsPingedWithin e.ZNODE_NEW_START_REQUIRED_SECONDS e.nAdjustedTime = false)
    ∨ ((r.CheckTrace e fForce).1 = CheckExit.watchdogExpired
      ∧ (r.Check e fForce).nActiveState = ZNODE_WATCHDOG_EXPIRED
      ∧ (fWaitForPing e r = false ∨ fOurZnode e r = true)
      ∧ r.IsPingedWithin e.ZNODE_NEW_START_REQUIRED_SECONDS e.nAdjustedTime = true
      ∧ fWatchdogExpired e r = true)
    ∨ ((r.CheckTrace e fForce).1 = CheckExit.expired
      ∧ (r.Check e fForce).nActiveState = ZNODE_EXPIRED
      ∧ (fWaitForPing e r = false ∨ fOurZnode e r = true)
      ∧ r.IsPingedWithin e.ZNODE_NEW_START_REQUIRED_SECONDS e.nAdjustedTime = true
      ∧ fWatchdogExpired e r = false
      ∧ r.IsPingedWithin e.ZNODE_EXPIRATION_SECONDS e.nAdjustedTime = false)
    ∨ ((r.CheckTrace e fForce).1 = CheckExit.preEnabled
      ∧ (r.Check e fForce).nActiveState = ZNODE_PRE_ENABLED
      ∧ e.network ≠ Network.REGTEST
      ∧ subInt64 r.lastPing.sigTime r.sigTime < e.ZNODE_MIN_MNP_SECONDS
      ∧ ((fWaitForPing e r = true ∧ fOurZnode e r = false
          ∧ (r.IsExpired || r.IsWatchdogExpired || r.IsNewStartRequired) = false)
        ∨ ((fWaitForPing e r = false ∨ fOurZnode e r = true)
          ∧ r.IsPingedWithin e.ZNODE_NEW_START_REQUIRED_SECONDS e.nAdjustedTime = true
          ∧ fWatchdogExpired e r = false
          ∧ r.IsPingedWithin e.ZNODE_EXPIRATION_SECONDS e.nAdjustedTime = true)))
    ∨ ((r.CheckTrace e fForce).1 = CheckExit.enabled
      ∧ (r.Check e fForce).nActiveState = ZNODE_ENABLED
      ∧ (e.network = Network.REGTEST
        ∨ e.ZNODE_MIN_MNP_SECONDS ≤ subInt64 r.lastPing.sigTime r.sigTime)
      ∧ ((fWaitForPing e r = true ∧ fOurZnode e r = false
          ∧ (r.IsExpired || r.IsWatchdogExpired || r.IsNewStartRequired) = false)
        ∨ ((fWaitForPing e r = false ∨ fOurZnode e r = true)
          ∧ r.IsPingedWithin e.ZNODE_NEW_START_REQUIRED_SECONDS e.nAdjustedTime = true
          ∧ fWatchdogExpired e r = false
          ∧ r.IsPingedWithin e.ZNODE_EXPIRATION_SECONDS e.nAdjustedTime = true))) := by
  unfold CZnode.Check
  rcases CheckTrace_cases e fForce r with h | h | h | ⟨r2, h, hKey, hPing, hSig, hVote, hState⟩
  · exact Or.inl h
  · exact Or.inr (Or.inl h)
  · exact Or.inr (Or.inr (Or.inl h))
  · obtain ⟨g1, g2, g3, g4, g5⟩ := guards_congr e r r2 hKey hPing hVote hState
    have hc := CheckStates_full_cases e r2
    rw [← h] at hc
    rw [g1, g2, g3, g4, g4, g5, hPing, hSig, hState] at hc
    exact Or.inr (Or.inr (Or.inr hc))

/-- The guard of lines 238-250 in general.  For a `Check` that passes all earlier guards
(it ends at none of the eleven exits before line 238), the state becomes PRE_ENABLED if
the network is not the regression-test network and the 64-bit difference
`lastPing.sigTime - sigTime` that line 238 computes is below `ZNODE_MIN_MNP_SECONDS`, and
ENABLED otherwise; and whenever a `Check` ends at the assignment of ENABLED, or leaves a
record ENABLED that was not so before, on another network than regtest, the computed
difference is at least `ZNODE_MIN_MNP_SECONDS`. -/
theorem Check_enable_guard (e : Env) (fForce : Bool) (r : CZnode) :
    ((r.CheckTrace e fForce).1 ∉ [CheckExit.shutdown, CheckExit.throttled,
          CheckExit.alreadySpent, CheckExit.lockBusy, CheckExit.outpointSpent,
          CheckExit.stillBanned, CheckExit.poseBan, CheckExit.waitingForPing,
          CheckExit.newStartRequired, CheckExit.watchdogExpired, CheckExit.expired] →
      ((e.network ≠ Network.REGTEST
          ∧ subInt64 r.lastPing.sigTime r.sigTime < e.ZNODE_MIN_MNP_SECONDS) →
        (r.Check e fForce).nActiveState = ZNODE_PRE_ENABLED)
      ∧ (¬ (e.network ≠ Network.REGTEST
          ∧ subInt64 r.lastPing.sigTime r.sigTime < e.ZNODE_MIN_MNP_SECONDS) →
        (r.Check e fForce).nActiveState = ZNODE_ENABLED))
    ∧ ((r.CheckTrace e fForce).1 = CheckExit.enabled → e.network ≠ Network.REGTEST →
        subInt64 r.lastPing.sigTime r.sigTime ≥ e.ZNODE_MIN_MNP_SECONDS)
    ∧ ((r.Check e fForce).nActiveState = ZNODE_ENABLED → r.nActiveState ≠ ZNODE_ENABLED →
        e.network ≠ Network.REGTEST →
        subInt64 r.lastPing.sigTime r.sigTime ≥ e.ZNODE_MIN_MNP_SECONDS) := by
  have hc := CheckTrace_full_cases e fForce r
  refine ⟨?_, ?_, ?_⟩
  · intro hReach
    rcases hc with ⟨hx, _⟩ | ⟨hx, _⟩ | ⟨hx, _⟩ | ⟨hx, _⟩ | ⟨hx, _⟩ | ⟨hx, _⟩ | ⟨hx, _⟩
        | ⟨_, hs, hn, hd, _⟩ | ⟨_, hs, hd, _⟩
    · rcases hx with hx | hx | hx | hx | hx <;> rw [hx] at hReach <;>
        exact absurd hReach (by decide)
    · rw [hx] at hReach; exact absurd hReach (by decide)
    · rw [hx] at hReach; exact absurd hReach (by decide)
    · rw [hx] at hReach; exact absurd hReach (by decide)
    · rw [hx] at hReach; exact absurd hReach (by decide)
    · rw [hx] at hReach; exact absurd hReach (by decide)
    · rw [hx] at hReach; exact absurd hReach (by decide)
    · exact ⟨fun _ => hs, fun h => absurd ⟨hn, hd⟩ h⟩
    · refine ⟨fun h => ?_, fun _ => hs⟩
      rcases hd with hd | hd
      · exact absurd hd h.1
      · have := h.2
        omega
  · intro hExit hNet
    rcases hc with ⟨hx, _⟩ | ⟨hx, _⟩ | ⟨hx, _⟩ | ⟨hx, _⟩ | ⟨hx, _⟩ | ⟨hx, _⟩ | ⟨hx, _⟩
        | ⟨hx, _⟩ | ⟨_, _, hd, _⟩
    · rcases hx with hx | hx | hx | hx | hx <;> rw [hx] at hExit <;>
        exact absurd hExit (by decide)
    · rw [hx] at hExit; exact absurd hExit (by decide)
    · rw [hx] at hExit; exact absurd hExit (by decide)
    · rw [hx] at hExit; exact absurd hExit (by decide)
    · rw [hx] at hExit; exact absurd hExit (by decide)
    · rw [hx] at hExit; exact absurd hExit (by decide)
    · rw [hx] at hExit; exact absurd hExit (by decide)
    · rw [hx] at hExit; exact absurd hExit (by decide)
    · rcases hd with hd | hd
      · exact absurd hd hNet
      · exact hd
  · intro hNew hOld hNet
    rcases hc with ⟨_, hs⟩ | ⟨_, hs⟩ | ⟨_, hs⟩ | ⟨_, hs, _⟩ | ⟨_, hs, _⟩ | ⟨_, hs, _⟩
        | ⟨_, hs, _⟩ | ⟨_, hs, _⟩ | ⟨_, _, hd, _⟩
    · rw [hs] at hNew; exact absurd hNew hOld
    · rw [hs] at hNew; exact absurd hNew (by decide)
    · rw [hs] at hNew; exact absurd hNew (by decide)
    · rw [hs] at hNew; exact absurd hNew hOld
    · rw [hs] at hNew; exact absurd hNew (by decide)
    · rw [hs] at hNew; exact absurd hNew (by decide)
    · rw [hs] at hNew; exact absurd hNew (by decide)
    · rw [hs] at hNew; exact absurd hNew (by decide)
    · rcases hd with hd | hd
      · exact absurd hd hNet
      · exact hd

/-- When the exact difference `lastPing.sigTime - sigTime` fits in 64 bits, the guard of
line 238 decides on the exact difference: a `Check` that passes all earlier guards gives
PRE_ENABLED if the network is not regtest and the difference is below
`ZNODE_MIN_MNP_SECONDS`, and ENABLED otherwise, and a `Check` that newly assigns ENABLED on
another network than regtest has a difference of at least `ZNODE_MIN_MNP_SECONDS`. -/
theorem Check_enable_guard_exact (e : Env) (fForce : Bool) (r : CZnode)
    (hLo : INT64_MIN ≤ r.lastPing.sigTime - r.sigTime)
    (hHi : r.lastPing.sigTime - r.sigTime ≤ INT64_MAX) :
    ((r.CheckTrace e fForce).1 ∉ [CheckExit.shutdown, CheckExit.throttled,
          CheckExit.alreadySpent, CheckExit.lockBusy, CheckExit.outpointSpent,
          CheckExit.stillBanned, CheckExit.poseBan, CheckExit.waitingForPing,
          CheckExit.newStartRequired, CheckExit.watchdogExpired, CheckExit.expired] →
      ((e.network ≠ Network.REGTEST
          ∧ r.lastPing.sigTime - r.sigTime < e.ZNODE_MIN_MNP_SECONDS) →
        (r.Check e fForce).nActiveState = ZNODE_PRE_ENABLED)
      ∧ (¬ (e.network ≠ Network.REGTEST
          ∧ r.lastPing.sigTime - r.sigTime < e.ZNODE_MIN_MNP_SECONDS) →
        (r.Check e fForce).nActiveState = ZNODE_ENABLED))
    ∧ ((r.CheckTrace e fForce).1 = CheckExit.enabled → e.network ≠ Network.REGTEST →
        r.lastPing.sigTime - r.sigTime ≥ e.ZNODE_MIN_MNP_SECONDS)
    ∧ ((r.Check e fForce).nActiveState = ZNODE_ENABLED → r.nActiveState ≠ ZNODE_ENABLED →
        e.network ≠ Network.REGTEST →
        r.lastPing.sigTime - r.sigTime ≥ e.ZNODE_MIN_MNP_SECONDS) := by
  have h := Check_enable_guard e fForce r
  rw [subInt64_exact r.lastPing.sigTime r.sigTime hLo hHi] at h
  exact h

/-- The guard of line 238 on `envMain` (main network, minimum ping interval 600 s): the
record `znodeYoung`, whose stored ping is 190 seconds after its announcement, becomes
PRE_ENABLED, and `znodeIdleExpired`, whose stored ping is 8000 seconds after it, becomes
ENABLED. -/
theorem Check_enable_guard_exact_example :
    (znodeYoung.Check envMain false).nActiveState = ZNODE_PRE_ENABLED
    ∧ (znodeIdleExpired.Check envMain false).nActiveState = ZNODE_ENABLED
    ∧ znodeIdleExpired.lastPing.sigTime - znodeIdleExpired.sigTime
        ≥ envMain.ZNODE_MIN_MNP_SECONDS :=
  ⟨((Check_enable_guard_exact envMain false znodeYoung (by decide) (by decide)).1
      (by decide)).1 ⟨by decide, by decide⟩,
   ((Check_enable_guard_exact envMain false znodeIdleExpired (by decide) (by decide)).1
      (by decide)).2 (by decide),
   (Check_enable_guard_exact envMain false znodeIdleExpired (by decide) (by decide)).2.2
     (by decide) (by decide) (by decide)⟩

/-- C23: the guard of line 238 subtracts two `int64_t` fields, and the subtraction
overflows on values a peer can send.  The record `znodeFreshPinged` was announced at time
10000 and its stored ping carries `sigTime = INT64_MIN`; on the main network, while the
node list is syncing (`envSyncing`), a forced `Check` passes all earlier guards, and the
exact difference `lastPing.sigTime - sigTime` is far below `ZNODE_MIN_MNP_SECONDS`, yet
the computed difference wraps around to `2 ^ 63 - 10000` and the record becomes ENABLED,
not PRE_ENABLED.  The state is reached from a peer message: `CheckAndUpdate` accepts the
ping `pingMin` for the record `znodeFreshPre`, which has no ping, stores it and leaves the
record ENABLED. -/
theorem Check_enable_int64_overflow :
    envSyncing.network ≠ Network.REGTEST
    ∧ znodeFreshPinged.lastPing.sigTime = INT64_MIN
    ∧ znodeFreshPinged.lastPing.sigTime - znodeFreshPinged.sigTime
        < envSyncing.ZNODE_MIN_MNP_SECONDS
    ∧ subInt64 znodeFreshPinged.lastPing.sigTime znodeFreshPinged.sigTime
        = 9223372036854765808
    ∧ (znodeFreshPinged.CheckTrace envSyncing true).1 = CheckExit.enabled
    ∧ (znodeFreshPinged.Check envSyncing true).nActiveState = ZNODE_ENABLED
    ∧ (znodeFreshPinged.Check envSyncing true).nActiveState ≠ ZNODE_PRE_ENABLED
    ∧ znodeFreshPre.lastPing.IsEmpty = true
    ∧ (pingMin.CheckAndUpdate envSyncing (some znodeFreshPre) false).fOk = true
    ∧ (pingMin.CheckAndUpdate envSyncing (some znodeFreshPre) false).pmn
        = some { znodeFreshPinged with nTimeLastChecked := 10000,
                                       nActiveState := ZNODE_ENABLED } := by
  decide

/-! ## `CheckAndUpdate`, case by case -/

/-- Every run of `CheckAndUpdate` on an existing record: the exit taken, the result and
the values of the tests that lead there.  The record is changed at the last two exits
only, where it is the forced `Check` of the record with the ping stored. -/
theorem CheckAndUpdate_cases (e : Env) (p : CZnodePing) (r : CZnode)
    (fFromNewBroadcast : Bool) :
    (p.CheckAndUpdate e (some r) fFromNewBroadcast
        = { exit := PingExit.simpleCheckFailed, fOk := false, nDos := (p.SimpleCheck e).2,
            pmn := some r, effects := [] }
      ∧ (p.SimpleCheck e).1 = false)
    ∨ (p.CheckAndUpdate e (some r) fFromNewBroadcast
        = { exit := PingExit.updateRequired, fOk := false, nDos := 0, pmn := some r,
            effects := [] }
      ∧ (p.SimpleCheck e).1 = true ∧ fFromNewBroadcast = false ∧ r.IsUpdateRequired = true)
    ∨ (p.CheckAndUpdate e (some r) fFromNewBroadcast
        = { exit := PingExit.newStartRequired, fOk := false, nDos := 0, pmn := some r,
            effects := [] }
      ∧ (p.SimpleCheck e).1 = true ∧ fFromNewBroadcast = false
      ∧ r.IsNewStartRequired = true)
    ∨ (p.CheckAndUpdate e (some r) fFromNewBroadcast
        = { exit := PingExit.blockHashTooOld, fOk := false, nDos := 0, pmn := some r,
            effects := [] }
      ∧ (p.SimpleCheck e).1 = true ∧ blockHashTooOld e p = true)
    ∨ (p.CheckAndUpdate e (some r) fFromNewBroadcast
        = { exit := PingExit.tooEarly, fOk := false, nDos := 0, pmn := some r,
            effects := [] }
      ∧ (p.SimpleCheck e).1 = true
      ∧ r.IsPingedWithin (e.ZNODE_MIN_MNP_SECONDS - 60) p.sigTime = true)
    ∨ (((p.CheckAndUpdate e (some r) fFromNewBroadcast).exit = PingExit.notEnabled
        ∧ (p.CheckAndUpdate e (some r) fFromNewBroadcast).fOk = false
        ∧ (({ r with lastPing := p } : CZnode).Check e true).IsEnabled = false
        ∨ (p.CheckAndUpdate e (some r) fFromNewBroadcast).exit = PingExit.relayed
        ∧ (p.CheckAndUpdate e (some r) fFromNewBroadcast).fOk = true
        ∧ (({ r with lastPing := p } : CZnode).Check e true).IsEnabled = true)
      ∧ (p.CheckAndUpdate e (some r) fFromNewBroadcast).nDos = 0
      ∧ (p.CheckAndUpdate e (some r) fFromNewBroadcast).pmn
          = some (({ r with lastPing := p } : CZnode).Check e true)
      ∧ (p.SimpleCheck e).1 = true
      ∧ (fFromNewBroadcast = true
        ∨ (r.IsUpdateRequired = false ∧ r.IsNewStartRequired = false))
      ∧ blockHashTooOld e p = false
      ∧ r.IsPingedWithin (e.ZNODE_MIN_MNP_SECONDS - 60) p.sigTime = false) := by
  cases hS : (p.SimpleCheck e).1
  · refine Or.inl ⟨?_, rfl⟩
    unfold CZnodePing.CheckAndUpdate
    simp [hS]
  · have hS2 := (SimpleCheck_ok e p hS).1
    cases hF : fFromNewBroadcast
    · cases hU : r.IsUpdateRequired
      · cases hN : r.IsNewStartRequired
        · cases hB : blockHashTooOld e p
          · cases hP : r.IsPingedWithin (e.ZNODE_MIN_MNP_SECONDS - 60) p.sigTime
            · refine Or.inr (Or.inr (Or.inr (Or.inr (Or.inr ?_))))
              cases hE : (({ r with lastPing := p } : CZnode).Check e true).IsEnabled
              · unfold CZnodePing.CheckAndUpdate
                simp [hS2, hU, hN, hB, hP, hE, CZnodePing.CheckSignature]
              · unfold CZnodePing.CheckAndUpdate
                simp [hS2, hU, hN, hB, hP, hE, CZnodePing.CheckSignature]
            · refine Or.inr (Or.inr (Or.inr (Or.inr (Or.inl ⟨?_, rfl, rfl⟩))))
              unfold CZnodePing.CheckAndUpdate
              simp [hS2, hU, hN, hB, hP]
          · refine Or.inr (Or.inr (Or.inr (Or.inl ⟨?_, rfl, rfl⟩)))
            unfold CZnodePing.CheckAndUpdate
            simp [hS2, hU, hN, hB]
        · refine Or.inr (Or.inr (Or.inl ⟨?_, rfl, rfl, rfl⟩))
          unfold CZnodePing.CheckAndUpdate
          simp [hS2, hU, hN]
      · refine Or.inr (Or.inl ⟨?_, rfl, rfl, rfl⟩)
        unfold CZnodePing.CheckAndUpdate
        simp [hS2, hU]
    · cases hB : blockHashTooOld e p
      · cases hP : r.IsPingedWithin (e.ZNODE_MIN_MNP_SECONDS - 60) p.sigTime
        · refine Or.inr (Or.inr (Or.inr (Or.inr (Or.inr ?_))))
          cases hE : (({ r with lastPing := p } : CZnode).Check e true).IsEnabled
          · unfold CZnodePing.CheckAndUpdate
            simp [hS2, hB, hP, hE, CZnodePing.CheckSignature]
          · unfold CZnodePing.CheckAndUpdate
            simp [hS2, hB, hP, hE, CZnodePing.CheckSignature]
        · refine Or.inr (Or.inr (Or.inr (Or.inr (Or.inl ⟨?_, rfl, rfl⟩))))
          unfold CZnodePing.CheckAndUpdate
          simp [hS2, hB, hP]
      · refine Or.inr (Or.inr (Or.inr (Or.inl ⟨?_, rfl, rfl⟩)))
        unfold CZnodePing.CheckAndUpdate
        simp [hS2, hB]

/-! ## Acceptance of a ping -/

/-- C24: `CZnodePing::CheckAndUpdate` returns success only if, after the call, the
record's `lastPing` is the ping and the record's state is ENABLED.  When every
validation step passes but the forced `Check` leaves the record in another state than
ENABLED, the call returns failure although the ping has been stored as the record's
`lastPing`; and every failure that ends elsewhere leaves the record exactly as it was. -/
theorem CheckAndUpdate_success (e : Env) (p : CZnodePing) (r : CZnode)
    (fFromNewBroadcast : Bool) :
    ((p.CheckAndUpdate e (some r) fFromNewBroadcast).fOk = true →
        ∃ r2, (p.CheckAndUpdate e (some r) fFromNewBroadcast).pmn = some r2
          ∧ r2.lastPing = p ∧ r2.nActiveState = ZNODE_ENABLED)
    ∧ ((p.SimpleCheck e).1 = true →
        (fFromNewBroadcast = true
          ∨ (r.IsUpdateRequired = false ∧ r.IsNewStartRequired = false)) →
        blockHashTooOld e p = false →
        r.IsPingedWithin (e.ZNODE_MIN_MNP_SECONDS - 60) p.sigTime = false →
        (({ r with lastPing := p } : CZnode).Check e true).nActiveState ≠ ZNODE_ENABLED →
        (p.CheckAndUpdate e (some r) fFromNewBroadcast).exit = PingExit.notEnabled
        ∧ (p.CheckAndUpdate e (some r) fFromNewBroadcast).fOk = false
        ∧ ∃ r2, (p.CheckAndUpdate e (some r) fFromNewBroadcast).pmn = some r2
          ∧ r2.lastPing = p ∧ r2.nActiveState ≠ ZNODE_ENABLED)
    ∧ ((p.CheckAndUpdate e (some r) fFromNewBroadcast).fOk = false →
        (p.CheckAndUpdate e (some r) fFromNewBroadcast).exit ≠ PingExit.notEnabled →
        (p.CheckAndUpdate e (some r) fFromNewBroadcast).pmn = some r) := by
  have hc := CheckAndUpdate_cases e p r fFromNewBroadcast
  refine ⟨?_, ?_, ?_⟩
  · intro hOk
    rcases hc with ⟨h, _⟩ | ⟨h, _⟩ | ⟨h, _⟩ | ⟨h, _⟩ | ⟨h, _⟩ | ⟨hx, _, hp, _⟩
    · rw [h] at hOk; exact absurd hOk (by simp)
    · rw [h] at hOk; exact absurd hOk (by simp)
    · rw [h] at hOk; exact absurd hOk (by simp)
    · rw [h] at hOk; exact absurd hOk (by simp)
    · rw [h] at hOk; exact absurd hOk (by simp)
    · rcases hx with ⟨_, hf, _⟩ | ⟨_, _, hE⟩
      · rw [hf] at hOk; exact absurd hOk (by decide)
      · refine ⟨_, hp, Check_lastPing e true _, ?_⟩
        simpa [CZnode.IsEnabled] using hE
  · intro hS hState hB hP hNot
    rcases hc with ⟨_, h⟩ | ⟨_, _, hf, hu⟩ | ⟨_, _, hf, hn⟩ | ⟨_, _, hb⟩ | ⟨_, _, hp⟩
        | ⟨hx, _, hp, _⟩
    · rw [hS] at h; exact absurd h (by decide)
    · rcases hState with h | h
      · rw [hf] at h; exact absurd h (by decide)
      · rw [h.1] at hu; exact absurd hu (by decide)
    · rcases hState with h | h
      · rw [hf] at h; exact absurd h (by decide)
      · rw [h.2] at hn; exact absurd hn (by decide)
    · rw [hB] at hb; exact absurd hb (by decide)
    · rw [hP] at hp; exact absurd hp (by decide)
    · rcases hx with ⟨hx, hf, _⟩ | ⟨_, _, hE⟩
      · exact ⟨hx, hf, _, hp, Check_lastPing e true _, hNot⟩
      · have : (({ r with lastPing := p } : CZnode).Check e true).nActiveState
            = ZNODE_ENABLED := by
          simpa [CZnode.IsEnabled] using hE
        exact absurd this hNot
  · intro hFail hExit
    rcases hc with ⟨h, _⟩ | ⟨h, _⟩ | ⟨h, _⟩ | ⟨h, _⟩ | ⟨h, _⟩ | ⟨hx, _⟩
    · rw [h]
    · rw [h]
    · rw [h]
    · rw [h]
    · rw [h]
    · rcases hx with ⟨hx, _⟩ | ⟨_, hf, _⟩
      · exact absurd hx hExit
      · rw [hf] at hFail; exact absurd hFail (by decide)

/-- Witness of C24 in `envMain`: the ping `pingB` is accepted on `znodeIdle`, which is
ENABLED with `pingB` stored afterwards; on `znodeIdleYoung`, announced 200 seconds before
the ping, every validation passes and the ping is stored, but the record becomes
PRE_ENABLED and the call fails; on `znodeA`, pinged ten seconds before, the call fails
and the record is untouched. -/
theorem CheckAndUpdate_success_witness :
    (∃ r2, (pingB.CheckAndUpdate envMain (some znodeIdle) false).pmn = some r2
        ∧ r2.lastPing = pingB ∧ r2.nActiveState = ZNODE_ENABLED)
    ∧ ((pingB.CheckAndUpdate envMain (some znodeIdleYoung) false).exit = PingExit.notEnabled
      ∧ (pingB.CheckAndUpdate envMain (some znodeIdleYoung) false).fOk = false
      ∧ ∃ r2, (pingB.CheckAndUpdate envMain (some znodeIdleYoung) false).pmn = some r2
        ∧ r2.lastPing = pingB ∧ r2.nActiveState ≠ ZNODE_ENABLED)
    ∧ (pingB.CheckAndUpdate envMain (some znodeA) false).pmn = some znodeA :=
  ⟨(CheckAndUpdate_success envMain pingB znodeIdle false).1 (by decide),
   (CheckAndUpdate_success envMain pingB znodeIdleYoung false).2.1 (by decide)
     (Or.inr ⟨by decide, by decide⟩) (by decide) (by decide) (by decide),
   (CheckAndUpdate_success envMain pingB znodeA false).2.2 (by decide) (by decide)⟩

/-- The test of line 467 holds exactly when the embedded ping is empty or fails its own
`SimpleCheck`, and the weight it leaves is that of the ping's `SimpleCheck`, or the
weight it was given when the ping is empty. -/
theorem pingEmptyOrBad_eq (e : Env) (nDos : Int) (lastPing : CZnodePing) :
    ((pingEmptyOrBad e nDos lastPing).1 = true
        ↔ (lastPing.IsEmpty = true ∨ (lastPing.SimpleCheck e).1 = false))
    ∧ (pingEmptyOrBad e nDos lastPing).2
        = if lastPing.IsEmpty = true then nDos else (lastPing.SimpleCheck e).2 := by
  unfold pingEmptyOrBad
  cases hE : lastPing.IsEmpty
  · cases hS : (lastPing.SimpleCheck e).1 <;> simp [hS]
  · simp

/-- A broadcast that satisfies the structural checks passes `SimpleCheck`; the result
carries the broadcast, with the state EXPIRED when the test of line 467 holds, and the
weight that test left. -/
theorem SimpleCheck_passed_result (e : Env) (x : Ext) (mnb : CZnodeBroadcast)
    (hAddr : mnb.base.IsValidNetAddr e x = true)
    (hTime : mnb.base.sigTime ≤ e.nAdjustedTime + 3600)
    (hKeyC : x.scriptSize mnb.base.pubKeyCollateralAddress = 25)
    (hKeyZ : x.scriptSize mnb.base.pubKeyZnode = 25)
    (hSig : mnb.base.vin.scriptSig = [])
    (hPort : (e.network = Network.MAIN ∧ mnb.base.addr.port = x.mainnetDefaultPort)
      ∨ (e.network ≠ Network.MAIN ∧ mnb.base.addr.port ≠ x.mainnetDefaultPort)) :
    mnb.SimpleCheck e x
      = { exit := SimpleCheckExit.passed, fOk := true,
          nDos := (pingEmptyOrBad e 0 mnb.base.lastPing).2,
          mnb := if (pingEmptyOrBad e 0 mnb.base.lastPing).1 = true then
              { mnb with base := { mnb.base with nActiveState := ZNODE_EXPIRED } }
            else mnb } := by
  have hT : ¬ (mnb.base.sigTime > e.nAdjustedTime + 60 * 60) := by omega
  unfold CZnodeBroadcast.SimpleCheck
  rw [hAddr]
  simp only [Bool.not_true, Bool.false_eq_true, if_false, hT]
  cases (pingEmptyOrBad e 0 mnb.base.lastPing).1
  · simp only [Bool.false_eq_true, if_false, hKeyC, hKeyZ, hSig, ne_eq, not_true_eq_false]
    rcases hPort with ⟨h1, h2⟩ | ⟨h1, h2⟩
    · simp [h1, h2]
    · simp [h1, h2]
  · simp only [if_true, hKeyC, hKeyZ, hSig, ne_eq, not_true_eq_false, if_false]
    rcases hPort with ⟨h1, h2⟩ | ⟨h1, h2⟩
    · simp [h1, h2]
    · simp [h1, h2]

/-- C26: for a broadcast that satisfies all structural checks (valid address, `sigTime`
at most an hour ahead, 25-byte key scripts, empty `scriptSig`, port matching the network
rule), `CZnodeBroadcast::SimpleCheck` returns success also when the embedded ping is
empty or fails its own `SimpleCheck`; in exactly that case the broadcast's state is set
to EXPIRED, and when the embedded ping is not empty and passes its `SimpleCheck` the
broadcast is left unchanged. -/
theorem SimpleCheck_tolerates_ping (e : Env) (x : Ext) (mnb : CZnodeBroadcast)
    (hAddr : mnb.base.IsValidNetAddr e x = true)
    (hTime : mnb.base.sigTime ≤ e.nAdjustedTime + 3600)
    (hKeyC : x.scriptSize mnb.base.pubKeyCollateralAddress = 25)
    (hKeyZ : x.scriptSize mnb.base.pubKeyZnode = 25)
    (hSig : mnb.base.vin.scriptSig = [])
    (hPort : (e.network = Network.MAIN ∧ mnb.base.addr.port = x.mainnetDefaultPort)
      ∨ (e.network ≠ Network.MAIN ∧ mnb.base.addr.port ≠ x.mainnetDefaultPort)) :
    (mnb.SimpleCheck e x).fOk = true
    ∧ ((mnb.base.lastPing.IsEmpty = true ∨ (mnb.base.lastPing.SimpleCheck e).1 = false) →
        (mnb.SimpleCheck e x).mnb
          = { mnb with base := { mnb.base with nActiveState := ZNODE_EXPIRED } })
    ∧ (mnb.base.lastPing.IsEmpty = false → (mnb.base.lastPing.SimpleCheck e).1 = true →
        (mnb.SimpleCheck e x).mnb = mnb) := by
  have hR := SimpleCheck_passed_result e x mnb hAddr hTime hKeyC hKeyZ hSig hPort
  have hP := (pingEmptyOrBad_eq e 0 mnb.base.lastPing).1
  rw [hR]
  refine ⟨rfl, ?_, ?_⟩
  · intro h
    have h2 := hP.2 h
    show (if (pingEmptyOrBad e 0 mnb.base.lastPing).1 = true then _ else mnb) = _
    rw [if_pos h2]
  · intro hE hS
    have h2 : ¬ ((pingEmptyOrBad e 0 mnb.base.lastPing).1 = true) := by
      intro hc
      rcases hP.1 hc with h | h
      · rw [hE] at h; exact absurd h (by decide)
      · rw [hS] at h; exact absurd h (by decide)
    show (if (pingEmptyOrBad e 0 mnb.base.lastPing).1 = true then _ else mnb) = mnb
    rw [if_neg h2]

/-- Witness of C26 in `envBlocks` with `extMain`: the broadcast `mnbNoPing`, which carries
no ping, passes and comes out EXPIRED; `mnbNewer`, whose ping is anchored at a known
block, passes and comes out unchanged. -/
theorem SimpleCheck_tolerates_ping_witness :
    ((mnbNoPing.SimpleCheck envBlocks extMain).fOk = true
      ∧ (mnbNoPing.SimpleCheck envBlocks extMain).mnb.base.nActiveState = ZNODE_EXPIRED)
    ∧ ((mnbNewer.SimpleCheck envBlocks extMain).fOk = true
      ∧ (mnbNewer.SimpleCheck envBlocks extMain).mnb = mnbNewer) :=
  have h1 := SimpleCheck_tolerates_ping envBlocks extMain mnbNoPing (by decide) (by decide)
    (by decide) (by decide) (by decide) (Or.inl ⟨by decide, by decide⟩)
  have h2 := SimpleCheck_tolerates_ping envBlocks extMain mnbNewer (by decide) (by decide)
    (by decide) (by decide) (by decide) (Or.inl ⟨by decide, by decide⟩)
  ⟨⟨h1.1, by rw [h1.2.1 (Or.inl (by decide))]⟩,
   ⟨h2.1, h2.2.2 (by decide) (by decide)⟩⟩

/-! ## The DoS weight of `CZnodeBroadcast::SimpleCheck` -/

/-- The weight that the ping's `SimpleCheck` reports is 0 or 1. -/
theorem ping_SimpleCheck_nDos (e : Env) (p : CZnodePing) :
    (p.SimpleCheck e).2 = 0 ∨ (p.SimpleCheck e).2 = 1 := by
  rw [SimpleCheck_eq]
  split
  · exact Or.inr rfl
  · exact Or.inl rfl

/-- C28, as the code has it: the weight that `CZnodeBroadcast::SimpleCheck` reports is
one of 0, 1 and 100 for every input.  When the call returns success, the weight is 0
unless the embedded ping is not empty and its `sigTime` is more than 3600 seconds ahead
of the adjusted time: the ping's own `SimpleCheck` then sets the weight to 1, the ping is
tolerated and nothing resets the weight.  A tolerated ping that is empty or whose anchor
block is unknown leaves the weight 0. -/
theorem SimpleCheck_nDos (e : Env) (x : Ext) (mnb : CZnodeBroadcast) :
    ((mnb.SimpleCheck e x).nDos = 0 ∨ (mnb.SimpleCheck e x).nDos = 1
      ∨ (mnb.SimpleCheck e x).nDos = 100)
    ∧ ((mnb.SimpleCheck e x).fOk = true →
        (mnb.SimpleCheck e x).nDos
          = if mnb.base.lastPing.IsEmpty = false
                ∧ e.nAdjustedTime + 3600 < mnb.base.lastPing.sigTime then 1 else 0) := by
  have hP2 := (pingEmptyOrBad_eq e 0 mnb.base.lastPing).2
  have hPv : (pingEmptyOrBad e 0 mnb.base.lastPing).2
      = if mnb.base.lastPing.IsEmpty = false
            ∧ e.nAdjustedTime + 3600 < mnb.base.lastPing.sigTime then 1 else 0 := by
    rw [hP2]
    cases hE : mnb.base.lastPing.IsEmpty
    · simp only [Bool.false_eq_true, if_false, true_and]
      rw [SimpleCheck_eq]
      split <;> rfl
    · simp
  have hP01 : (pingEmptyOrBad e 0 mnb.base.lastPing).2 = 0
      ∨ (pingEmptyOrBad e 0 mnb.base.lastPing).2 = 1 := by
    rw [hPv]
    split
    · exact Or.inr rfl
    · exact Or.inl rfl
  have hAll : ((mnb.SimpleCheck e x).nDos = 0 ∨ (mnb.SimpleCheck e x).nDos = 1
        ∨ (mnb.SimpleCheck e x).nDos = 100)
      ∧ ((mnb.SimpleCheck e x).fOk = true →
          (mnb.SimpleCheck e x).nDos = (pingEmptyOrBad e 0 mnb.base.lastPing).2) := by
    have hP3 : (pingEmptyOrBad e 0 mnb.base.lastPing).2 = 0
        ∨ (pingEmptyOrBad e 0 mnb.base.lastPing).2 = 1
        ∨ (pingEmptyOrBad e 0 mnb.base.lastPing).2 = 100 := by
      rcases hP01 with h | h
      · exact Or.inl h
      · exact Or.inr (Or.inl h)
    unfold CZnodeBroadcast.SimpleCheck
    simp only []
    cases (pingEmptyOrBad e 0 mnb.base.lastPing).1
    all_goals simp only [Bool.false_eq_true, if_false, if_true]
    all_goals repeat' split
    all_goals first
      | exact ⟨Or.inl rfl, fun h => absurd h (by simp)⟩
      | exact ⟨Or.inr (Or.inl rfl), fun h => absurd h (by simp)⟩
      | exact ⟨Or.inr (Or.inr rfl), fun h => absurd h (by simp)⟩
      | exact ⟨hP3, fun _ => rfl⟩
  refine ⟨hAll.1, fun hOk => ?_⟩
  rw [hAll.2 hOk, hPv]

/-- Witness of C28 as the code has it, in `envMain` with `extMain`: the broadcasts
`mnbNewer` and `mnbNoPing` pass with weight 0. -/
theorem SimpleCheck_nDos_witness :
    (mnbNewer.SimpleCheck envMain extMain).nDos = 0
    ∧ (mnbNoPing.SimpleCheck envMain extMain).nDos = 0 :=
  ⟨by rw [(SimpleCheck_nDos envMain extMain mnbNewer).2 (by decide)]; decide,
   by rw [(SimpleCheck_nDos envMain extMain mnbNoPing).2 (by decide)]; decide⟩

/-- Counterexample to C28 as stated: in `envMain` (adjusted time 10000) with `extMain`
the broadcast `mnbPingAhead`, whose embedded ping is signed at 15000, passes
`SimpleCheck`, the ping being tolerated, and the reported DoS weight is 1, not 0. -/
theorem SimpleCheck_nDos_counterexample :
    (mnbPingAhead.base.lastPing.SimpleCheck envMain).1 = false
    ∧ (mnbPingAhead.SimpleCheck envMain extMain).fOk = true
    ∧ (mnbPingAhead.SimpleCheck envMain extMain).nDos = 1
    ∧ (mnbPingAhead.SimpleCheck envMain extMain).nDos ≠ 0 := by
  decide

/-! ## The time of the confirming block in `CheckOutpoint` -/

/-- C27: take a broadcast that passes the coin checks of
`CZnodeBroadcast::CheckOutpoint` (not the local node's own, lock obtained, coin unspent, of
the required value and with at least the minimum number of confirmations) and whose
collateral transaction is in a known block at height `h`, the height at which the coin
was created, on a chain that has a block at every height from 0 to its tip, the minimum
number of confirmations being at least 1.  Then the active chain has a block at height
`h + nZnodeMinimumConfirmations - 1`, so the lookup of line 602 is not null, and
`CheckOutpoint` returns success exactly when that block's time is at most the
broadcast's `sigTime`. -/
theorem CheckOutpoint_confirmation_time (e : Env) (x : Ext) (mnb : CZnodeBroadcast)
    (nDosIn : Int) (coin : Coin) (pMNIndex : CBlockIndex)
    (hOwn : ¬ (e.fMasternodeMode = true ∧ mnb.base.vin.prevout = e.activePrevout
        ∧ mnb.base.pubKeyZnode = e.activePubKeyZnode))
    (hLock : e.lockMain = true)
    (hCoin : e.GetCoin mnb.base.vin.prevout = some coin)
    (hNull : coin.outIsNull = false)
    (hSpent : coin.fSpent = false)
    (hValue : coin.nValue = x.nCollateralValue)
    (hDepth : x.nZnodeMinimumConfirmations ≤ e.nChainHeight - coin.nHeight + 1)
    (hBlock : e.mapBlockIndex (x.GetTransactionBlock mnb.base.vin.prevout.hash)
      = some (some pMNIndex))
    (hCoinHeight : coin.nHeight = pMNIndex.nHeight)
    (hHeight : 0 ≤ pMNIndex.nHeight)
    (hMin : 1 ≤ x.nZnodeMinimumConfirmations)
    (hChain : ∀ n : Int, 0 ≤ n → n ≤ e.nChainHeight → ∃ b, x.chainActive n = some b) :
    ∃ pConfIndex res,
      x.chainActive (pMNIndex.nHeight + x.nZnodeMinimumConfirmations - 1) = some pConfIndex
      ∧ mnb.CheckOutpoint e x nDosIn = some res
      ∧ res.nDos = 0
      ∧ (res.fOk = true ↔ pConfIndex.nTime ≤ mnb.base.sigTime) := by
  obtain ⟨pConfIndex, hConf⟩ := hChain (pMNIndex.nHeight + x.nZnodeMinimumConfirmations - 1)
    (by omega) (by omega)
  have hOwn2 : (e.fMasternodeMode && decide (mnb.base.vin.prevout = e.activePrevout)
      && decide (mnb.base.pubKeyZnode = e.activePubKeyZnode)) = false := by
    by_contra h
    simp at h
    exact hOwn ⟨h.1, h.2.1, h.2.2⟩
  have hD : ¬ (e.nChainHeight - coin.nHeight + 1 < x.nZnodeMinimumConfirmations) := by omega
  have hEq : mnb.CheckOutpoint e x nDosIn = CheckConfirmationTime e x mnb 0 := by
    unfold CZnodeBroadcast.CheckOutpoint
    rw [hOwn2]
    simp only [CZnodeBroadcast.CheckSignature, hCoin, hNull, hSpent, hValue, hD, hLock]
    simp
  by_cases hT : pConfIndex.nTime > mnb.base.sigTime
  · refine ⟨pConfIndex,
      { exit := OutpointExit.sigTimeBeforeConfirmation, fOk := false, nDos := 0 },
      hConf, ?_, rfl, ?_⟩
    · rw [hEq]
      unfold CheckConfirmationTime
      simp only [hBlock, hConf]
      rw [if_pos hT]
    · constructor
      · intro h
        exact absurd h (by decide)
      · intro h
        omega
  · refine ⟨pConfIndex, { exit := OutpointExit.verified, fOk := true, nDos := 0 },
      hConf, ?_, rfl, ?_⟩
    · rw [hEq]
      unfold CheckConfirmationTime
      simp only [hBlock, hConf]
      rw [if_neg hT]
    · constructor
      · intro _
        omega
      · intro _
        rfl

/-- Witness of C27 in `envCoinBlock` with `extMain` (tip 100, coin and its block at
height 10, 6 confirmations required, block 15 of the chain at time 150): the broadcast
`mnbNewer`, signed at 2000, is accepted, and `mnbEarly`, signed at 100, is not. -/
theorem CheckOutpoint_confirmation_time_witness :
    (∃ pConfIndex res, extMain.chainActive (10 + 6 - 1) = some pConfIndex
        ∧ mnbNewer.CheckOutpoint envCoinBlock extMain 5 = some res ∧ res.nDos = 0
        ∧ (res.fOk = true ↔ pConfIndex.nTime ≤ mnbNewer.base.sigTime))
    ∧ mnbNewer.CheckOutpoint envCoinBlock extMain 5
        = some { exit := OutpointExit.verified, fOk := true, nDos := 0 }
    ∧ mnbEarly.CheckOutpoint envCoinBlock extMain 5
        = some { exit := OutpointExit.sigTimeBeforeConfirmation, fOk := false, nDos := 0 } :=
  ⟨CheckOutpoint_confirmation_time envCoinBlock extMain mnbNewer 5 coinOk
      { nHeight := 10, nTime := 100 } (by decide) (by decide) (by decide) (by decide)
      (by decide) (by decide) (by decide) (by decide) (by decide) (by decide) (by decide)
      (fun n h0 h1 => ⟨{ nHeight := n, nTime := 10 * n }, by
        have h2 : n ≤ 100 := h1
        show (if 0 ≤ n ∧ n ≤ 100 then some _ else none) = _
        rw [if_pos ⟨h0, h2⟩]⟩),
   by decide, by decide⟩

/-! ## `getOpCodeData` -/

/-- On the end of the script the loop of `getOpCodeData` is left, and control reaches
the end of the function body. -/
theorem getOpCodeDataLoop_nil (lib : ScriptLib) (op_data : List Nat) :
    getOpCodeDataLoop lib op_data [] = OpCodeDataResult.noReturn op_data := by
  rw [getOpCodeDataLoop]

/-- One turn of the loop of `getOpCodeData`. -/
theorem getOpCodeDataLoop_cons (lib : ScriptLib) (op_data : List Nat) (b : Nat)
    (rest : List Nat) :
    getOpCodeDataLoop lib op_data (b :: rest)
      = match lib.GetOp (b :: rest) with
        | none => OpCodeDataResult.returned false op_data
        | some (opcode, data, nMoved) =>
          if data.length > 0 ∧ opcode < lib.OP_PUSHDATA4 then
            OpCodeDataResult.returned true data
          else getOpCodeDataLoop lib op_data (rest.drop nMoved) := by
  rw [getOpCodeDataLoop]

/-- C29: for the output `txoutEmpty`, whose script is empty, `getOpCodeData` reaches the
end of its body without a `return` statement, whatever the script library and the
caller's vector are: it returns no defined value, not false, and
`isValidNotificationTransactionOpReturn` has no defined value either.  The same holds
for `txoutReturnOnly`, whose script parses fully and has no operation with data, while a
script with a push returns true with the data and a truncated one returns false. -/
theorem getOpCodeData_no_return (lib : ScriptLib) (op_data : List Nat) :
    getOpCodeData lib txoutEmpty op_data = OpCodeDataResult.noReturn op_data
    ∧ getOpCodeData lib txoutEmpty op_data ≠ OpCodeDataResult.returned false op_data
    ∧ isValidNotificationTransactionOpReturn lib txoutEmpty = none
    ∧ getOpCodeData libDirect txoutReturnOnly op_data = OpCodeDataResult.noReturn op_data
    ∧ isValidNotificationTransactionOpReturn libDirect txoutReturnOnly = none
    ∧ getOpCodeData libDirect txoutReturnData op_data
        = OpCodeDataResult.returned true [7, 8, 9]
    ∧ getOpCodeData libDirect txoutTruncated op_data
        = OpCodeDataResult.returned false op_data := by
  have h1 : getOpCodeData lib txoutEmpty op_data = OpCodeDataResult.noReturn op_data := by
    unfold getOpCodeData txoutEmpty
    exact getOpCodeDataLoop_nil lib op_data
  have h2 : ∀ d : List Nat,
      getOpCodeData libDirect txoutReturnOnly d = OpCodeDataResult.noReturn d := by
    intro d
    unfold getOpCodeData txoutReturnOnly
    rw [getOpCodeDataLoop_cons]
    simp [libDirect, getOpCodeDataLoop_nil]
  refine ⟨h1, ?_, ?_, h2 op_data, ?_, ?_, ?_⟩
  · rw [h1]
    simp
  · unfold isValidNotificationTransactionOpReturn
    have h3 : getOpCodeData lib txoutEmpty [] = OpCodeDataResult.noReturn [] := by
      unfold getOpCodeData txoutEmpty
      exact getOpCodeDataLoop_nil lib []
    rw [h3]
  · unfold isValidNotificationTransactionOpReturn
    rw [h2 []]
  · unfold getOpCodeData txoutReturnData
    rw [getOpCodeDataLoop_cons]
    simp only [libDirect]
    simp
    rw [getOpCodeDataLoop_cons]
    simp
  · unfold getOpCodeData txoutTruncated
    rw [getOpCodeDataLoop_cons]
    simp only [libDirect]
    simp
    rw [getOpCodeDataLoop_cons]
    simp

/-- Every run of the loop of `getOpCodeData` ends in one of three ways: the end of the
body is reached with the caller's vector untouched, false is returned with the vector
untouched, or true is returned with non-empty data. -/
theorem getOpCodeDataLoop_cases (lib : ScriptLib) (op_data : List Nat) :
    ∀ (n : Nat) (pc : List Nat), pc.length ≤ n →
      getOpCodeDataLoop lib op_data pc = OpCodeDataResult.noReturn op_data
      ∨ getOpCodeDataLoop lib op_data pc = OpCodeDataResult.returned false op_data
      ∨ ∃ data, data ≠ [] ∧
          getOpCodeDataLoop lib op_data pc = OpCodeDataResult.returned true data := by
  intro n
  induction n with
  | zero =>
    intro pc h
    cases pc with
    | nil => exact Or.inl (getOpCodeDataLoop_nil lib op_data)
    | cons b rest => simp at h
  | succ n ih =>
    intro pc h
    cases pc with
    | nil => exact Or.inl (getOpCodeDataLoop_nil lib op_data)
    | cons b rest =>
      rw [getOpCodeDataLoop_cons]
      cases hOp : lib.GetOp (b :: rest) with
      | none => exact Or.inr (Or.inl rfl)
      | some t =>
        obtain ⟨opcode, data, nMoved⟩ := t
        by_cases hc : data.length > 0 ∧ opcode < lib.OP_PUSHDATA4
        · refine Or.inr (Or.inr ⟨data, ?_, ?_⟩)
          · intro hd
            rw [hd] at hc
            simp at hc
          · simp only [hc, and_self, if_true]
        · simp only [hc, if_false]
          apply ih
          simp only [List.length_drop]
          simp only [List.length_cons] at h
          omega

end Znode
